import Mathlib

/-!
# Entitlement engine of `index.js`

A shallow embedding of the premium-time, redeem-code, partner-request and script-access
parts of `src/index.js`, with the loading of the database, the creation of codes and
keys, the set-buyer handlers and the reply chunks, followed by the properties proved about
them.

Modelling conventions.

* A JavaScript object used as a dictionary is a `Table`: an association list in
  insertion order.  `obj[k]` is `Table.lookup`, `obj[k] = v` is `Table.assign`
  and `delete obj[k]` is `Table.remove`.  An object has each key once, so a table that
  stands for one has distinct keys (`(Table.keys t).Nodup`); the three operations keep
  this, and statements that count what a loop over a table does assume it.
* A property that may hold `null` or be absent is an `Option`; `none` stands for
  both, which the code never tells apart (both are falsy).
* JavaScript truthiness is explicit: a number is truthy when it is not `0`, a
  string when it is not empty (`truthyNum`, `truthyStr`).
* `Date.now()` is a parameter `now : Nat` (milliseconds since the epoch).  The
  several clock reads of one synchronous call are one reading.
* Numbers come at two levels.  The records and the functions on the database
  (`addPremiumTime`, `getRemainingTime`, the set-buyer handlers) hold mathematical integers:
  they describe the code where every number it computes is a safe integer (of magnitude at
  most `2 ^ 53 - 1`), on which the arithmetic of JavaScript numbers is exact.  The arithmetic
  itself is also given for every JavaScript number (`JsNumber`, with the rounding of doubles,
  the infinities and `NaN`): `jsExpiryDate`, `jsRemainingTime`, `jsDurationGrant` and
  `jsCustomtimeGrant` compute what the code computes, and the lemmas `jsExpiryDate_exact` and
  `jsRemainingTime_exact` show that the two levels agree on safe integers.
* `obj[k]` for a key that the user types also finds the members every object inherits
  (`objectPrototypeKeys`); this is modelled where the key is free text (`redeemCodeAt`).  The
  other keys are ids made by the platform or by the bot.
* `Math.random()` based generators are parameters (`key`).
* `saveDatabase` serialises the in-memory `database`, which it leaves as it is.  The
  premium, redeem and script functions return the in-memory database after the call; the
  partner handlers work on a `Store`, which also holds the content of the file.
* Calls to the chat platform are answered by parameters (`ReviewEnv`, `promptOk`, ...),
  and the completed calls are returned as a list of `PlatformEffect`.
-/

namespace Valmor

/-! ## Dictionaries -/

/-- A string-keyed JavaScript object, in insertion order. -/
abbrev Table (α : Type) := List (String × α)

/-- The read `obj[key]`: the first binding of `key`. -/
def Table.lookup {α : Type} : Table α → String → Option α
  | [], _ => none
  | (k, v) :: rest, key => if k = key then some v else Table.lookup rest key

/-- The write `obj[key] = v`: replaces the binding in place, or appends one. -/
def Table.assign {α : Type} : Table α → String → α → Table α
  | [], key, v => [(key, v)]
  | (k, w) :: rest, key, v =>
      if k = key then (k, v) :: rest else (k, w) :: Table.assign rest key v

/-- The statement `delete obj[key]`. -/
def Table.remove {α : Type} : Table α → String → Table α
  | [], _ => []
  | (k, w) :: rest, key =>
      if k = key then Table.remove rest key else (k, w) :: Table.remove rest key

/-- Truthiness of a possibly absent number: set, and not `0`. -/
def truthyNum : Option Int → Bool
  | some n => decide (n ≠ 0)
  | none => false

/-- Truthiness of a possibly absent string: set, and not empty. -/
def truthyStr : Option String → Bool
  | some s => decide (s ≠ "")
  | none => false

/-! ## Records of the persisted layout -/

/-- An entry of `database.panels`; every field is set by its own admin action. -/
structure Panel where
  channelId : Option String := none
  description : Option String := none
  title : Option String := none
  script : Option String := none
  requiredRole : Option String := none
  status : Option String := none
  messageId : Option String := none
deriving DecidableEq, Repr

/-- An entry of `database.redeemCodes`.  An object without a `rank` has the empty string
here, which like `undefined` is not the rank `buyer`. -/
structure RedeemCode where
  rank : String
  duration : Option String := none
  used : Bool := false
  usedBy : Option String := none
  usedInGuild : Option String := none
  createdAt : Nat := 0
  createdBy : String := ""
  singleUsePerServer : Option Bool := none
deriving DecidableEq, Repr

/-- An entry of `database.userKeys`.  A string field that an entry does not have (the
`modaladdaccess` action makes entries without `script`) is the empty string here, which the
handlers below treat as they treat an absent one. -/
structure UserKey where
  key : String
  rank : String
  duration : Option String
  redeemedAt : Nat
  guildId : String
  script : String
  panelType : String
deriving DecidableEq, Repr

/-- An entry of `database.premiumBuyers`.  The expiry date is an integer; `jsExpiryDate` and
`jsRemainingTime` take the expiry date as a `JsNumber`, which may also be an infinity. -/
structure PremiumBuyer where
  userId : String
  addedDate : Nat
  lifetime : Bool := false
  autoRenew : Bool := false
  expired : Bool := false
  grantedBy : String
  lastUpdate : Option Nat := none
  expiryDate : Option Int := none
  expiredAt : Option Nat := none
deriving DecidableEq, Repr

/-- An entry of `database.partnerRequests[guildId]`. -/
structure PartnerRequest where
  userId : String
  username : String
  serverName : String
  reason : String
  discordLink : String
  status : String
  createdAt : Nat
  guildId : String
  reviewedAt : Option Nat := none
  reviewedBy : Option String := none
  channelId : Option String := none
  roleId : Option String := none
deriving DecidableEq, Repr

/-- An entry of `database.partnerConfig`. -/
structure PartnerConfig where
  receiverId : Option String := none
deriving DecidableEq, Repr

/-- An entry of `database.developmentKeys`. -/
structure DevelopmentKey where
  role : String
  playerId : String
  unlimited : Bool
  used : Bool := false
  usedBy : Option String := none
  createdAt : Nat
  createdBy : String
deriving DecidableEq, Repr

/-- The in-memory `database`.  `developmentKeys` is not part of the default
database of `loadDatabase` and is created on first use, hence the `Option`. -/
structure Database where
  panels : Table Panel := []
  redeemCodes : Table RedeemCode := []
  userKeys : Table UserKey := []
  hwids : Table String := []
  premiumBuyers : Table PremiumBuyer := []
  partnerRequests : Table (Table PartnerRequest) := []
  partnerConfig : Table PartnerConfig := []
  developmentKeys : Option (Table DevelopmentKey) := none
deriving DecidableEq, Repr

/-- The `defaultDb` of `loadDatabase`: every table empty. -/
def defaultDb : Database := {}

/-! ## Premium time -/

/-- The function `isPremiumActive(userId)`, read at clock value `now`. -/
def isPremiumActive (database : Database) (userId : String) (now : Nat) : Bool :=
  match database.premiumBuyers.lookup userId with
  | none => false
  | some buyer =>
    if buyer.lifetime then true
    else if truthyNum buyer.expiryDate && decide ((now : Int) ≥ buyer.expiryDate.getD 0) then false
    else if truthyNum buyer.expiryDate && decide ((now : Int) < buyer.expiryDate.getD 0) then true
    else false

/-- The `additionalTime` computed in the non-lifetime branch of `addPremiumTime`, on
integers; a `durationType` that matches no case leaves it at `0`.  The products as
JavaScript numbers are `jsAdditionalTime`, which is this value while it is a safe
integer. -/
def additionalTime (durationType : String) (durationValue : Int) : Int :=
  if durationType = "seconds" then durationValue * 1000
  else if durationType = "days" then durationValue * 24 * 60 * 60 * 1000
  else if durationType = "months" then durationValue * 30 * 24 * 60 * 60 * 1000
  else if durationType = "years" then durationValue * 365 * 24 * 60 * 60 * 1000
  else 0

/-- The `currentExpiry` of `addPremiumTime`:
`buyer.expiryDate && buyer.expiryDate > now ? buyer.expiryDate : now`. -/
def currentExpiry (expiryDate : Option Int) (now : Nat) : Int :=
  if truthyNum expiryDate && decide (expiryDate.getD 0 > (now : Int)) then expiryDate.getD 0
  else (now : Int)

/-- The record `addPremiumTime` stores for a user without one. -/
def newBuyer (userId grantedBy : String) (now : Nat) : PremiumBuyer :=
  { userId := userId, addedDate := now, lifetime := false, autoRenew := false,
    expired := false, grantedBy := grantedBy }

/-- The updates `addPremiumTime` makes to `buyer` once the record exists.  The expiry date
is the sum on integers; as a JavaScript number it is `jsExpiryDate`, which is this sum while
it and the product are safe integers. -/
def grantTo (buyer : PremiumBuyer) (durationType : String) (durationValue : Int)
    (grantedBy : String) (now : Nat) : PremiumBuyer :=
  let buyer := { buyer with expired := false, grantedBy := grantedBy, lastUpdate := some now }
  if durationType = "lifetime" then
    { buyer with lifetime := true, expiryDate := none }
  else
    { buyer with
      expiryDate := some (currentExpiry buyer.expiryDate now + additionalTime durationType durationValue),
      lifetime := false }

/-- The function `addPremiumTime(userId, durationType, durationValue, grantedBy)`. -/
def addPremiumTime (database : Database) (userId durationType : String) (durationValue : Int)
    (grantedBy : String) (now : Nat) : Database :=
  let buyer :=
    match database.premiumBuyers.lookup userId with
    | some buyer => buyer
    | none => newBuyer userId grantedBy now
  { database with
    premiumBuyers :=
      database.premiumBuyers.assign userId (grantTo buyer durationType durationValue grantedBy now) }

/-- The `remove` action of `handleSetBuyerInteraction`: a user without a record is
refused, otherwise `delete database.premiumBuyers[targetUserId]`. -/
def removePremium (database : Database) (targetUserId : String) : Database :=
  match database.premiumBuyers.lookup targetUserId with
  | none => database
  | some _ => { database with premiumBuyers := database.premiumBuyers.remove targetUserId }

/-! ## Premium time: the accrual rule -/

/-- The unit table of the accrual rule, in milliseconds: a second, a day, a
30-day month and a 365-day year. -/
def unitMillis (durationKind : String) : Int :=
  if durationKind = "seconds" then 1000
  else if durationKind = "days" then 86400000
  else if durationKind = "months" then 30 * 86400000
  else if durationKind = "years" then 365 * 86400000
  else 0

/-- The base of the accrual rule: `max(now, existing expiryDate)`, and `now` when
no expiry date is set. -/
def accrualBase (existing : Option Int) (now : Nat) : Int :=
  match existing with
  | some e => max (now : Int) e
  | none => (now : Int)

/-- The expiry date stored for `userId`, if the user has a record with one. -/
def expiryOf (database : Database) (userId : String) : Option Int :=
  (database.premiumBuyers.lookup userId).bind (fun buyer => buyer.expiryDate)

/-! ## Redemption -/

/-- The replies of the `modalredeem` action of `handlePanelUserInteraction`: the five
refusals, in the order the code tests them, and the success embed, which shows the new key
and the premium badge. -/
inductive RedeemReply where
  /-- The reply `Panel tidak ditemukan!`. -/
  | panelNotFound
  /-- The reply `Kode tidak valid!`. -/
  | invalidCode
  /-- The reply `Kode ini sudah digunakan!`. -/
  | alreadyUsed
  /-- The reply `Kode ini sudah digunakan oleh user lain!`. -/
  | usedByOtherUser
  /-- The reply `Kode ini sudah digunakan di server lain!`. -/
  | usedInOtherGuild
  /-- The embed `Key Berhasil Diredeem!`. -/
  | redeemed (key : String) (isPremiumUser : Bool)
deriving DecidableEq, Repr

/-- Whether a reply is the success embed. -/
def RedeemReply.isSuccess : RedeemReply → Bool
  | .redeemed _ _ => true
  | _ => false

/-- The script stored in a key when the panel has none configured. -/
def defaultScript : String :=
  "loadstring(game:HttpGet(\"https://example.com/script.lua\"))()"

/-- The expression `panelData.script || '<default script>'`. -/
def scriptOf (panelData : Panel) : String :=
  if truthyStr panelData.script then panelData.script.getD "" else defaultScript

/-- The names a plain object inherits from `Object.prototype`: for these `obj[name]` is a
function or an object, hence truthy, also when `obj` has no entry of that name. -/
def objectPrototypeKeys : List String :=
  ["constructor", "hasOwnProperty", "isPrototypeOf", "propertyIsEnumerable", "toLocaleString",
    "toString", "valueOf", "__proto__", "__defineGetter__", "__defineSetter__",
    "__lookupGetter__", "__lookupSetter__"]

/-- What the handler reads from an inherited member: none of the fields of a redeem code is
set on it. -/
def inheritedMember : RedeemCode :=
  { rank := "" }

/-- The read `database.redeemCodes[code]` for a `code` typed by the user: the stored entry,
or else the member of that name inherited from `Object.prototype`. -/
def redeemCodeAt (database : Database) (code : String) : Option RedeemCode :=
  match database.redeemCodes.lookup code with
  | some redeemData => some redeemData
  | none => if code ∈ objectPrototypeKeys then some inheritedMember else none

/-- The `modalredeem` action of `handlePanelUserInteraction(interaction)`: `panelType` comes
from the interaction id, which the bot made for one of its panels, `code` is the text typed
into the form, `userId` and `guildId` come from the interaction, `key` is the result of
`generateKey()`.  Returns the reply and the database afterwards. -/
def modalredeem (database : Database) (panelType code userId guildId key : String) (now : Nat) :
    RedeemReply × Database :=
  match database.panels.lookup panelType with
  | none => (.panelNotFound, database)
  | some panelData =>
    match redeemCodeAt database code with
    | none => (.invalidCode, database)
    | some redeemData =>
      if redeemData.used && decide (redeemData.rank = "buyer") then (.alreadyUsed, database)
      else if decide (redeemData.rank = "buyer") && (truthyStr redeemData.usedBy
          && decide (redeemData.usedBy ≠ some userId)) then
        (.usedByOtherUser, database)
      else if decide (redeemData.rank = "buyer") && (truthyStr redeemData.usedInGuild
          && decide (redeemData.usedInGuild ≠ some guildId)) then
        (.usedInOtherGuild, database)
      else
        let userKeys := database.userKeys.assign userId
          { key := key, rank := redeemData.rank, duration := redeemData.duration,
            redeemedAt := now, guildId := guildId, script := scriptOf panelData,
            panelType := panelType }
        let redeemCodes :=
          if redeemData.rank = "buyer" then
            database.redeemCodes.assign code
              { redeemData with used := true, usedBy := some userId, usedInGuild := some guildId }
          else database.redeemCodes
        let database := { database with userKeys := userKeys, redeemCodes := redeemCodes }
        (.redeemed key (isPremiumActive database userId now), database)

/-- One submission of the redeem form. -/
structure RedeemAttempt where
  panelType : String
  code : String
  userId : String
  guildId : String
  key : String
  now : Nat
deriving DecidableEq, Repr

/-- The `modalredeem` action on the data of one submission. -/
def RedeemAttempt.run (attempt : RedeemAttempt) (database : Database) : RedeemReply × Database :=
  modalredeem database attempt.panelType attempt.code attempt.userId attempt.guildId attempt.key
    attempt.now

/-- Successive submissions of the redeem form: the replies, in order, and the database
after the last one. -/
def redeemRun : Database → List RedeemAttempt → List RedeemReply × Database
  | database, [] => ([], database)
  | database, attempt :: rest =>
    let step := attempt.run database
    let tail := redeemRun step.2 rest
    (step.1 :: tail.1, tail.2)

/-- A small database for the concrete checks: one panel with a script, one unused buyer
code as `handleRedeemCodePanel` creates it, and one staff code as the create form does. -/
def exampleDb : Database :=
  { panels := [("main", { script := some "print(1)" })],
    redeemCodes :=
      [("Valuamor-ABC-123",
          { rank := "buyer", used := false, usedBy := none, usedInGuild := none,
            createdAt := 500, createdBy := "owner", singleUsePerServer := some true }),
        ("Valuamor-XYZ-999",
          { rank := "staff", duration := some "30 days", used := false, createdAt := 600,
            createdBy := "owner" })] }

/-! ## Expiry sweep -/

/-- The keys of a dictionary, in enumeration order. -/
def Table.keys {α : Type} (t : Table α) : List String := t.map Prod.fst

/-- The loop of `checkAndExpirePremiums` over the entries of `database.premiumBuyers`:
the table afterwards, and the users to whom an expiry notice is sent, one per pass through
the inner `if (!buyer.expired)`.  The entries are visited in the order of the table; the
properties below do not depend on that order. -/
def sweepBuyers (now : Nat) : Table PremiumBuyer → Table PremiumBuyer × List String
  | [] => ([], [])
  | (userId, buyer) :: rest =>
    let swept := sweepBuyers now rest
    if !buyer.lifetime
        && (truthyNum buyer.expiryDate && decide ((now : Int) ≥ buyer.expiryDate.getD 0)) then
      if !buyer.expired then
        ((userId, { buyer with expired := true, expiredAt := some now }) :: swept.1,
          userId :: swept.2)
      else ((userId, buyer) :: swept.1, swept.2)
    else ((userId, buyer) :: swept.1, swept.2)

/-- The function `checkAndExpirePremiums()`, read at clock value `now`: the database
afterwards and the users notified. -/
def checkAndExpirePremiums (database : Database) (now : Nat) : Database × List String :=
  let swept := sweepBuyers now database.premiumBuyers
  ({ database with premiumBuyers := swept.1 }, swept.2)

/-- The records the sweep is described to flag: not lifetime, an expiry date at or before
`now`, not yet flagged. -/
def dueAsDescribed (buyer : PremiumBuyer) (now : Nat) : Bool :=
  !buyer.lifetime
    && (match buyer.expiryDate with
        | some expiryDate => decide (expiryDate ≤ (now : Int))
        | none => false)
    && !buyer.expired

/-- The records the sweep flags: as `dueAsDescribed`, with an expiry date other than `0`. -/
def isDue (buyer : PremiumBuyer) (now : Nat) : Bool :=
  !buyer.lifetime
    && (match buyer.expiryDate with
        | some expiryDate => decide (expiryDate ≠ 0) && decide (expiryDate ≤ (now : Int))
        | none => false)
    && !buyer.expired

/-- A record as the sweep flags it. -/
def flagged (buyer : PremiumBuyer) (now : Nat) : PremiumBuyer :=
  { buyer with expired := true, expiredAt := some now }

/-- One step of a history of the premium table: a grant, a removal or a sweep. -/
inductive PremiumOp where
  | grant (userId durationType : String) (durationValue : Int) (grantedBy : String) (now : Nat)
  | remove (targetUserId : String)
  | sweep (now : Nat)
deriving DecidableEq, Repr

/-- The database after one step. -/
def PremiumOp.apply (database : Database) : PremiumOp → Database
  | .grant userId durationType durationValue grantedBy now =>
    addPremiumTime database userId durationType durationValue grantedBy now
  | .remove targetUserId => removePremium database targetUserId
  | .sweep now => (checkAndExpirePremiums database now).1

/-- The database after a history of steps. -/
def runPremiumOps (database : Database) (ops : List PremiumOp) : Database :=
  ops.foldl PremiumOp.apply database

/-- A database with one record whose expiry date is `0`. -/
def zeroExpiryDb : Database :=
  { premiumBuyers :=
      [("U", { userId := "U", addedDate := 500, lifetime := false, expired := false,
               grantedBy := "admin", lastUpdate := some 500, expiryDate := some 0 })] }

/-! ## Partner requests -/

/-- The in-memory `database` together with the content of `database.json`. -/
structure Store where
  database : Database
  file : Database
deriving DecidableEq, Repr

/-- The function `saveDatabase(database)`: the file takes the in-memory value. -/
def saveDatabase (store : Store) : Store := { store with file := store.database }

/-- What a handler does on the chat platform, in order: only completed calls are listed. -/
inductive PlatformEffect where
  | roleCreated (roleId : String)
  | roleAdded (userId roleId : String)
  | categoryCreated (categoryId : String)
  | channelCreated (channelId name parent : String)
  | messagePosted (channelId : String)
  | directMessage (userId : String)
deriving DecidableEq, Repr

/-- The two permission bits the review handler reads. -/
structure Permissions where
  manageRoles : Bool
  manageChannels : Bool
deriving DecidableEq, Repr

/-- The outcome of `client.guilds.fetch(guildId)`. -/
inductive GuildFetch where
  | threw
  | missing
  | found
deriving DecidableEq, Repr

/-- What the platform answers during one review interaction.  An `Option` result is `none`
when the call throws, except for the cache lookups `botMember`, `partnerRole` and
`partnerCategory`, where `none` is a miss, and `member`, whose failure the handler catches.
`reviewer` holds the guild permissions of the user who pressed the button; the handler does
not read them. -/
structure ReviewEnv where
  guild : GuildFetch
  botMember : Option Permissions
  reviewer : Option Permissions
  partnerRole : Option String
  createdRole : Option String
  member : Option (List String)
  roleAddOk : Bool
  partnerCategory : Option String
  createdCategory : Option String
  createdChannel : Option String
  welcomeOk : Bool
  notifyOk : Bool
  updateOk : Bool
deriving DecidableEq, Repr

/-- The characters matched by `\s` in a JavaScript regular expression, which are also the
ones `trim()` strips. -/
def isJsSpace (c : Char) : Bool :=
  c = '\t' || c = '\n' || c.val = 0x0B || c.val = 0x0C || c = '\r' || c = ' '
    || c.val = 0xA0 || c.val = 0x1680 || (0x2000 ≤ c.val && c.val ≤ 0x200A)
    || c.val = 0x2028 || c.val = 0x2029 || c.val = 0x202F || c.val = 0x205F
    || c.val = 0x3000 || c.val = 0xFEFF

/-- The replacement `.replace(/\s+/g, '-')` on a list of characters: each maximal run of
white space becomes one hyphen; `inRun` says that the previous character was white space. -/
def hyphenateFrom (inRun : Bool) : List Char → List Char
  | [] => []
  | c :: rest =>
    if isJsSpace c then
      if inRun then hyphenateFrom true rest else '-' :: hyphenateFrom true rest
    else c :: hyphenateFrom false rest

/-- The replacement `.replace(/\s+/g, '-')`. -/
def hyphenateSpaces (cs : List Char) : List Char := hyphenateFrom false cs

/-- The `cleanServerName` of the accept branch:
`serverName.replace(/[^a-zA-Z0-9\s-]/g, '').trim().substring(0, 50)`. -/
def cleanServerName (serverName : String) : List Char :=
  let kept := serverName.toList.filter (fun c => c.isAlphanum || isJsSpace c || c = '-')
  let trimmed := ((kept.dropWhile isJsSpace).reverse.dropWhile isJsSpace).reverse
  trimmed.take 50

/-- The `channelName` of the accept branch: the comet prefix and `cleanServerName`, in lower
case, with each run of white space replaced by a hyphen. -/
def channelName (serverName : String) : String :=
  String.mk (hyphenateSpaces (("☄️-".toList ++ cleanServerName serverName).map Char.toLower))

/-- The provisioning steps of the accept branch, from the role lookup to the welcome
message: either a step threw, after the listed effects, or all were done. -/
inductive Provision where
  | failed (effects : List PlatformEffect)
  | done (roleId channelId : String) (effects : List PlatformEffect)
deriving DecidableEq, Repr

/-- The provisioning steps of the accept branch of `handlePartnerReviewInteraction`. -/
def provision (env : ReviewEnv) (request : PartnerRequest) : Provision :=
  let role : Option (String × List PlatformEffect) :=
    match env.partnerRole with
    | some roleId => some (roleId, [])
    | none => env.createdRole.map (fun roleId => (roleId, [.roleCreated roleId]))
  match role with
  | none => .failed []
  | some (roleId, e1) =>
    let addRole : Bool :=
      match env.member with
      | some roles => !roles.contains roleId
      | none => false
    if addRole && !env.roleAddOk then .failed e1
    else
      let e2 := if addRole then e1 ++ [.roleAdded request.userId roleId] else e1
      let category : Option (String × List PlatformEffect) :=
        match env.partnerCategory with
        | some categoryId => some (categoryId, e2)
        | none =>
          env.createdCategory.map (fun categoryId => (categoryId, e2 ++ [.categoryCreated categoryId]))
      match category with
      | none => .failed e2
      | some (categoryId, e3) =>
        match env.createdChannel with
        | none => .failed e3
        | some channelId =>
          let e4 := e3 ++ [.channelCreated channelId (channelName request.serverName) categoryId]
          if env.welcomeOk then .done roleId channelId (e4 ++ [.messagePosted channelId])
          else .failed e4

/-- The replies of `handlePartnerReviewInteraction`. -/
inductive ReviewReply where
  /-- The reply `Request not found!`. -/
  | requestNotFound
  /-- The reply `This request has already been processed!`. -/
  | alreadyProcessed
  /-- The reply `Could not find the server! Bot might not be in the server anymore.` -/
  | guildFetchFailed
  /-- The reply `Could not find the server!`. -/
  | guildMissing
  /-- The reply `Bot is not in the server!`. -/
  | botNotInServer
  /-- The reply `Bot tidak punya permission Manage Roles!`. -/
  | missingManageRoles
  /-- The reply `Bot tidak punya permission Manage Channels!`. -/
  | missingManageChannels
  /-- The reply of the `catch` block of the accept branch. -/
  | processingError
  /-- The embed `Partner Request Accepted!`. -/
  | accepted
  /-- The embed `Partner Request Rejected`. -/
  | rejected
  /-- No reply: the action is neither `accept` nor `reject`. -/
  | noReply
deriving DecidableEq, Repr

/-- The result of a handler: its reply, the store afterwards, and what it did on the
platform. -/
structure ReviewOutcome where
  reply : ReviewReply
  store : Store
  effects : List PlatformEffect
deriving DecidableEq, Repr

/-- The read `database.partnerRequests[guildId]?.[requestId]`. -/
def requestOf (database : Database) (guildId requestId : String) : Option PartnerRequest :=
  (database.partnerRequests.lookup guildId).bind (fun requests => requests.lookup requestId)

/-- The database with `request` stored under `guildId` and `requestId`. -/
def setRequest (database : Database) (guildId requestId : String) (request : PartnerRequest) :
    Database :=
  { database with
    partnerRequests :=
      database.partnerRequests.assign guildId
        (((database.partnerRequests.lookup guildId).getD []).assign requestId request) }

/-- The function `handlePartnerReviewInteraction(interaction)`: `action`, `requestId` and
`guildId` come from the button id, `reviewerId` is `interaction.user.id`.  `updateOk` is
read by the accept branch, whose `catch` turns a failed `interaction.update` into the error
reply after the request was saved; in the reject branch the update is the last statement
and its failure would change nothing in the store. -/
def handlePartnerReviewInteraction (store : Store) (env : ReviewEnv)
    (action requestId guildId reviewerId : String) (now : Nat) : ReviewOutcome :=
  match requestOf store.database guildId requestId with
  | none => ⟨.requestNotFound, store, []⟩
  | some request =>
    if request.status ≠ "pending" then ⟨.alreadyProcessed, store, []⟩
    else
      match env.guild with
      | .threw => ⟨.guildFetchFailed, store, []⟩
      | .missing => ⟨.guildMissing, store, []⟩
      | .found =>
        match env.botMember with
        | none => ⟨.botNotInServer, store, []⟩
        | some botPermissions =>
          if action = "accept" then
            if !botPermissions.manageRoles then ⟨.missingManageRoles, store, []⟩
            else if !botPermissions.manageChannels then ⟨.missingManageChannels, store, []⟩
            else
              match provision env request with
              | .failed effects => ⟨.processingError, store, effects⟩
              | .done roleId channelId effects =>
                let accepted : PartnerRequest :=
                  { request with
                    status := "accepted", reviewedAt := some now, reviewedBy := some reviewerId,
                    channelId := some channelId, roleId := some roleId }
                let saved := saveDatabase
                  { store with
                    database := setRequest store.database guildId requestId accepted }
                let notified :=
                  if env.notifyOk then effects ++ [.directMessage request.userId] else effects
                ⟨if env.updateOk then .accepted else .processingError, saved, notified⟩
          else if action = "reject" then
            let rejected : PartnerRequest :=
              { request with
                status := "rejected", reviewedAt := some now, reviewedBy := some reviewerId }
            let saved := saveDatabase
              { store with database := setRequest store.database guildId requestId rejected }
            ⟨.rejected, saved, if env.notifyOk then [.directMessage request.userId] else []⟩
          else ⟨.noReply, store, []⟩

/-- The replies of the `modalrequest` action of `handlePartnerRequestInteraction`. -/
inductive SubmitReply where
  /-- The reply `Partner system belum dikonfigurasi!`. -/
  | notConfigured
  /-- The embed `Partner Request Submitted!` with the request id. -/
  | submitted (requestId : String)
deriving DecidableEq, Repr

/-- The result of the `modalrequest` action. -/
structure SubmitOutcome where
  reply : SubmitReply
  store : Store
  effects : List PlatformEffect
deriving DecidableEq, Repr

/-- The request id `PR-<Date.now()>-<interaction.user.id.slice(-4)>`. -/
def requestIdOf (userId : String) (now : Nat) : String :=
  "PR-" ++ toString now ++ "-" ++ userId.takeRight 4

/-- The `modalrequest` action of `handlePartnerRequestInteraction(interaction)`; `promptOk`
and `confirmOk` say whether the message to the receiver and the confirmation to the
requester can be delivered. -/
def modalrequest (store : Store) (guildId userId username serverName reason discordLink : String)
    (promptOk confirmOk : Bool) (now : Nat) : SubmitOutcome :=
  let receiverId := (store.database.partnerConfig.lookup guildId).bind (fun c => c.receiverId)
  if !truthyStr receiverId then ⟨.notConfigured, store, []⟩
  else
    let requestId := requestIdOf userId now
    let request : PartnerRequest :=
      { userId := userId, username := username, serverName := serverName, reason := reason,
        discordLink := discordLink, status := "pending", createdAt := now, guildId := guildId }
    let saved := saveDatabase
      { store with database := setRequest store.database guildId requestId request }
    ⟨.submitted requestId, saved,
      (if promptOk then [.directMessage (receiverId.getD "")] else [])
        ++ (if confirmOk then [.directMessage userId] else [])⟩

/-- A store for the concrete checks: guild `G` has receiver `R1`, and user `11112222` has
submitted one request at `now = 1000`. -/
def partnerStore : Store :=
  (modalrequest
    { database := { partnerConfig := [("G", { receiverId := some "R1" })] }, file := {} }
    "G" "11112222" "alice" "My Server" "because" "https://discord.gg/x" true true 1000).store

/-- An interaction in which every platform call succeeds: the bot holds both permissions,
the reviewer holds neither, no role or category exists yet. -/
def okEnv : ReviewEnv :=
  { guild := .found, botMember := some ⟨true, true⟩, reviewer := some ⟨false, false⟩,
    partnerRole := none, createdRole := some "role1", member := some [], roleAddOk := true,
    partnerCategory := none, createdCategory := some "cat1", createdChannel := some "chan1",
    welcomeOk := true, notifyOk := true, updateOk := true }

/-! ## Script access -/

/-- The replies of the `getscript` action of `handlePanelUserInteraction`. -/
inductive ScriptReply where
  /-- The reply `Panel tidak ditemukan!`. -/
  | panelNotFound
  /-- The embed `Access Denied / Akses Ditolak`. -/
  | accessDenied
  /-- The reply `Anda tidak memiliki script! Silakan redeem key terlebih dahulu.` -/
  | noScript
  /-- The embed `Your Script / Script Anda`, with the script and the premium badge. -/
  | script (script : String) (isPremium : Bool)
deriving DecidableEq, Repr

/-- The `hasRequiredRole` of the `getscript` action:
`panelData.requiredRole && member.roles.cache.has(panelData.requiredRole)`. -/
def hasRequiredRole (panelData : Panel) (memberRoles : List String) : Bool :=
  truthyStr panelData.requiredRole && memberRoles.contains (panelData.requiredRole.getD "")

/-- The `getscript` action of `handlePanelUserInteraction(interaction)`: `memberRoles` are
the caller's roles, `key` is the result of `generateKey()`. -/
def getscript (database : Database) (panelType userId guildId key : String)
    (memberRoles : List String) (now : Nat) : ScriptReply × Database :=
  match database.panels.lookup panelType with
  | none => (.panelNotFound, database)
  | some panelData =>
    let isPremium := isPremiumActive database userId now
    if !isPremium && !hasRequiredRole panelData memberRoles then (.accessDenied, database)
    else
      match (database.userKeys.lookup userId).filter (fun userKey => decide (userKey.script ≠ "")) with
      | some userKey => (.script userKey.script isPremium, database)
      | none =>
        if hasRequiredRole panelData memberRoles then
          let userKey : UserKey :=
            { key := key, rank := "Role Access", duration := some "Permanent (Role)",
              redeemedAt := now, guildId := guildId, script := scriptOf panelData,
              panelType := panelType }
          (.script userKey.script isPremium,
            { database with userKeys := database.userKeys.assign userId userKey })
        else (.noScript, database)

/-- A database for the concrete checks: panel `main` with required role `R` and a script,
and user `U` with lifetime premium and no key. -/
def scriptDb : Database :=
  addPremiumTime
    { panels := [("main", { requiredRole := some "R", script := some "print(1)" })] }
    "U" "lifetime" 0 "admin" 1000

/-! ## Remaining time and role grants -/

/-- The two label templates of `getRemainingTime`: days and hours when `days > 0`, hours
alone otherwise. -/
def remainingLabel (days hours : Int) : String :=
  if days > 0 then
    toString days ++ " days " ++ toString hours ++ " hours / " ++ toString days ++ " hari "
      ++ toString hours ++ " jam"
  else toString hours ++ " hours / " ++ toString hours ++ " jam"

/-- The function `getRemainingTime(userId)`, read at clock value `now`, for a record whose
expiry date is a safe integer; `none` is the `null` returned for a user without a record.
The quotient and the remainder are taken of a positive `diff`, where `Math.floor(a / b)` and
`a % b` are `/` and `%` of integers.  The numbers shown for every expiry date are those of
`jsRemainingTime`. -/
def getRemainingTime (database : Database) (userId : String) (now : Nat) : Option String :=
  match database.premiumBuyers.lookup userId with
  | none => none
  | some buyer =>
    if buyer.lifetime then some "Lifetime"
    else if !truthyNum buyer.expiryDate || decide ((now : Int) ≥ buyer.expiryDate.getD 0) then
      some "Expired / Berakhir"
    else
      let diff : Int := buyer.expiryDate.getD 0 - (now : Int)
      let days := diff / (1000 * 60 * 60 * 24)
      let hours := (diff % (1000 * 60 * 60 * 24)) / (1000 * 60 * 60)
      some (remainingLabel days hours)

/-- The replies of the `getrole` action of `handlePanelUserInteraction`. -/
inductive RoleReply where
  /-- The reply `Panel tidak ditemukan!`. -/
  | panelNotFound
  /-- The reply `Role belum diset!`. -/
  | roleNotSet
  /-- The embed `Premium Required`. -/
  | premiumRequired
  /-- The reply `Anda sudah memiliki role ini!`. -/
  | alreadyHasRole
  /-- The reply `Anda belum memiliki akses! Silakan redeem key terlebih dahulu.` -/
  | noKey
  /-- The reply `Key Anda terdaftar di server lain!`. -/
  | keyInOtherGuild
  /-- The reply `Role berhasil diberikan kepada Anda!`. -/
  | roleGranted
  /-- The reply `Gagal memberikan role!` of the `catch` block. -/
  | grantFailed
deriving DecidableEq, Repr

/-- The `getrole` action of `handlePanelUserInteraction(interaction)`: `memberRoles` are the
caller's roles and `roleAddOk` says whether `member.fetch()` and `member.roles.add` go
through.  The database is only read; the result is the reply and what was done on the
platform. -/
def getrole (database : Database) (panelType userId guildId : String)
    (memberRoles : List String) (roleAddOk : Bool) (now : Nat) :
    RoleReply × List PlatformEffect :=
  match database.panels.lookup panelType with
  | none => (.panelNotFound, [])
  | some panelData =>
    if !truthyStr panelData.requiredRole then (.roleNotSet, [])
    else if !isPremiumActive database userId now then (.premiumRequired, [])
    else if memberRoles.contains (panelData.requiredRole.getD "") then (.alreadyHasRole, [])
    else
      match database.userKeys.lookup userId with
      | none => (.noKey, [])
      | some userKey =>
        if decide (userKey.rank = "buyer") && decide (userKey.guildId ≠ guildId) then
          (.keyInOtherGuild, [])
        else if roleAddOk then
          (.roleGranted, [.roleAdded userId (panelData.requiredRole.getD "")])
        else (.grantFailed, [])

/-! ## Loading the database -/

/-- A parsed `database.json`: a document in which any of the tables may be absent. -/
structure Snapshot where
  panels : Option (Table Panel) := none
  redeemCodes : Option (Table RedeemCode) := none
  userKeys : Option (Table UserKey) := none
  hwids : Option (Table String) := none
  premiumBuyers : Option (Table PremiumBuyer) := none
  partnerRequests : Option (Table (Table PartnerRequest)) := none
  partnerConfig : Option (Table PartnerConfig) := none
  developmentKeys : Option (Table DevelopmentKey) := none
deriving DecidableEq, Repr

/-- The function `loadDatabase()`: `file` is the parsed content of `database.json`, `none`
when the file does not exist.  Returns the database and the content written back to the
file. -/
def loadDatabase (file : Option Snapshot) : Snapshot × Snapshot :=
  match file with
  | none =>
    let defaultDb : Snapshot :=
      { panels := some [], redeemCodes := some [], userKeys := some [], hwids := some [],
        premiumBuyers := some [], partnerRequests := some [], partnerConfig := some [] }
    (defaultDb, defaultDb)
  | some db =>
    let db := if db.premiumBuyers.isNone then { db with premiumBuyers := some [] } else db
    let db := if db.partnerRequests.isNone then { db with partnerRequests := some [] } else db
    let db := if db.partnerConfig.isNone then { db with partnerConfig := some [] } else db
    (db, db)

/-! ## Creating redeem codes -/

/-- The function `handleRedeemCodePanel(message)`: `generatedKey` is the result of
`generateRedeemCode()`, `authorId` is `message.author.id`. -/
def handleRedeemCodePanel (database : Database) (generatedKey authorId : String) (now : Nat) :
    Database :=
  match database.redeemCodes.lookup generatedKey with
  | some _ => database
  | none =>
    { database with
      redeemCodes := database.redeemCodes.assign generatedKey
        { rank := "buyer", used := false, usedBy := none, usedInGuild := none, createdAt := now,
          createdBy := authorId, singleUsePerServer := some true } }

/-- The `modalcreate` action of `handleRedeemInteraction(interaction)`: `rank` is the third
part of the modal id, `duration` the form field, `code` the result of
`generateRedeemCode()`, `userId` is `interaction.user.id`. -/
def modalcreate (database : Database) (rank duration code userId : String) (now : Nat) :
    Database :=
  { database with
    redeemCodes := database.redeemCodes.assign code
      { rank := rank, duration := some duration, used := false, createdAt := now,
        createdBy := userId } }

/-! ## The partner channel name -/

/-- The slug as the description has it: the characters other than ASCII letters, digits,
white space and hyphens removed, the first 50 characters kept, lower case, white space
replaced by hyphens. -/
def slugAsDescribed (serverName : String) : String :=
  String.mk
    (hyphenateSpaces
      (((serverName.toList.filter (fun c => c.isAlphanum || isJsSpace c || c = '-')).take
        50).map Char.toLower))

/-- The part of `channelName` that comes from the server name: `cleanServerName` in lower
case with each run of white space replaced by a hyphen. -/
def slugOf (serverName : String) : List Char :=
  hyphenateSpaces ((cleanServerName serverName).map Char.toLower)

/-! ## Histories with a clock -/

/-- The clock value an operation reads; a removal reads none. -/
def PremiumOp.time : PremiumOp → Option Nat
  | .grant _ _ _ _ now => some now
  | .remove _ => none
  | .sweep now => some now

/-- Whether the operations read non-decreasing clock values, none before `start`. -/
def nonDecreasingFrom (start : Nat) : List PremiumOp → Bool
  | [] => true
  | op :: rest =>
    match op.time with
    | some t => decide (start ≤ t) && nonDecreasingFrom t rest
    | none => nonDecreasingFrom start rest

/-- The last clock value read by the operations, `start` if none was read. -/
def clockAfter (start : Nat) : List PremiumOp → Nat
  | [] => start
  | op :: rest => clockAfter (op.time.getD start) rest

/-! ## Button ids and numbers -/

/-- The call `chars.split(sep)` on a list of characters. -/
def splitChars (sep : Char) : List Char → List (List Char)
  | [] => [[]]
  | c :: rest =>
    if c = sep then [] :: splitChars sep rest
    else
      match splitChars sep rest with
      | [] => [[c]]
      | part :: parts => (c :: part) :: parts

/-- The call `s.split('_')`. -/
def splitUnderscore (s : String) : List String :=
  (splitChars '_' s.toList).map String.mk

/-- The call `s.trim()`. -/
def jsTrim (s : String) : String :=
  String.mk ((s.toList.dropWhile isJsSpace).reverse.dropWhile isJsSpace).reverse

/-- The value of a digit or letter as a digit of a numeral. -/
def digitValue (c : Char) : Nat :=
  if c.isDigit then c.toNat - 48
  else if c.isLower then c.toNat - 97 + 10
  else if c.isUpper then c.toNat - 65 + 10
  else 36

/-- The call `parseInt(s)` with no radix, as a mathematical integer: leading white space is
skipped, a sign is read, a `0x` or `0X` prefix selects radix 16, and the longest run of
digits of the radix is the value; `none` is `NaN`, the result when there is no digit.  The
JavaScript number returned is `jsParseInt s`, the double nearest to this integer. -/
def parseInt (s : String) : Option Int :=
  let cs := s.toList.dropWhile isJsSpace
  let signed : Bool × List Char :=
    match cs with
    | '-' :: rest => (true, rest)
    | '+' :: rest => (false, rest)
    | _ => (false, cs)
  let based : Nat × List Char :=
    match signed.2 with
    | '0' :: 'x' :: rest => (16, rest)
    | '0' :: 'X' :: rest => (16, rest)
    | _ => (10, signed.2)
  let digits := based.2.takeWhile (fun c => decide (digitValue c < based.1))
  if digits.isEmpty then none
  else
    let value : Nat := digits.foldl (fun acc c => acc * based.1 + digitValue c) 0
    some (if signed.1 then -(value : Int) else (value : Int))

/-! ## The set-buyer handlers -/

/-- The replies of the `duration` action and of the collector of the `customtime` action of
`handleSetBuyerInteraction`. -/
inductive SetBuyerReply where
  /-- The reply `Durasi tidak valid! Harus berupa angka positif.` -/
  | invalidDuration
  /-- The reply `Jumlah detik tidak valid! Harus berupa angka positif.` -/
  | invalidSeconds
  /-- The embed `Premium Berhasil Ditambahkan!`. -/
  | premiumAdded
deriving DecidableEq, Repr

/-- The test `/^\d+$/.test(targetUserId)` of the `inputid` collector. -/
def isDigits (s : String) : Bool :=
  !s.toList.isEmpty && s.toList.all Char.isDigit

/-- The value and kind of the seven duration buttons the `inputid` collector shows. -/
def presetButtons : List (String × String) :=
  [("7", "days"), ("30", "days"), ("1", "months"), ("3", "months"), ("6", "months"),
    ("1", "years"), ("0", "lifetime")]

/-- The id of a duration button: `setbuyer_duration_<target>_<value>_<kind>`. -/
def durationButtonId (targetUserId : String) (button : String × String) : String :=
  "setbuyer_duration_" ++ targetUserId ++ "_" ++ button.1 ++ "_" ++ button.2

/-- The id of the custom-time button: `setbuyer_customtime_<target>`. -/
def customtimeButtonId (targetUserId : String) : String :=
  "setbuyer_customtime_" ++ targetUserId

/-- The `duration` action of `handleSetBuyerInteraction(interaction)`; `username` is
`interaction.user.username`.  A part the id does not have (`undefined`) is the empty string
here, which like `undefined` is none of the duration kinds, and the `NaN` that may
accompany the kind `lifetime`, which does not read the value, is passed as `0`.  The value
is the integer parsed; the numbers the code computes are those of `jsDurationGrant`. -/
def durationAction (database : Database) (customId username : String) (now : Nat) :
    SetBuyerReply × Database :=
  let parts := splitUnderscore customId
  let targetUserId := (parts[2]?).getD ""
  let durationValue := (parts[3]?).bind parseInt
  let durationType := (parts[4]?).getD ""
  if decide (durationType ≠ "lifetime")
      && (durationValue.isNone || decide (durationValue.getD 0 ≤ 0)) then
    (.invalidDuration, database)
  else
    (.premiumAdded,
      addPremiumTime database targetUserId durationType (durationValue.getD 0) username now)

/-- The collector of the `customtime` action of `handleSetBuyerInteraction(interaction)`:
`customId` is the id of the button pressed, `content` the text of the collected message.
The number of seconds is the integer parsed; the numbers the code computes are those of
`jsCustomtimeGrant`. -/
def customtimeCollect (database : Database) (customId content username : String) (now : Nat) :
    SetBuyerReply × Database :=
  let targetUserId := ((splitUnderscore customId)[2]?).getD ""
  let seconds := parseInt (jsTrim content)
  if seconds.isNone || decide (seconds.getD 0 ≤ 0) then (.invalidSeconds, database)
  else (.premiumAdded, addPremiumTime database targetUserId "seconds" (seconds.getD 0) username now)

/-! ## Development keys -/

/-- The id of a confirm button made by the `modalrole` action of
`handleCreateKeyInteraction`: `createkey_confirm_<yes|no>_<roleName>_<playerId>`. -/
def confirmButtonId (choice roleName playerId : String) : String :=
  "createkey_confirm_" ++ choice ++ "_" ++ roleName ++ "_" ++ playerId

/-- The `confirm` action of `handleCreateKeyInteraction(interaction)`: `key` is the result of
`generateDevKey()`, `userId` is `interaction.user.id`.  A part the id does not have is the
empty string here. -/
def createkeyConfirm (database : Database) (customId key userId : String) (now : Nat) :
    Database :=
  let parts := splitUnderscore customId
  let unlimited := decide (parts[2]? = some "yes")
  let roleName := (parts[3]?).getD ""
  let playerId := (parts[4]?).getD ""
  { database with
    developmentKeys :=
      some ((database.developmentKeys.getD []).assign key
        { role := roleName, playerId := playerId, unlimited := unlimited, used := false,
          usedBy := none, createdAt := now, createdBy := userId }) }

/-! ## Reply chunks -/

/-- The matches of `/[\s\S]{1,size}/g` in a string given as the list of its code units:
while something is left, the next `size` units, or all that is left.  `fuel` bounds the
number of matches. -/
def matchChunks {α : Type} (size : Nat) : Nat → List α → List (List α)
  | 0, _ => []
  | fuel + 1, units =>
    if units.isEmpty then [] else units.take size :: matchChunks size fuel (units.drop size)

/-- The chunks of the mention handler: `reply.match(/[\s\S]{1,1900}/g) || [reply]`, for a
reply given as the list of its UTF-16 code units. -/
def replyChunks {α : Type} (reply : List α) : List (List α) :=
  match matchChunks 1900 reply.length reply with
  | [] => [reply]
  | chunks => chunks

/-! ## JavaScript numbers -/

/-- A JavaScript number whose value is an integer, or one of `NaN`, `Infinity` and
`-Infinity`.  The numbers of the premium arithmetic are of this kind: the clock, the results
of `parseInt`, their products, sums and differences, and the floors of quotients.  A `finite`
value stands for a double, so its integer is one that a double can hold. -/
inductive JsNumber where
  /-- The value `NaN`. -/
  | nan
  /-- The values `Infinity` and `-Infinity`. -/
  | infinity (negative : Bool)
  /-- The double whose value is the integer `value`. -/
  | finite (value : Int)
deriving DecidableEq, Repr

/-- The quotient `n / d` rounded to the nearest integer, a tie to the even one. -/
def roundHalfEven (n d : Nat) : Nat :=
  if 2 * (n % d) > d ∨ (2 * (n % d) = d ∧ (n / d) % 2 = 1) then n / d + 1 else n / d

/-- The number of binary digits of `n`, counted by halving; `fuel` bounds the number of
halvings. -/
def bitLengthFrom : Nat → Nat → Nat
  | 0, _ => 0
  | fuel + 1, n => if n = 0 then 0 else bitLengthFrom fuel (n / 2) + 1

/-- The number of binary digits of `n`. -/
def bitLength (n : Nat) : Nat :=
  bitLengthFrom n n

/-- The magnitude of the double nearest to the natural number `a`: `a` itself when it has
at most 53 binary digits, otherwise `a` rounded to 53 significant binary digits, a tie to
the even significand; `none` when the result has more than 1024 binary digits, which is
beyond the largest double. -/
def nearestDouble (a : Nat) : Option Nat :=
  if bitLength a ≤ 53 then some a
  else
    let ulp := 2 ^ (bitLength a - 53)
    let rounded := roundHalfEven a ulp * ulp
    if bitLength rounded ≤ 1024 then some rounded else none

/-- The JavaScript number for the mathematical integer `n`: the nearest double, or an
infinity. -/
def toDouble (n : Int) : JsNumber :=
  match nearestDouble n.natAbs with
  | some a => .finite (if n < 0 then -(a : Int) else (a : Int))
  | none => .infinity (decide (n < 0))

/-- The product `a * b`. -/
def JsNumber.mul : JsNumber → JsNumber → JsNumber
  | .finite a, .finite b => toDouble (a * b)
  | .finite a, .infinity s => if a = 0 then .nan else .infinity (s != decide (a < 0))
  | .infinity s, .finite b => if b = 0 then .nan else .infinity (s != decide (b < 0))
  | .infinity s, .infinity t => .infinity (s != t)
  | _, _ => .nan

/-- The sum `a + b`. -/
def JsNumber.add : JsNumber → JsNumber → JsNumber
  | .finite a, .finite b => toDouble (a + b)
  | .finite _, .infinity s => .infinity s
  | .infinity s, .finite _ => .infinity s
  | .infinity s, .infinity t => if s = t then .infinity s else .nan
  | _, _ => .nan

/-- The difference `a - b`. -/
def JsNumber.sub : JsNumber → JsNumber → JsNumber
  | .finite a, .finite b => toDouble (a - b)
  | .finite _, .infinity s => .infinity (!s)
  | .infinity s, .finite _ => .infinity s
  | .infinity s, .infinity t => if s = t then .nan else .infinity s
  | _, _ => .nan

/-- The comparison `a < b`, false when either side is `NaN`. -/
def JsNumber.lt : JsNumber → JsNumber → Bool
  | .finite a, .finite b => decide (a < b)
  | .finite _, .infinity s => !s
  | .infinity s, .finite _ => s
  | .infinity s, .infinity t => s && !t
  | _, _ => false

/-- The comparison `a <= b`, false when either side is `NaN`. -/
def JsNumber.le : JsNumber → JsNumber → Bool
  | .finite a, .finite b => decide (a ≤ b)
  | .finite _, .infinity s => !s
  | .infinity s, .finite _ => s
  | .infinity s, .infinity t => s || !t
  | _, _ => false

/-- Truthiness of a number: not `0` and not `NaN`. -/
def JsNumber.truthy : JsNumber → Bool
  | .finite v => decide (v ≠ 0)
  | .infinity _ => true
  | .nan => false

/-- The call `isNaN(x)`. -/
def JsNumber.isNaN : JsNumber → Bool
  | .nan => true
  | _ => false

/-- The floor of the double nearest to the quotient `num / den` of two naturals,
`den > 0`: the quotient is rounded to 53 significant binary digits first. -/
def floorOfQuotient (num den : Nat) : Nat :=
  let bits := bitLength (num / den)
  if bits ≤ 53 then roundHalfEven (num * 2 ^ (53 - bits)) den / 2 ^ (53 - bits)
  else roundHalfEven num (den * 2 ^ (bits - 53)) * 2 ^ (bits - 53)

/-- The ceiling of the double nearest to the quotient `num / den` of two naturals,
`den > 0`. -/
def ceilOfQuotient (num den : Nat) : Nat :=
  let bits := bitLength (num / den)
  if num = 0 then 0
  else if bits = 0 then 1
  else if bits ≤ 53 then
    (roundHalfEven (num * 2 ^ (53 - bits)) den + (2 ^ (53 - bits) - 1)) / 2 ^ (53 - bits)
  else roundHalfEven num (den * 2 ^ (bits - 53)) * 2 ^ (bits - 53)

/-- The expression `Math.floor(x / c)` for a positive integer constant `c`. -/
def JsNumber.floorDiv (x : JsNumber) (c : Nat) : JsNumber :=
  match x with
  | .finite v =>
    if 0 ≤ v then .finite (floorOfQuotient v.toNat c) else .finite (-(ceilOfQuotient v.natAbs c : Int))
  | .infinity s => .infinity s
  | .nan => .nan

/-- The expression `x % c` for a positive integer constant `c`: the remainder has the sign
of `x` and is exact. -/
def JsNumber.mod (x : JsNumber) (c : Nat) : JsNumber :=
  match x with
  | .finite v => if 0 ≤ v then .finite (v % (c : Int)) else .finite (-((-v) % (c : Int)))
  | _ => .nan

/-- The call `parseInt(s)` as a JavaScript number: `NaN` when there is no digit, otherwise
the number for the value of the digits, which is the nearest double, or an infinity for a
value beyond the doubles. -/
def jsParseInt (s : String) : JsNumber :=
  match parseInt s with
  | none => .nan
  | some value => toDouble value

/-- The `additionalTime` of `addPremiumTime` as the code computes it: the factors are
multiplied from left to right, and every product is a JavaScript number. -/
def jsAdditionalTime (durationType : String) (durationValue : JsNumber) : JsNumber :=
  if durationType = "seconds" then durationValue.mul (.finite 1000)
  else if durationType = "days" then
    (((durationValue.mul (.finite 24)).mul (.finite 60)).mul (.finite 60)).mul (.finite 1000)
  else if durationType = "months" then
    ((((durationValue.mul (.finite 30)).mul (.finite 24)).mul (.finite 60)).mul
      (.finite 60)).mul (.finite 1000)
  else if durationType = "years" then
    ((((durationValue.mul (.finite 365)).mul (.finite 24)).mul (.finite 60)).mul
      (.finite 60)).mul (.finite 1000)
  else .finite 0

/-- The `currentExpiry` of `addPremiumTime` as the code computes it. -/
def jsCurrentExpiry (expiryDate : Option JsNumber) (now : Nat) : JsNumber :=
  match expiryDate with
  | some e => if e.truthy && (JsNumber.finite now).lt e then e else .finite now
  | none => .finite now

/-- The number the non-lifetime branch of `addPremiumTime` assigns to `buyer.expiryDate`,
as the code computes it: `currentExpiry + additionalTime`. -/
def jsExpiryDate (expiryDate : Option JsNumber) (durationType : String)
    (durationValue : JsNumber) (now : Nat) : JsNumber :=
  (jsCurrentExpiry expiryDate now).add (jsAdditionalTime durationType durationValue)

/-- What a set-buyer handler does to the target's record. -/
inductive GrantOutcome where
  /-- The input is refused and the database is not touched. -/
  | refused
  /-- The record becomes a lifetime one, without an expiry date. -/
  | lifetime
  /-- The record gets this expiry date. -/
  | expires (expiryDate : JsNumber)
deriving DecidableEq, Repr

/-- The numbers of the `duration` action of `handleSetBuyerInteraction`: `expiryDate` is the
one the target's record holds before. -/
def jsDurationGrant (expiryDate : Option JsNumber) (customId : String) (now : Nat) :
    GrantOutcome :=
  let parts := splitUnderscore customId
  let durationValue :=
    match parts[3]? with
    | some text => jsParseInt text
    | none => .nan
  let durationType := (parts[4]?).getD ""
  if decide (durationType ≠ "lifetime")
      && (durationValue.isNaN || durationValue.le (.finite 0)) then .refused
  else if durationType = "lifetime" then .lifetime
  else .expires (jsExpiryDate expiryDate durationType durationValue now)

/-- The numbers of the collector of the `customtime` action of `handleSetBuyerInteraction`:
`expiryDate` is the one the target's record holds before, `content` the text of the
collected message. -/
def jsCustomtimeGrant (expiryDate : Option JsNumber) (content : String) (now : Nat) :
    GrantOutcome :=
  let seconds := jsParseInt (jsTrim content)
  if seconds.isNaN || seconds.le (.finite 0) then .refused
  else .expires (jsExpiryDate expiryDate "seconds" seconds now)

/-- The results of `getRemainingTime` for a user with a record: the two fixed labels and
the two templates, with the numbers `days` and `hours` they show. -/
inductive RemainingTime where
  /-- The label `Lifetime`. -/
  | lifetime
  /-- The label `Expired / Berakhir`. -/
  | expired
  /-- The template with days and hours. -/
  | daysAndHours (days hours : JsNumber)
  /-- The template with hours alone. -/
  | hoursOnly (hours : JsNumber)
deriving DecidableEq, Repr

/-- The body of `getRemainingTime(userId)` once the record is found, as the code computes
it; `lifetime` and `expiryDate` are the fields of the record. -/
def jsRemainingTime (lifetime : Bool) (expiryDate : Option JsNumber) (now : Nat) :
    RemainingTime :=
  if lifetime then .lifetime
  else
    match expiryDate with
    | none => .expired
    | some e =>
      if !e.truthy || e.le (.finite now) then .expired
      else
        let diff := e.sub (.finite now)
        let days := diff.floorDiv (1000 * 60 * 60 * 24)
        let hours := (diff.mod (1000 * 60 * 60 * 24)).floorDiv (1000 * 60 * 60)
        if (JsNumber.finite 0).lt days then .daysAndHours days hours else .hoursOnly hours

/-- The test `Number.isSafeInteger(n)` on an integer: its magnitude is at most
`2 ^ 53 - 1`.  Every such integer is a double, and a sum, difference or product of doubles
whose exact value is such an integer is that integer. -/
abbrev isSafeInteger (n : Int) : Prop :=
  -9007199254740991 ≤ n ∧ n ≤ 9007199254740991

/-! ## Dictionary lemmas -/

theorem Table.lookup_assign_same {α : Type} (t : Table α) (key : String) (v : α) :
    (t.assign key v).lookup key = some v := by
  induction t with
  | nil => simp [Table.assign, Table.lookup]
  | cons hd tl ih =>
    obtain ⟨k, w⟩ := hd
    by_cases h : k = key
    · simp [Table.assign, Table.lookup, h]
    · simp [Table.assign, Table.lookup, h, ih]

theorem Table.lookup_assign_other {α : Type} (t : Table α) (key other : String) (v : α)
    (h : other ≠ key) : (t.assign key v).lookup other = t.lookup other := by
  induction t with
  | nil => simp [Table.assign, Table.lookup, Ne.symm h]
  | cons hd tl ih =>
    obtain ⟨k, w⟩ := hd
    by_cases hk : k = key
    · subst hk
      simp [Table.assign, Table.lookup, Ne.symm h]
    · by_cases ho : k = other
      · subst ho
        simp [Table.assign, Table.lookup, hk]
      · simp [Table.assign, Table.lookup, hk, ho, ih]

theorem Table.lookup_remove_same {α : Type} (t : Table α) (key : String) :
    (t.remove key).lookup key = none := by
  induction t with
  | nil => simp [Table.remove, Table.lookup]
  | cons hd tl ih =>
    obtain ⟨k, w⟩ := hd
    by_cases h : k = key
    · simp [Table.remove, h, ih]
    · simp [Table.remove, Table.lookup, h, ih]

/-! ## Premium time: lemmas -/

theorem additionalTime_eq_unit (durationType : String) (durationValue : Int) :
    additionalTime durationType durationValue = durationValue * unitMillis durationType := by
  unfold additionalTime unitMillis
  split_ifs <;> ring

theorem currentExpiry_eq_base (expiryDate : Option Int) (now : Nat) :
    currentExpiry expiryDate now = accrualBase expiryDate now := by
  cases expiryDate with
  | none => simp [currentExpiry, accrualBase, truthyNum]
  | some e =>
    by_cases h0 : e = 0
    · subst h0
      simp [currentExpiry, accrualBase, truthyNum]
    · by_cases hlt : (now : Int) < e
      · simp [currentExpiry, accrualBase, truthyNum, h0, hlt, le_of_lt hlt]
      · have hle : e ≤ (now : Int) := not_lt.mp hlt
        simp [currentExpiry, accrualBase, truthyNum, h0, hlt, hle]

theorem lookup_addPremiumTime (database : Database) (userId durationType : String)
    (durationValue : Int) (grantedBy : String) (now : Nat) :
    (addPremiumTime database userId durationType durationValue grantedBy now).premiumBuyers.lookup
        userId
      = some (grantTo ((database.premiumBuyers.lookup userId).getD (newBuyer userId grantedBy now))
          durationType durationValue grantedBy now) := by
  unfold addPremiumTime
  cases h : database.premiumBuyers.lookup userId <;> simp [Table.lookup_assign_same]

theorem grantTo_not_lifetime (buyer : PremiumBuyer) (durationType : String) (durationValue : Int)
    (grantedBy : String) (now : Nat) (h : durationType ≠ "lifetime") :
    (grantTo buyer durationType durationValue grantedBy now).lifetime = false
      ∧ (grantTo buyer durationType durationValue grantedBy now).expiryDate
          = some (accrualBase buyer.expiryDate now + durationValue * unitMillis durationType)
      ∧ (grantTo buyer durationType durationValue grantedBy now).expired = false := by
  simp [grantTo, h, currentExpiry_eq_base, additionalTime_eq_unit]

theorem grantTo_lifetime (buyer : PremiumBuyer) (durationValue : Int)
    (grantedBy : String) (now : Nat) :
    (grantTo buyer "lifetime" durationValue grantedBy now).lifetime = true
      ∧ (grantTo buyer "lifetime" durationValue grantedBy now).expiryDate = none
      ∧ (grantTo buyer "lifetime" durationValue grantedBy now).expired = false := by
  simp [grantTo]

theorem expiryDate_getD_newBuyer (database : Database) (userId grantedBy : String) (now : Nat) :
    ((database.premiumBuyers.lookup userId).getD (newBuyer userId grantedBy now)).expiryDate
      = expiryOf database userId := by
  unfold expiryOf
  cases database.premiumBuyers.lookup userId <;> simp [newBuyer]

theorem expiryOf_addPremiumTime (database : Database) (userId durationType : String)
    (durationValue : Int) (grantedBy : String) (now : Nat) (h : durationType ≠ "lifetime") :
    expiryOf (addPremiumTime database userId durationType durationValue grantedBy now) userId
      = some (accrualBase (expiryOf database userId) now + durationValue * unitMillis durationType) := by
  have hg := (grantTo_not_lifetime
    ((database.premiumBuyers.lookup userId).getD (newBuyer userId grantedBy now))
    durationType durationValue grantedBy now h).2.1
  rw [expiryDate_getD_newBuyer] at hg
  simp only [expiryOf, lookup_addPremiumTime, Option.some_bind]
  exact hg

/-! ## Premium time: the claims -/

theorem unitMillis_nonneg (durationKind : String) : 0 ≤ unitMillis durationKind := by
  unfold unitMillis
  split_ifs <;> norm_num

/-- C2, as stated, fails for a negative `durationValue`: after a 1-second grant at
`now = 1000` the expiry is `2000 > now`, and a grant of `-1` seconds at the same `now`
moves it down to `1000`. -/
theorem addPremiumTime_negative_value_shortens :
    expiryOf (addPremiumTime defaultDb "U" "seconds" 1 "admin" 1000) "U" = some 2000
      ∧ (2000 : Int) > ((1000 : Nat) : Int)
      ∧ expiryOf
          (addPremiumTime (addPremiumTime defaultDb "U" "seconds" 1 "admin" 1000) "U" "seconds"
            (-1) "admin" 1000) "U"
        = some 1000
      ∧ ¬ ((1000 : Int) ≥ 2000) := by
  decide

/-- C2, amended: for every non-lifetime accrual with `durationValue ≥ 0` applied by
`addPremiumTime` to a record whose existing `expiryDate` is greater than `now`, the new
`expiryDate` is the existing one plus `durationValue * unit`, hence greater than or equal
to the existing one. -/
theorem addPremiumTime_keeps_future_expiry (database : Database) (userId durationType : String)
    (durationValue : Int) (grantedBy : String) (now : Nat) (existing : Int)
    (hkind : durationType ≠ "lifetime") (hvalue : 0 ≤ durationValue)
    (hexisting : expiryOf database userId = some existing) (hfuture : existing > (now : Int)) :
    ∃ newExpiry,
      expiryOf (addPremiumTime database userId durationType durationValue grantedBy now) userId
          = some newExpiry
        ∧ newExpiry = existing + durationValue * unitMillis durationType
        ∧ newExpiry ≥ existing := by
  have hbase : accrualBase (some existing) now = existing := by
    simp only [accrualBase]
    exact max_eq_right (le_of_lt hfuture)
  have h2 : 0 ≤ durationValue * unitMillis durationType :=
    mul_nonneg hvalue (unitMillis_nonneg durationType)
  refine ⟨_, expiryOf_addPremiumTime database userId durationType durationValue grantedBy now hkind,
    ?_, ?_⟩
  · rw [hexisting, hbase]
  · rw [hexisting, hbase]
    omega

/-- C2 amended, at a concrete input: 10 days added at `now = 1000` to an expiry of `2000`. -/
theorem addPremiumTime_keeps_future_expiry_witness :
    ∃ newExpiry,
      expiryOf
          (addPremiumTime (addPremiumTime defaultDb "U" "seconds" 1 "admin" 1000) "U" "days" 10
            "admin" 1000) "U"
          = some newExpiry
        ∧ newExpiry = 2000 + 10 * unitMillis "days"
        ∧ newExpiry ≥ 2000 :=
  addPremiumTime_keeps_future_expiry (addPremiumTime defaultDb "U" "seconds" 1 "admin" 1000) "U"
    "days" 10 "admin" 1000 2000 (by decide) (by decide) (by decide) (by decide)

/-- C3, as stated, fails: a 30-day grant on a lifetime record sets `lifetime` back to
`false`. -/
theorem addPremiumTime_clears_lifetime :
    ((addPremiumTime defaultDb "U" "lifetime" 0 "admin" 1000).premiumBuyers.lookup "U").map
        (fun buyer => buyer.lifetime) = some true
      ∧ ((addPremiumTime (addPremiumTime defaultDb "U" "lifetime" 0 "admin" 1000) "U" "days" 30
            "admin" 2000).premiumBuyers.lookup "U").map
          (fun buyer => (buyer.lifetime, buyer.expiryDate))
        = some (false, some (2000 + 30 * 86400000)) := by
  decide

/-- C3, amended: a premium record with `lifetime = true` is active at every time, and a
further lifetime grant keeps `lifetime = true`; a non-lifetime grant (seconds, days,
months or years, any value) sets `lifetime` to `false` and `expiryDate` to
`base + value * unit`; and deleting the record removes it, and with it the lifetime
status. -/
theorem lifetime_record_after_grant (database : Database) (userId : String)
    (buyer : PremiumBuyer) (hrecord : database.premiumBuyers.lookup userId = some buyer)
    (hlifetime : buyer.lifetime = true) :
    (∀ now : Nat, isPremiumActive database userId now = true)
      ∧ (∀ (durationValue : Int) (grantedBy : String) (now : Nat),
        ((addPremiumTime database userId "lifetime" durationValue grantedBy now).premiumBuyers.lookup
            userId).map (fun b => b.lifetime) = some true)
      ∧ (∀ (durationType : String) (durationValue : Int) (grantedBy : String) (now : Nat),
          durationType = "seconds" ∨ durationType = "days" ∨ durationType = "months"
              ∨ durationType = "years" →
          ((addPremiumTime database userId durationType durationValue grantedBy
                now).premiumBuyers.lookup userId).map (fun b => (b.lifetime, b.expiryDate))
            = some (false,
                some (accrualBase buyer.expiryDate now + durationValue * unitMillis durationType)))
      ∧ (removePremium database userId).premiumBuyers.lookup userId = none := by
  refine ⟨?_, ?_, ?_, ?_⟩
  · intro now
    simp [isPremiumActive, hrecord, hlifetime]
  · intro durationValue grantedBy now
    rw [lookup_addPremiumTime]
    simp [(grantTo_lifetime _ durationValue grantedBy now).1]
  · intro durationType durationValue grantedBy now hkind
    have hne : durationType ≠ "lifetime" := by
      rcases hkind with h | h | h | h <;> subst h <;> decide
    rw [lookup_addPremiumTime, hrecord]
    have hg := grantTo_not_lifetime buyer durationType durationValue grantedBy now hne
    simp [hg.1, hg.2.1]
  · simp [removePremium, hrecord, Table.lookup_remove_same]

/-- C3 amended, at a concrete input: the record made by a lifetime grant at `now = 1000`. -/
theorem lifetime_record_after_grant_witness :
    ((addPremiumTime (addPremiumTime defaultDb "U" "lifetime" 0 "admin" 1000) "U" "lifetime" 0
          "admin" 2000).premiumBuyers.lookup "U").map (fun b => b.lifetime) = some true
      ∧ (removePremium (addPremiumTime defaultDb "U" "lifetime" 0 "admin" 1000)
          "U").premiumBuyers.lookup "U" = none :=
  have h := lifetime_record_after_grant (addPremiumTime defaultDb "U" "lifetime" 0 "admin" 1000)
    "U" (grantTo (newBuyer "U" "admin" 1000) "lifetime" 0 "admin" 1000) (by decide) (by decide)
  ⟨h.2.1 0 "admin" 2000, h.2.2.2⟩

/-- C4: whatever the prior state of the user's record (absent, expired, active with any
`expiryDate`, or already lifetime) and whatever `durationValue` is passed, `addPremiumTime`
with kind `lifetime` leaves the record with `lifetime = true` and `expiryDate = null`, and
a second lifetime grant leaves the same `lifetime`, `expiryDate` and `expired` fields as
the first. -/
theorem addPremiumTime_lifetime_idempotent (database : Database) (userId : String)
    (durationValue : Int) (grantedBy : String) (now : Nat) :
    ∃ buyer,
      (addPremiumTime database userId "lifetime" durationValue grantedBy now).premiumBuyers.lookup
          userId = some buyer
        ∧ buyer.lifetime = true ∧ buyer.expiryDate = none
        ∧ ∀ (durationValue2 : Int) (grantedBy2 : String) (now2 : Nat),
            ∃ buyer2,
              (addPremiumTime
                  (addPremiumTime database userId "lifetime" durationValue grantedBy now) userId
                  "lifetime" durationValue2 grantedBy2 now2).premiumBuyers.lookup userId
                = some buyer2
              ∧ buyer2.lifetime = buyer.lifetime ∧ buyer2.expiryDate = buyer.expiryDate
              ∧ buyer2.expired = buyer.expired := by
  refine ⟨_, lookup_addPremiumTime database userId "lifetime" durationValue grantedBy now, ?_, ?_, ?_⟩
  · exact (grantTo_lifetime _ durationValue grantedBy now).1
  · exact (grantTo_lifetime _ durationValue grantedBy now).2.1
  · intro durationValue2 grantedBy2 now2
    refine ⟨_, lookup_addPremiumTime _ userId "lifetime" durationValue2 grantedBy2 now2, ?_, ?_, ?_⟩
    · rw [(grantTo_lifetime _ durationValue2 grantedBy2 now2).1,
        (grantTo_lifetime _ durationValue grantedBy now).1]
    · rw [(grantTo_lifetime _ durationValue2 grantedBy2 now2).2.1,
        (grantTo_lifetime _ durationValue grantedBy now).2.1]
    · rw [(grantTo_lifetime _ durationValue2 grantedBy2 now2).2.2,
        (grantTo_lifetime _ durationValue grantedBy now).2.2]

/-- C5: for every user id, database and clock value `now`, `isPremiumActive` returns `true`
if the user's record has `lifetime = true`; otherwise `true` exactly when the record has
an `expiryDate` set with `now < expiryDate`; and `false` in every other case, a user
without a record included. -/
theorem isPremiumActive_spec (database : Database) (userId : String) (now : Nat) :
    isPremiumActive database userId now
      = match database.premiumBuyers.lookup userId with
        | none => false
        | some buyer =>
          if buyer.lifetime = true then true
          else
            match buyer.expiryDate with
            | some expiryDate => decide ((now : Int) < expiryDate)
            | none => false := by
  unfold isPremiumActive
  cases database.premiumBuyers.lookup userId with
  | none => rfl
  | some buyer =>
    cases hl : buyer.lifetime with
    | true => simp [hl]
    | false =>
      cases he : buyer.expiryDate with
      | none => simp [hl, he, truthyNum]
      | some e =>
        by_cases h0 : e = 0
        · subst h0
          have hnow : ¬ ((now : Int) < 0) := by omega
          simp [hl, he, truthyNum, hnow]
        · by_cases hlt : (now : Int) < e
          · simp [hl, he, truthyNum, h0, hlt, not_le.mpr hlt]
          · simp [hl, he, truthyNum, h0, hlt, not_lt.mp hlt]

/-! ## Redemption: lemmas -/

theorem redeemCodeAt_stored (database : Database) (code : String) (redeemData : RedeemCode)
    (hcode : database.redeemCodes.lookup code = some redeemData) :
    redeemCodeAt database code = some redeemData := by
  simp [redeemCodeAt, hcode]

theorem redeemCodeAt_cases (database : Database) (code : String) (redeemData : RedeemCode)
    (hcode : redeemCodeAt database code = some redeemData) :
    database.redeemCodes.lookup code = some redeemData
      ∨ (database.redeemCodes.lookup code = none ∧ code ∈ objectPrototypeKeys
          ∧ redeemData = inheritedMember) := by
  unfold redeemCodeAt at hcode
  cases hstored : database.redeemCodes.lookup code with
  | some stored =>
    rw [hstored] at hcode
    exact Or.inl hcode
  | none =>
    rw [hstored] at hcode
    by_cases hmem : code ∈ objectPrototypeKeys
    · simp only [hmem, if_true] at hcode
      exact Or.inr ⟨rfl, hmem, (Option.some.inj hcode).symm⟩
    · simp [hmem] at hcode

theorem modalredeem_panel_missing (database : Database) (panelType code userId guildId key : String)
    (now : Nat) (hpanel : database.panels.lookup panelType = none) :
    modalredeem database panelType code userId guildId key now = (.panelNotFound, database) := by
  simp [modalredeem, hpanel]

theorem modalredeem_used_buyer (database : Database) (panelType code userId guildId key : String)
    (now : Nat) (panelData : Panel) (redeemData : RedeemCode)
    (hpanel : database.panels.lookup panelType = some panelData)
    (hcode : database.redeemCodes.lookup code = some redeemData)
    (hrank : redeemData.rank = "buyer") (hused : redeemData.used = true) :
    modalredeem database panelType code userId guildId key now = (.alreadyUsed, database) := by
  simp [modalredeem, hpanel, redeemCodeAt_stored _ _ _ hcode, hrank, hused]

theorem modalredeem_failure_unchanged (database : Database)
    (panelType code userId guildId key : String) (now : Nat)
    (hfail : (modalredeem database panelType code userId guildId key now).1.isSuccess = false) :
    (modalredeem database panelType code userId guildId key now).2 = database := by
  unfold modalredeem at hfail ⊢
  cases hp : database.panels.lookup panelType with
  | none => simp
  | some panelData =>
    cases hc : redeemCodeAt database code with
    | none => simp
    | some redeemData =>
      simp only [hp, hc] at hfail ⊢
      split_ifs at hfail ⊢ <;> first | rfl | simp [RedeemReply.isSuccess] at hfail

theorem modalredeem_panels (database : Database) (panelType code userId guildId key : String)
    (now : Nat) :
    (modalredeem database panelType code userId guildId key now).2.panels = database.panels := by
  unfold modalredeem
  cases hp : database.panels.lookup panelType with
  | none => simp
  | some panelData =>
    cases hc : redeemCodeAt database code with
    | none => simp
    | some redeemData =>
      simp only
      split_ifs <;> rfl

theorem modalredeem_lookup_other_code (database : Database)
    (panelType code userId guildId key : String) (now : Nat) (other : String)
    (hother : other ≠ code) :
    (modalredeem database panelType code userId guildId key now).2.redeemCodes.lookup other
      = database.redeemCodes.lookup other := by
  unfold modalredeem
  cases hp : database.panels.lookup panelType with
  | none => simp
  | some panelData =>
    cases hc : redeemCodeAt database code with
    | none => simp
    | some redeemData =>
      simp only
      split_ifs <;> first | rfl | exact Table.lookup_assign_other _ _ _ _ hother

/-- The key `modalredeem` stores for the caller on success. -/
theorem modalredeem_success (database : Database) (panelType code userId guildId key : String)
    (now : Nat)
    (hsuccess : (modalredeem database panelType code userId guildId key now).1.isSuccess = true) :
    ∃ panelData redeemData,
      database.panels.lookup panelType = some panelData
        ∧ redeemCodeAt database code = some redeemData
        ∧ (modalredeem database panelType code userId guildId key now).2
            = { database with
                userKeys := database.userKeys.assign userId
                  { key := key, rank := redeemData.rank, duration := redeemData.duration,
                    redeemedAt := now, guildId := guildId, script := scriptOf panelData,
                    panelType := panelType }
                redeemCodes :=
                  if redeemData.rank = "buyer" then
                    database.redeemCodes.assign code
                      { redeemData with
                        used := true, usedBy := some userId, usedInGuild := some guildId }
                  else database.redeemCodes } := by
  unfold modalredeem at hsuccess ⊢
  cases hp : database.panels.lookup panelType with
  | none => simp [hp, RedeemReply.isSuccess] at hsuccess
  | some panelData =>
    cases hc : redeemCodeAt database code with
    | none => simp [hp, hc, RedeemReply.isSuccess] at hsuccess
    | some redeemData =>
      refine ⟨panelData, redeemData, rfl, rfl, ?_⟩
      simp only [hp, hc] at hsuccess ⊢
      split_ifs at hsuccess ⊢ <;> first | rfl | simp [RedeemReply.isSuccess] at hsuccess

theorem modalredeem_non_buyer (database : Database) (panelType code userId guildId key : String)
    (now : Nat) (panelData : Panel) (redeemData : RedeemCode)
    (hpanel : database.panels.lookup panelType = some panelData)
    (hcode : database.redeemCodes.lookup code = some redeemData)
    (hrank : redeemData.rank ≠ "buyer") :
    (modalredeem database panelType code userId guildId key now).1.isSuccess = true
      ∧ (modalredeem database panelType code userId guildId key now).2.redeemCodes
          = database.redeemCodes := by
  simp [modalredeem, hpanel, redeemCodeAt_stored _ _ _ hcode, hrank, RedeemReply.isSuccess]

theorem modalredeem_keeps_used_buyer (database : Database)
    (panelType other userId guildId key : String) (now : Nat) (code : String)
    (redeemData : RedeemCode) (hcode : database.redeemCodes.lookup code = some redeemData)
    (hrank : redeemData.rank = "buyer") (hused : redeemData.used = true) :
    (modalredeem database panelType other userId guildId key now).2.redeemCodes.lookup code
      = some redeemData := by
  by_cases hsame : other = code
  · subst hsame
    cases hp : database.panels.lookup panelType with
    | none => rw [modalredeem_panel_missing _ _ _ _ _ _ _ hp]; exact hcode
    | some panelData =>
      rw [modalredeem_used_buyer _ _ _ _ _ _ _ panelData redeemData hp hcode hrank hused]
      exact hcode
  · rw [modalredeem_lookup_other_code _ _ _ _ _ _ _ code (Ne.symm hsame)]
    exact hcode

theorem redeemRun_keeps_used_buyer (attempts : List RedeemAttempt) (database : Database)
    (code : String) (redeemData : RedeemCode)
    (hcode : database.redeemCodes.lookup code = some redeemData)
    (hrank : redeemData.rank = "buyer") (hused : redeemData.used = true) :
    (redeemRun database attempts).2.redeemCodes.lookup code = some redeemData := by
  induction attempts generalizing database with
  | nil => exact hcode
  | cons attempt rest ih =>
    simp only [redeemRun]
    exact ih _ (modalredeem_keeps_used_buyer database _ _ _ _ _ _ code redeemData hcode hrank hused)

theorem redeemRun_panels (attempts : List RedeemAttempt) (database : Database) :
    (redeemRun database attempts).2.panels = database.panels := by
  induction attempts generalizing database with
  | nil => rfl
  | cons attempt rest ih =>
    simp only [redeemRun]
    rw [ih, RedeemAttempt.run, modalredeem_panels]

theorem modalredeem_rejects_used_buyer (database : Database)
    (panelType code userId guildId key : String) (now : Nat) (redeemData : RedeemCode)
    (hcode : database.redeemCodes.lookup code = some redeemData)
    (hrank : redeemData.rank = "buyer") (hused : redeemData.used = true) :
    (modalredeem database panelType code userId guildId key now).1.isSuccess = false
      ∧ (modalredeem database panelType code userId guildId key now).2 = database
      ∧ ((database.panels.lookup panelType).isSome = true →
          (modalredeem database panelType code userId guildId key now).1 = .alreadyUsed) := by
  cases hp : database.panels.lookup panelType with
  | none =>
    rw [modalredeem_panel_missing _ _ _ _ _ _ _ hp]
    simp [RedeemReply.isSuccess]
  | some panelData =>
    rw [modalredeem_used_buyer _ _ _ _ _ _ _ panelData redeemData hp hcode hrank hused]
    simp [RedeemReply.isSuccess]

theorem redeemRun_non_buyer (attempts : List RedeemAttempt) (database : Database) (code : String)
    (redeemData : RedeemCode) (hcode : database.redeemCodes.lookup code = some redeemData)
    (hrank : redeemData.rank ≠ "buyer")
    (hall : ∀ attempt ∈ attempts,
      attempt.code = code ∧ (database.panels.lookup attempt.panelType).isSome = true) :
    (∀ reply ∈ (redeemRun database attempts).1, reply.isSuccess = true)
      ∧ (redeemRun database attempts).1.length = attempts.length
      ∧ (redeemRun database attempts).2.redeemCodes = database.redeemCodes := by
  induction attempts generalizing database with
  | nil => simp [redeemRun]
  | cons attempt rest ih =>
    obtain ⟨hattempt, hpanel⟩ := hall attempt (List.mem_cons_self _ _)
    obtain ⟨panelData, hpanelData⟩ := Option.isSome_iff_exists.mp hpanel
    have hstep := modalredeem_non_buyer database attempt.panelType attempt.code attempt.userId
      attempt.guildId attempt.key attempt.now panelData redeemData hpanelData
      (by rw [hattempt]; exact hcode) hrank
    have hpanels := modalredeem_panels database attempt.panelType attempt.code attempt.userId
      attempt.guildId attempt.key attempt.now
    have hrest := ih (attempt.run database).2
      (by rw [RedeemAttempt.run, hstep.2]; exact hcode)
      (by
        intro later hlater
        rw [RedeemAttempt.run, hpanels]
        exact hall later (List.mem_cons_of_mem _ hlater))
    simp only [redeemRun]
    refine ⟨?_, ?_, ?_⟩
    · intro reply hreply
      rcases List.mem_cons.mp hreply with h | h
      · rw [h]; exact hstep.1
      · exact hrest.1 reply h
    · simp [hrest.2.1]
    · rw [hrest.2.2, RedeemAttempt.run, hstep.2]

/-! ## Redemption: the claims -/

/-- C6: a buyer-rank code is consumed exactly once.  A successful redemption of a buyer code
by user `userId` in guild `guildId` finds it unused and sets `used = true`,
`usedBy = userId` and `usedInGuild = guildId`; after that, and after any further redeem
submissions, the code's record is still that one, and every submission of the code, by any
user in any guild, is refused (with the already-used reply whenever its panel exists) and
leaves the whole database unchanged. -/
theorem buyer_code_consumed_once (database : Database)
    (panelType code userId guildId key : String) (now : Nat) (redeemData : RedeemCode)
    (hcode : database.redeemCodes.lookup code = some redeemData)
    (hrank : redeemData.rank = "buyer")
    (hsuccess : (modalredeem database panelType code userId guildId key now).1.isSuccess = true) :
    redeemData.used = false
      ∧ ∃ consumed : RedeemCode,
          (modalredeem database panelType code userId guildId key now).2.redeemCodes.lookup code
              = some consumed
            ∧ consumed.used = true ∧ consumed.usedBy = some userId
            ∧ consumed.usedInGuild = some guildId
            ∧ ∀ (between : List RedeemAttempt) (attempt : RedeemAttempt), attempt.code = code →
                (redeemRun (modalredeem database panelType code userId guildId key now).2
                    between).2.redeemCodes.lookup code = some consumed
                  ∧ (attempt.run
                      (redeemRun (modalredeem database panelType code userId guildId key now).2
                        between).2).1.isSuccess = false
                  ∧ (attempt.run
                      (redeemRun (modalredeem database panelType code userId guildId key now).2
                        between).2).2
                      = (redeemRun (modalredeem database panelType code userId guildId key now).2
                          between).2
                  ∧ ((database.panels.lookup attempt.panelType).isSome = true →
                      (attempt.run
                        (redeemRun (modalredeem database panelType code userId guildId key now).2
                          between).2).1 = .alreadyUsed) := by
  obtain ⟨panelData, redeemData', hpanel, hcode', hresult⟩ :=
    modalredeem_success database panelType code userId guildId key now hsuccess
  have hsame : redeemData' = redeemData := by
    rw [redeemCodeAt_stored _ _ _ hcode] at hcode'
    exact (Option.some.inj hcode').symm
  subst hsame
  have hunused : redeemData'.used = false := by
    cases hu : redeemData'.used with
    | false => rfl
    | true =>
      rw [modalredeem_used_buyer _ _ _ _ _ _ _ panelData redeemData' hpanel hcode hrank hu]
        at hsuccess
      simp [RedeemReply.isSuccess] at hsuccess
  refine ⟨hunused, { redeemData' with
    used := true, usedBy := some userId, usedInGuild := some guildId }, ?_, rfl, rfl, rfl, ?_⟩
  · rw [hresult]
    simp [hrank, Table.lookup_assign_same]
  · intro between attempt hattempt
    have hpinned :
        (modalredeem database panelType code userId guildId key now).2.redeemCodes.lookup code
          = some { redeemData' with
              used := true, usedBy := some userId, usedInGuild := some guildId } := by
      rw [hresult]
      simp [hrank, Table.lookup_assign_same]
    have hlater := redeemRun_keeps_used_buyer between _ code _ hpinned hrank rfl
    have hreject := modalredeem_rejects_used_buyer
      (redeemRun (modalredeem database panelType code userId guildId key now).2 between).2
      attempt.panelType code attempt.userId attempt.guildId attempt.key attempt.now _ hlater
      hrank rfl
    rw [redeemRun_panels, modalredeem_panels] at hreject
    simp only [RedeemAttempt.run, hattempt]
    exact ⟨hlater, hreject.1, hreject.2.1, hreject.2.2⟩

/-- C6, at a concrete input: user `U` redeems the unused buyer code of `exampleDb` in guild
`G`; afterwards user `V` is refused in guild `G`. -/
theorem buyer_code_consumed_once_witness :
    ((modalredeem exampleDb "main" "Valuamor-ABC-123" "U" "G" "KEY-1" 1000).2.redeemCodes.lookup
          "Valuamor-ABC-123").map (fun c => (c.used, c.usedBy, c.usedInGuild))
        = some (true, some "U", some "G")
      ∧ (modalredeem (modalredeem exampleDb "main" "Valuamor-ABC-123" "U" "G" "KEY-1" 1000).2
          "main" "Valuamor-ABC-123" "V" "G" "KEY-2" 2000).1 = .alreadyUsed := by
  obtain ⟨_, consumed, hlookup, hused, hby, hguild, hlater⟩ :=
    buyer_code_consumed_once exampleDb "main" "Valuamor-ABC-123" "U" "G" "KEY-1" 1000
      { rank := "buyer", used := false, usedBy := none, usedInGuild := none,
        createdAt := 500, createdBy := "owner", singleUsePerServer := some true }
      (by decide) (by decide) (by decide)
  refine ⟨?_, ?_⟩
  · rw [hlookup]
    simp [hused, hby, hguild]
  · exact (hlater []
      { panelType := "main", code := "Valuamor-ABC-123", userId := "V", guildId := "G",
        key := "KEY-2", now := 2000 } rfl).2.2.2 (by decide)

/-- C7, the code at the failing input: user `U` consumes the buyer code of `exampleDb` in
guild `G` and submits it again from `G`.  The guard on `used`, which comes before the test
`usedBy !== userId`, answers with the already-used reply: the second submission does not
succeed and issues no key, the key of the first redemption stays. -/
theorem reredeem_by_same_user_refused :
    (modalredeem exampleDb "main" "Valuamor-ABC-123" "U" "G" "KEY-1" 1000).1
        = .redeemed "KEY-1" false
      ∧ (modalredeem (modalredeem exampleDb "main" "Valuamor-ABC-123" "U" "G" "KEY-1" 1000).2
          "main" "Valuamor-ABC-123" "U" "G" "KEY-2" 2000).1 = .alreadyUsed
      ∧ ((modalredeem (modalredeem exampleDb "main" "Valuamor-ABC-123" "U" "G" "KEY-1" 1000).2
          "main" "Valuamor-ABC-123" "U" "G" "KEY-2" 2000).2.userKeys.lookup "U").map
            (fun k => k.key) = some "KEY-1" := by
  decide

/-- C8, the code at the failing input: user `U` consumes the buyer code of `exampleDb` in
guild `G`, which pins it to `G`, and submits it from guild `H`.  The guard on `used`, which
comes before the test `usedInGuild !== guildId`, answers with the already-used reply, not
with the other-guild one. -/
theorem consumed_code_from_other_guild_already_used :
    ((modalredeem exampleDb "main" "Valuamor-ABC-123" "U" "G" "KEY-1" 1000).2.redeemCodes.lookup
          "Valuamor-ABC-123").map (fun c => (c.used, c.usedInGuild)) = some (true, some "G")
      ∧ (modalredeem (modalredeem exampleDb "main" "Valuamor-ABC-123" "U" "G" "KEY-1" 1000).2
          "main" "Valuamor-ABC-123" "U" "H" "KEY-2" 2000).1 = .alreadyUsed
      ∧ (modalredeem (modalredeem exampleDb "main" "Valuamor-ABC-123" "U" "G" "KEY-1" 1000).2
          "main" "Valuamor-ABC-123" "U" "H" "KEY-2" 2000).1 ≠ .usedInOtherGuild := by
  decide

/-- C9: every successful redemption of a code by user `userId` in guild `guildId` through
panel `panelType` leaves `userKeys[userId]` equal to the record with the new key, the
code's `rank` and `duration`, `redeemedAt = now`, the guild, the panel type and the panel's
script (the default script when the panel has none, or an empty one); it stands in place of
any key the user held before, and the keys of all other users are unchanged.  The code is
what `database.redeemCodes[code]` reads: the stored entry, or, for a text that is no stored
code but the name of a member every object inherits, that member, which has no `rank` and
no `duration`, and the key then has none either. -/
theorem redeem_issues_user_key (database : Database)
    (panelType code userId guildId key : String) (now : Nat)
    (hsuccess : (modalredeem database panelType code userId guildId key now).1.isSuccess = true) :
    ∃ panelData redeemData,
      database.panels.lookup panelType = some panelData
        ∧ redeemCodeAt database code = some redeemData
        ∧ (database.redeemCodes.lookup code = some redeemData
            ∨ (database.redeemCodes.lookup code = none ∧ code ∈ objectPrototypeKeys
                ∧ redeemData = inheritedMember))
        ∧ (modalredeem database panelType code userId guildId key now).2.userKeys.lookup userId
            = some
                { key := key, rank := redeemData.rank, duration := redeemData.duration,
                  redeemedAt := now, guildId := guildId,
                  script :=
                    match panelData.script with
                    | some script => if script = "" then defaultScript else script
                    | none => defaultScript,
                  panelType := panelType }
        ∧ ∀ other : String, other ≠ userId →
            (modalredeem database panelType code userId guildId key now).2.userKeys.lookup other
              = database.userKeys.lookup other := by
  obtain ⟨panelData, redeemData, hpanel, hcode, hresult⟩ :=
    modalredeem_success database panelType code userId guildId key now hsuccess
  refine ⟨panelData, redeemData, hpanel, hcode, redeemCodeAt_cases _ _ _ hcode, ?_, ?_⟩
  · rw [hresult]
    simp only [Table.lookup_assign_same]
    have hscript : scriptOf panelData
        = match panelData.script with
          | some script => if script = "" then defaultScript else script
          | none => defaultScript := by
      unfold scriptOf
      cases hs : panelData.script with
      | none => simp [truthyStr]
      | some script =>
        by_cases he : script = "" <;> simp [truthyStr, he]
    rw [hscript]
  · intro other hother
    rw [hresult]
    exact Table.lookup_assign_other _ _ _ _ hother

/-- C9, at concrete inputs: user `U` redeems the staff code of `exampleDb` in guild `G`;
and user `U` submits the text `constructor`, which is no stored code: the redemption
succeeds and the key has no rank and no duration. -/
theorem redeem_issues_user_key_witness :
    (modalredeem exampleDb "main" "Valuamor-XYZ-999" "U" "G" "KEY-1" 1000).2.userKeys.lookup "U"
        = some
            { key := "KEY-1", rank := "staff", duration := some "30 days", redeemedAt := 1000,
              guildId := "G", script := "print(1)", panelType := "main" }
      ∧ exampleDb.redeemCodes.lookup "constructor" = none
      ∧ (modalredeem exampleDb "main" "constructor" "U" "G" "KEY-1" 1000).1
          = .redeemed "KEY-1" false
      ∧ (modalredeem exampleDb "main" "constructor" "U" "G" "KEY-1" 1000).2.userKeys.lookup "U"
          = some
              { key := "KEY-1", rank := "", duration := none, redeemedAt := 1000,
                guildId := "G", script := "print(1)", panelType := "main" } := by
  refine ⟨?_, by decide, by decide, by decide⟩
  obtain ⟨panelData, redeemData, hpanel, hcode, _, hkey, _⟩ :=
    redeem_issues_user_key exampleDb "main" "Valuamor-XYZ-999" "U" "G" "KEY-1" 1000 (by decide)
  have hp : panelData = { script := some "print(1)" } := by
    have h : exampleDb.panels.lookup "main" = some { script := some "print(1)" } := by decide
    rw [h] at hpanel
    exact (Option.some.inj hpanel).symm
  have hc : redeemData
      = { rank := "staff", duration := some "30 days", used := false, createdAt := 600,
          createdBy := "owner" } := by
    have h : redeemCodeAt exampleDb "Valuamor-XYZ-999"
        = some { rank := "staff", duration := some "30 days", used := false, createdAt := 600,
                 createdBy := "owner" } := by decide
    rw [h] at hcode
    exact (Option.some.inj hcode).symm
  rw [hkey, hp, hc]
  rfl

/-- C10: for every redeem code whose rank is not `buyer`, every redemption by any user in
any guild, through any existing panel, succeeds and leaves the table of redeem codes, this
code's record included, unchanged; so any number of successive redemptions of that code
all succeed. -/
theorem non_buyer_code_reusable (database : Database) (code : String) (redeemData : RedeemCode)
    (hcode : database.redeemCodes.lookup code = some redeemData)
    (hrank : redeemData.rank ≠ "buyer") :
    (∀ (panelType userId guildId key : String) (now : Nat),
        (database.panels.lookup panelType).isSome = true →
        (modalredeem database panelType code userId guildId key now).1.isSuccess = true
          ∧ (modalredeem database panelType code userId guildId key now).2.redeemCodes
              = database.redeemCodes
          ∧ (modalredeem database panelType code userId guildId key now).2.redeemCodes.lookup
              code = some redeemData)
      ∧ ∀ attempts : List RedeemAttempt,
          (∀ attempt ∈ attempts,
            attempt.code = code ∧ (database.panels.lookup attempt.panelType).isSome = true) →
          (∀ reply ∈ (redeemRun database attempts).1, reply.isSuccess = true)
            ∧ (redeemRun database attempts).1.length = attempts.length
            ∧ (redeemRun database attempts).2.redeemCodes = database.redeemCodes := by
  refine ⟨?_, ?_⟩
  · intro panelType userId guildId key now hpanel
    obtain ⟨panelData, hpanelData⟩ := Option.isSome_iff_exists.mp hpanel
    have h := modalredeem_non_buyer database panelType code userId guildId key now panelData
      redeemData hpanelData hcode hrank
    exact ⟨h.1, h.2, by rw [h.2]; exact hcode⟩
  · intro attempts hall
    exact redeemRun_non_buyer attempts database code redeemData hcode hrank hall

/-- C10, at a concrete input: the staff code of `exampleDb`, redeemed by `U` in `G` and then
by `V` in `H`. -/
theorem non_buyer_code_reusable_witness :
    (redeemRun exampleDb
        [{ panelType := "main", code := "Valuamor-XYZ-999", userId := "U", guildId := "G",
           key := "KEY-1", now := 1000 },
         { panelType := "main", code := "Valuamor-XYZ-999", userId := "V", guildId := "H",
           key := "KEY-2", now := 2000 }]).1.length = 2
      ∧ (redeemRun exampleDb
          [{ panelType := "main", code := "Valuamor-XYZ-999", userId := "U", guildId := "G",
             key := "KEY-1", now := 1000 },
           { panelType := "main", code := "Valuamor-XYZ-999", userId := "V", guildId := "H",
             key := "KEY-2", now := 2000 }]).2.redeemCodes = exampleDb.redeemCodes :=
  ((non_buyer_code_reusable exampleDb "Valuamor-XYZ-999"
      { rank := "staff", duration := some "30 days", used := false, createdAt := 600,
        createdBy := "owner" } (by decide) (by decide)).2
    [{ panelType := "main", code := "Valuamor-XYZ-999", userId := "U", guildId := "G",
       key := "KEY-1", now := 1000 },
     { panelType := "main", code := "Valuamor-XYZ-999", userId := "V", guildId := "H",
       key := "KEY-2", now := 2000 }]
    (by decide)).2

/-! ## Expiry sweep: lemmas -/

theorem sweep_test_eq (buyer : PremiumBuyer) (now : Nat) :
    (!buyer.lifetime
        && (truthyNum buyer.expiryDate && decide ((now : Int) ≥ buyer.expiryDate.getD 0))
        && !buyer.expired) = isDue buyer now := by
  unfold isDue
  cases buyer.expiryDate with
  | none => simp [truthyNum]
  | some e => simp [truthyNum]

theorem sweepBuyers_cons (now : Nat) (userId : String) (buyer : PremiumBuyer)
    (rest : Table PremiumBuyer) :
    sweepBuyers now ((userId, buyer) :: rest)
      = ((userId, if isDue buyer now then flagged buyer now else buyer)
            :: (sweepBuyers now rest).1,
          if isDue buyer now then userId :: (sweepBuyers now rest).2
          else (sweepBuyers now rest).2) := by
  have h := sweep_test_eq buyer now
  simp only [sweepBuyers]
  cases hd : isDue buyer now
  · rw [hd] at h
    by_cases h1 : (!buyer.lifetime
        && (truthyNum buyer.expiryDate && decide ((now : Int) ≥ buyer.expiryDate.getD 0))) = true
    · have h2 : (!buyer.expired) = false := by
        rw [h1] at h
        simpa using h
      simp [h1, h2]
    · simp [h1]
  · rw [hd] at h
    have h1 : (!buyer.lifetime
        && (truthyNum buyer.expiryDate && decide ((now : Int) ≥ buyer.expiryDate.getD 0))) = true := by
      revert h
      cases (!buyer.lifetime
        && (truthyNum buyer.expiryDate && decide ((now : Int) ≥ buyer.expiryDate.getD 0))) <;> simp
    have h2 : (!buyer.expired) = true := by
      rw [h1] at h
      simpa using h
    simp [h1, h2, flagged]

theorem sweepBuyers_lookup (now : Nat) (t : Table PremiumBuyer) (userId : String) :
    (sweepBuyers now t).1.lookup userId
      = (t.lookup userId).map
          (fun buyer => if isDue buyer now then flagged buyer now else buyer) := by
  induction t with
  | nil => simp [sweepBuyers, Table.lookup]
  | cons hd tl ih =>
    obtain ⟨k, b⟩ := hd
    rw [sweepBuyers_cons]
    by_cases hk : k = userId
    · simp [Table.lookup, hk]
    · simp [Table.lookup, hk, ih]

theorem sweepBuyers_keys (now : Nat) (t : Table PremiumBuyer) :
    Table.keys (sweepBuyers now t).1 = Table.keys t := by
  induction t with
  | nil => simp [sweepBuyers, Table.keys]
  | cons hd tl ih =>
    obtain ⟨k, b⟩ := hd
    rw [sweepBuyers_cons]
    simp only [Table.keys, List.map_cons] at ih ⊢
    rw [ih]

theorem sweepBuyers_mem_notified (now : Nat) (t : Table PremiumBuyer) (userId : String) :
    userId ∈ (sweepBuyers now t).2 ↔ ∃ buyer, (userId, buyer) ∈ t ∧ isDue buyer now = true := by
  induction t with
  | nil => simp [sweepBuyers]
  | cons hd tl ih =>
    obtain ⟨k, b⟩ := hd
    rw [sweepBuyers_cons]
    cases hd : isDue b now
    · simp only [Bool.false_eq_true, if_false, ih, List.mem_cons, Prod.mk.injEq]
      constructor
      · rintro ⟨buyer, hmem, hdue⟩
        exact ⟨buyer, Or.inr hmem, hdue⟩
      · rintro ⟨buyer, hmem | hmem, hdue⟩
        · obtain ⟨_, hb⟩ := hmem
          rw [hb, hd] at hdue
          exact absurd hdue (by simp)
        · exact ⟨buyer, hmem, hdue⟩
    · simp only [if_true, List.mem_cons, ih, Prod.mk.injEq]
      constructor
      · rintro (h | ⟨buyer, hmem, hdue⟩)
        · exact ⟨b, Or.inl ⟨h, rfl⟩, hd⟩
        · exact ⟨buyer, Or.inr hmem, hdue⟩
      · rintro ⟨buyer, hmem | hmem, hdue⟩
        · exact Or.inl hmem.1
        · exact Or.inr ⟨buyer, hmem, hdue⟩

theorem sweepBuyers_notified_sublist (now : Nat) (t : Table PremiumBuyer) :
    List.Sublist (sweepBuyers now t).2 (Table.keys t) := by
  induction t with
  | nil => simp [sweepBuyers, Table.keys]
  | cons hd tl ih =>
    obtain ⟨k, b⟩ := hd
    rw [sweepBuyers_cons]
    simp only [Table.keys, List.map_cons] at ih ⊢
    cases isDue b now
    · simpa using List.Sublist.cons k ih
    · simpa using ih

theorem Table.mem_keys_of_mem {α : Type} (t : Table α) (key : String) (v : α)
    (h : (key, v) ∈ t) : key ∈ Table.keys t :=
  List.mem_map.mpr ⟨(key, v), h, rfl⟩

theorem Table.lookup_eq_some_iff {α : Type} (t : Table α) (hkeys : (Table.keys t).Nodup)
    (key : String) (v : α) : t.lookup key = some v ↔ (key, v) ∈ t := by
  induction t with
  | nil => simp [Table.lookup]
  | cons hd tl ih =>
    obtain ⟨k, w⟩ := hd
    simp only [Table.keys, List.map_cons, List.nodup_cons] at hkeys
    by_cases hk : k = key
    · subst hk
      simp only [Table.lookup, if_true, Option.some.injEq, List.mem_cons, Prod.mk.injEq,
        true_and]
      constructor
      · intro h
        exact Or.inl h.symm
      · rintro (h | h)
        · exact h.symm
        · exact absurd (Table.mem_keys_of_mem tl k v h) hkeys.1
    · simp only [Table.lookup, hk, if_false, List.mem_cons, Prod.mk.injEq]
      rw [ih hkeys.2]
      constructor
      · intro h
        exact Or.inr h
      · rintro (h | h)
        · exact absurd h.1.symm hk
        · exact h

theorem isDue_iff (buyer : PremiumBuyer) (now : Nat) :
    isDue buyer now = true ↔
      buyer.lifetime = false
        ∧ (∃ expiryDate, buyer.expiryDate = some expiryDate ∧ expiryDate ≠ 0
            ∧ expiryDate ≤ (now : Int))
        ∧ buyer.expired = false := by
  unfold isDue
  cases buyer.expiryDate with
  | none => simp
  | some e => simp [and_assoc]

theorem isDue_flagged (buyer : PremiumBuyer) (now later : Nat) :
    isDue (flagged buyer now) later = false := by
  simp [isDue, flagged]

theorem isDue_of_expired (buyer : PremiumBuyer) (now : Nat) (h : buyer.expired = true) :
    isDue buyer now = false := by
  simp [isDue, h]

theorem sweepBuyers_notified_nodup (now : Nat) (t : Table PremiumBuyer)
    (hkeys : (Table.keys t).Nodup) : (sweepBuyers now t).2.Nodup :=
  List.Nodup.sublist (sweepBuyers_notified_sublist now t) hkeys

theorem sweepBuyers_count (now : Nat) (t : Table PremiumBuyer) (hkeys : (Table.keys t).Nodup)
    (userId : String) :
    (sweepBuyers now t).2.count userId
      = if (t.lookup userId).map (fun buyer => isDue buyer now) = some true then 1 else 0 := by
  have hmem := sweepBuyers_mem_notified now t userId
  have hnodup := sweepBuyers_notified_nodup now t hkeys
  by_cases hdue : (t.lookup userId).map (fun buyer => isDue buyer now) = some true
  · rw [if_pos hdue]
    obtain ⟨buyer, hlookup, hb⟩ := Option.map_eq_some'.mp hdue
    exact List.count_eq_one_of_mem hnodup
      (hmem.mpr ⟨buyer, (Table.lookup_eq_some_iff t hkeys userId buyer).mp hlookup, hb⟩)
  · rw [if_neg hdue]
    apply List.count_eq_zero_of_not_mem
    intro hin
    obtain ⟨buyer, hb, hd⟩ := hmem.mp hin
    apply hdue
    rw [(Table.lookup_eq_some_iff t hkeys userId buyer).mpr hb]
    simp [hd]

theorem sweepBuyers_idle (now : Nat) (t : Table PremiumBuyer)
    (hidle : ∀ entry ∈ t, isDue entry.2 now = false) : sweepBuyers now t = (t, []) := by
  induction t with
  | nil => rfl
  | cons hd tl ih =>
    obtain ⟨k, b⟩ := hd
    have hb : isDue b now = false := hidle (k, b) (List.mem_cons_self _ _)
    have htl := ih (fun entry hentry => hidle entry (List.mem_cons_of_mem _ hentry))
    rw [sweepBuyers_cons, hb, htl]
    simp

theorem sweepBuyers_settled (now : Nat) (t : Table PremiumBuyer) :
    ∀ entry ∈ (sweepBuyers now t).1, isDue entry.2 now = false := by
  induction t with
  | nil => simp [sweepBuyers]
  | cons hd tl ih =>
    obtain ⟨k, b⟩ := hd
    rw [sweepBuyers_cons]
    intro entry hentry
    rcases List.mem_cons.mp hentry with h | h
    · rw [h]
      cases hd : isDue b now
      · simpa using hd
      · simpa using isDue_flagged b now now
    · exact ih entry h

/-! ## Expiry sweep: the claims -/

/-- C11, as stated, fails: a non-lifetime record with `expiryDate = 0`, not yet flagged, has
`expiryDate <= now` at `now = 1000`, and the sweep leaves it as it is and notifies
nobody. -/
theorem sweep_skips_zero_expiry :
    (zeroExpiryDb.premiumBuyers.lookup "U").map (fun buyer => dueAsDescribed buyer 1000)
        = some true
      ∧ checkAndExpirePremiums zeroExpiryDb 1000 = (zeroExpiryDb, []) := by
  decide

/-- C11, amended: for every database and clock value `now`, `checkAndExpirePremiums` sets
`expired = true` and `expiredAt = now` on exactly the records that are non-lifetime, have
an `expiryDate` other than `0` with `expiryDate <= now`, and have `expired = false`, and it
sends exactly one notification for each of them and none for any other user.  Nothing else
changes: the keys are the same (no record is removed), the other tables are the same, and
no `lifetime` or `expiryDate` value is modified. -/
theorem checkAndExpirePremiums_flags_due (database : Database) (now : Nat)
    (hkeys : (Table.keys database.premiumBuyers).Nodup) :
    (∀ buyer : PremiumBuyer,
        isDue buyer now = true ↔
          buyer.lifetime = false
            ∧ (∃ expiryDate, buyer.expiryDate = some expiryDate ∧ expiryDate ≠ 0
                ∧ expiryDate ≤ (now : Int))
            ∧ buyer.expired = false)
      ∧ (∀ userId : String,
          (checkAndExpirePremiums database now).1.premiumBuyers.lookup userId
            = (database.premiumBuyers.lookup userId).map
                (fun buyer =>
                  if isDue buyer now then { buyer with expired := true, expiredAt := some now }
                  else buyer))
      ∧ (∀ userId : String,
          (checkAndExpirePremiums database now).2.count userId
            = if (database.premiumBuyers.lookup userId).map (fun buyer => isDue buyer now)
                  = some true then 1
              else 0)
      ∧ Table.keys (checkAndExpirePremiums database now).1.premiumBuyers
          = Table.keys database.premiumBuyers
      ∧ (checkAndExpirePremiums database now).1
          = { database with
              premiumBuyers := (checkAndExpirePremiums database now).1.premiumBuyers }
      ∧ (∀ userId : String,
          ((checkAndExpirePremiums database now).1.premiumBuyers.lookup userId).map
              (fun buyer => (buyer.lifetime, buyer.expiryDate))
            = (database.premiumBuyers.lookup userId).map
                (fun buyer => (buyer.lifetime, buyer.expiryDate))) := by
  refine ⟨fun buyer => isDue_iff buyer now, ?_, ?_, ?_, rfl, ?_⟩
  · intro userId
    exact sweepBuyers_lookup now database.premiumBuyers userId
  · intro userId
    exact sweepBuyers_count now database.premiumBuyers hkeys userId
  · exact sweepBuyers_keys now database.premiumBuyers
  · intro userId
    simp only [checkAndExpirePremiums, sweepBuyers_lookup]
    cases database.premiumBuyers.lookup userId with
    | none => rfl
    | some buyer =>
      by_cases hdue : isDue buyer now = true <;> simp [flagged, hdue]

/-- C11 amended, at a concrete input: a record with expiry `2000`, swept at `now = 3000`. -/
theorem checkAndExpirePremiums_flags_due_witness :
    (checkAndExpirePremiums (addPremiumTime defaultDb "U" "seconds" 1 "admin" 1000) 3000).2.count
        "U" = 1 := by
  have h := (checkAndExpirePremiums_flags_due (addPremiumTime defaultDb "U" "seconds" 1 "admin" 1000)
    3000 (by decide)).2.2.1 "U"
  rw [h]
  decide

/-- C12: the sweep is idempotent per record.  For every database and all times `t1` and
`t2` (so in particular for `t1 <= t2`), a record flagged and notified by a run at `t1` is
left by a following run at `t2` exactly as the first run set it, with `expired = true` and
`expiredAt = t1`, and is not notified again; and a second run at the same time changes
nothing and sends no notification. -/
theorem checkAndExpirePremiums_idempotent (database : Database)
    (hkeys : (Table.keys database.premiumBuyers).Nodup) (t1 t2 : Nat) :
    (∀ userId : String, userId ∈ (checkAndExpirePremiums database t1).2 →
        (∃ buyer,
            (checkAndExpirePremiums database t1).1.premiumBuyers.lookup userId = some buyer
              ∧ buyer.expired = true ∧ buyer.expiredAt = some t1
              ∧ (checkAndExpirePremiums (checkAndExpirePremiums database t1).1
                    t2).1.premiumBuyers.lookup userId = some buyer)
          ∧ userId ∉ (checkAndExpirePremiums (checkAndExpirePremiums database t1).1 t2).2)
      ∧ checkAndExpirePremiums (checkAndExpirePremiums database t1).1 t1
          = ((checkAndExpirePremiums database t1).1, []) := by
  refine ⟨?_, ?_⟩
  · intro userId hnotified
    obtain ⟨buyer, hmem, hdue⟩ :=
      (sweepBuyers_mem_notified t1 database.premiumBuyers userId).mp hnotified
    have hlookup := (Table.lookup_eq_some_iff _ hkeys userId buyer).mpr hmem
    have hfirst : (checkAndExpirePremiums database t1).1.premiumBuyers.lookup userId
        = some (flagged buyer t1) := by
      simp [checkAndExpirePremiums, sweepBuyers_lookup, hlookup, hdue]
    have hkeys1 : (Table.keys (checkAndExpirePremiums database t1).1.premiumBuyers).Nodup := by
      simp only [checkAndExpirePremiums, sweepBuyers_keys]
      exact hkeys
    refine ⟨⟨flagged buyer t1, hfirst, rfl, rfl, ?_⟩, ?_⟩
    · simp only [checkAndExpirePremiums, sweepBuyers_lookup] at hfirst ⊢
      rw [hfirst]
      simp [isDue_flagged]
    · intro hagain
      obtain ⟨again, hmem2, hdue2⟩ :=
        (sweepBuyers_mem_notified t2 _ userId).mp hagain
      have hlookup2 := (Table.lookup_eq_some_iff _ hkeys1 userId again).mpr hmem2
      rw [hfirst] at hlookup2
      rw [← Option.some.inj hlookup2, isDue_flagged] at hdue2
      exact absurd hdue2 (by simp)
  · simp only [checkAndExpirePremiums]
    rw [sweepBuyers_idle t1 _ (sweepBuyers_settled t1 database.premiumBuyers)]

/-- C12, at a concrete input: a record with expiry `2000`, swept at `3000` and again at
`3000`. -/
theorem checkAndExpirePremiums_idempotent_witness :
    checkAndExpirePremiums
        (checkAndExpirePremiums (addPremiumTime defaultDb "U" "seconds" 1 "admin" 1000) 3000).1
        3000
      = ((checkAndExpirePremiums (addPremiumTime defaultDb "U" "seconds" 1 "admin" 1000) 3000).1,
          []) :=
  (checkAndExpirePremiums_idempotent (addPremiumTime defaultDb "U" "seconds" 1 "admin" 1000)
    (by decide) 3000 3000).2

/-! ## Histories of the premium table: lemmas -/

theorem Table.keys_assign {α : Type} (t : Table α) (key : String) (v : α) :
    Table.keys (t.assign key v)
      = if key ∈ Table.keys t then Table.keys t else Table.keys t ++ [key] := by
  induction t with
  | nil => simp [Table.assign, Table.keys]
  | cons hd tl ih =>
    obtain ⟨k, w⟩ := hd
    simp only [Table.keys, List.map_cons, List.mem_cons] at ih ⊢
    by_cases hk : k = key
    · subst hk
      simp [Table.assign]
    · have hne : ¬ key = k := fun h => hk h.symm
      simp only [Table.assign, hk, if_false, List.map_cons, ih, hne, false_or]
      split_ifs <;> simp

theorem Table.keys_assign_nodup {α : Type} (t : Table α) (key : String) (v : α)
    (hkeys : (Table.keys t).Nodup) : (Table.keys (t.assign key v)).Nodup := by
  rw [Table.keys_assign]
  split_ifs with h
  · exact hkeys
  · exact List.Nodup.append hkeys (List.nodup_singleton key) (by simpa using h)

theorem Table.mem_assign {α : Type} (t : Table α) (key : String) (v : α) (entry : String × α)
    (h : entry ∈ t.assign key v) : entry ∈ t ∨ entry = (key, v) := by
  induction t with
  | nil =>
    simp only [Table.assign, List.mem_singleton] at h
    exact Or.inr h
  | cons hd tl ih =>
    obtain ⟨k, w⟩ := hd
    by_cases hk : k = key
    · subst hk
      simp only [Table.assign, if_true, List.mem_cons] at h
      rcases h with h | h
      · exact Or.inr h
      · exact Or.inl (List.mem_cons_of_mem _ h)
    · simp only [Table.assign, hk, if_false, List.mem_cons] at h
      rcases h with h | h
      · exact Or.inl (by rw [h]; exact List.mem_cons_self _ _)
      · rcases ih h with h' | h'
        · exact Or.inl (List.mem_cons_of_mem _ h')
        · exact Or.inr h'

theorem Table.remove_sublist {α : Type} (t : Table α) (key : String) :
    List.Sublist (t.remove key) t := by
  induction t with
  | nil => simp [Table.remove]
  | cons hd tl ih =>
    obtain ⟨k, w⟩ := hd
    by_cases hk : k = key
    · simp only [Table.remove, hk, if_true]
      exact List.Sublist.cons _ ih
    · simp only [Table.remove, hk, if_false]
      exact List.Sublist.cons₂ _ ih

theorem Table.keys_remove_nodup {α : Type} (t : Table α) (key : String)
    (hkeys : (Table.keys t).Nodup) : (Table.keys (t.remove key)).Nodup :=
  List.Nodup.sublist (List.Sublist.map Prod.fst (Table.remove_sublist t key)) hkeys

theorem sweepBuyers_mem (now : Nat) (t : Table PremiumBuyer) (entry : String × PremiumBuyer)
    (h : entry ∈ (sweepBuyers now t).1) :
    ∃ buyer, (entry.1, buyer) ∈ t
      ∧ entry.2 = if isDue buyer now then flagged buyer now else buyer := by
  induction t with
  | nil => simp [sweepBuyers] at h
  | cons hd tl ih =>
    obtain ⟨k, b⟩ := hd
    rw [sweepBuyers_cons] at h
    rcases List.mem_cons.mp h with h | h
    · exact ⟨b, by rw [h]; exact List.mem_cons_self _ _, by rw [h]⟩
    · obtain ⟨buyer, hmem, heq⟩ := ih h
      exact ⟨buyer, List.mem_cons_of_mem _ hmem, heq⟩

theorem grantTo_stamp (buyer : PremiumBuyer) (durationType : String) (durationValue : Int)
    (grantedBy : String) (now : Nat) :
    (grantTo buyer durationType durationValue grantedBy now).expired = false
      ∧ (grantTo buyer durationType durationValue grantedBy now).grantedBy = grantedBy
      ∧ (grantTo buyer durationType durationValue grantedBy now).lastUpdate = some now := by
  unfold grantTo
  by_cases h : durationType = "lifetime" <;> simp [h]

theorem grantTo_lifetime_expiry (buyer : PremiumBuyer) (durationType : String)
    (durationValue : Int) (grantedBy : String) (now : Nat)
    (h : (grantTo buyer durationType durationValue grantedBy now).lifetime = true) :
    (grantTo buyer durationType durationValue grantedBy now).expiryDate = none := by
  unfold grantTo at h ⊢
  by_cases hk : durationType = "lifetime"
  · simp [hk]
  · simp [hk] at h

/-- The invariant of the premium table: keys are distinct, and a lifetime record has no
expiry date. -/
theorem premium_invariant_step (database : Database) (op : PremiumOp)
    (hkeys : (Table.keys database.premiumBuyers).Nodup)
    (hlife : ∀ entry ∈ database.premiumBuyers,
      entry.2.lifetime = true → entry.2.expiryDate = none) :
    (Table.keys (op.apply database).premiumBuyers).Nodup
      ∧ ∀ entry ∈ (op.apply database).premiumBuyers,
          entry.2.lifetime = true → entry.2.expiryDate = none := by
  cases op with
  | grant userId durationType durationValue grantedBy now =>
    refine ⟨Table.keys_assign_nodup _ _ _ hkeys, ?_⟩
    intro entry hentry
    rcases Table.mem_assign _ _ _ _ hentry with h | h
    · exact hlife entry h
    · rw [h]
      exact grantTo_lifetime_expiry _ _ _ _ _
  | remove targetUserId =>
    simp only [PremiumOp.apply, removePremium]
    cases database.premiumBuyers.lookup targetUserId with
    | none => exact ⟨hkeys, hlife⟩
    | some buyer =>
      refine ⟨Table.keys_remove_nodup _ _ hkeys, ?_⟩
      intro entry hentry
      exact hlife entry (List.Sublist.subset (Table.remove_sublist _ _) hentry)
  | sweep now =>
    simp only [PremiumOp.apply, checkAndExpirePremiums]
    refine ⟨by rw [sweepBuyers_keys]; exact hkeys, ?_⟩
    intro entry hentry hlifetime
    obtain ⟨buyer, hmem, heq⟩ := sweepBuyers_mem now _ entry hentry
    have hb := hlife (entry.1, buyer) hmem
    rw [heq] at hlifetime ⊢
    by_cases hdue : isDue buyer now = true
    · simp only [hdue, if_true, flagged] at hlifetime ⊢
      exact hb hlifetime
    · simp only [hdue] at hlifetime ⊢
      exact hb hlifetime

theorem premium_invariant_run (ops : List PremiumOp) (database : Database)
    (hkeys : (Table.keys database.premiumBuyers).Nodup)
    (hlife : ∀ entry ∈ database.premiumBuyers,
      entry.2.lifetime = true → entry.2.expiryDate = none) :
    (Table.keys (runPremiumOps database ops).premiumBuyers).Nodup
      ∧ ∀ entry ∈ (runPremiumOps database ops).premiumBuyers,
          entry.2.lifetime = true → entry.2.expiryDate = none := by
  induction ops generalizing database with
  | nil => exact ⟨hkeys, hlife⟩
  | cons op rest ih =>
    have hstep := premium_invariant_step database op hkeys hlife
    exact ih (op.apply database) hstep.1 hstep.2

theorem addPremiumTime_keys_nodup (database : Database) (userId durationType : String)
    (durationValue : Int) (grantedBy : String) (now : Nat)
    (hkeys : (Table.keys database.premiumBuyers).Nodup) :
    (Table.keys
      (addPremiumTime database userId durationType durationValue grantedBy now).premiumBuyers).Nodup :=
  Table.keys_assign_nodup _ _ _ hkeys

/-- C13, as stated, fails: the record of `U` (expiry `2000`) is flagged by a sweep at
`3000`; a grant of `-3` seconds at `3000` resets `expired` and stores `expiryDate = 0`; a
sweep at `4000`, after that expiry date, flags nothing and notifies nobody. -/
theorem regrant_to_zero_expiry_not_flagged :
    ((checkAndExpirePremiums (addPremiumTime defaultDb "U" "seconds" 1 "admin" 1000)
          3000).1.premiumBuyers.lookup "U").map (fun buyer => buyer.expired) = some true
      ∧ ((addPremiumTime
            (checkAndExpirePremiums (addPremiumTime defaultDb "U" "seconds" 1 "admin" 1000)
              3000).1 "U" "seconds" (-3) "admin" 3000).premiumBuyers.lookup "U").map
          (fun buyer => (buyer.expired, buyer.expiryDate)) = some (false, some 0)
      ∧ (0 : Int) ≤ ((4000 : Nat) : Int)
      ∧ checkAndExpirePremiums
          (addPremiumTime
            (checkAndExpirePremiums (addPremiumTime defaultDb "U" "seconds" 1 "admin" 1000)
              3000).1 "U" "seconds" (-3) "admin" 3000) 4000
        = (addPremiumTime
            (checkAndExpirePremiums (addPremiumTime defaultDb "U" "seconds" 1 "admin" 1000)
              3000).1 "U" "seconds" (-3) "admin" 3000, []) := by
  decide

/-- C13, amended: every `addPremiumTime` call resets `expired` to `false` and records
`grantedBy` and `lastUpdate = now`; consequently, whatever the record's state before
(flagged by the sweep included), a non-lifetime grant whose new `expiryDate` is not `0`,
followed by a sweep at a time at or after that `expiryDate`, flags the record again and
sends exactly one notification to the user.  Every grant of a positive value in seconds,
days, months or years gives such an `expiryDate`. -/
theorem grant_resets_expired (database : Database) (userId durationType : String)
    (durationValue : Int) (grantedBy : String) (now : Nat)
    (hkeys : (Table.keys database.premiumBuyers).Nodup) :
    (∃ buyer,
        (addPremiumTime database userId durationType durationValue grantedBy now).premiumBuyers.lookup
            userId = some buyer
          ∧ buyer.expired = false ∧ buyer.grantedBy = grantedBy ∧ buyer.lastUpdate = some now)
      ∧ (∀ (newExpiry : Int) (later : Nat), durationType ≠ "lifetime" →
          expiryOf (addPremiumTime database userId durationType durationValue grantedBy now) userId
            = some newExpiry →
          newExpiry ≠ 0 → newExpiry ≤ (later : Int) →
          (∃ buyer,
              (checkAndExpirePremiums
                  (addPremiumTime database userId durationType durationValue grantedBy now)
                  later).1.premiumBuyers.lookup userId = some buyer
                ∧ buyer.expired = true ∧ buyer.expiredAt = some later
                ∧ buyer.expiryDate = some newExpiry)
            ∧ (checkAndExpirePremiums
                (addPremiumTime database userId durationType durationValue grantedBy now)
                later).2.count userId = 1)
      ∧ (0 < durationValue →
          durationType = "seconds" ∨ durationType = "days" ∨ durationType = "months"
            ∨ durationType = "years" →
          ∃ newExpiry,
            expiryOf (addPremiumTime database userId durationType durationValue grantedBy now)
                userId = some newExpiry
              ∧ 0 < newExpiry) := by
  have hlookup := lookup_addPremiumTime database userId durationType durationValue grantedBy now
  have hstamp := grantTo_stamp
    ((database.premiumBuyers.lookup userId).getD (newBuyer userId grantedBy now))
    durationType durationValue grantedBy now
  refine ⟨⟨_, hlookup, hstamp⟩, ?_, ?_⟩
  · intro newExpiry later hkind hexpiry hnonzero hlater
    have hgrant := grantTo_not_lifetime
      ((database.premiumBuyers.lookup userId).getD (newBuyer userId grantedBy now))
      durationType durationValue grantedBy now hkind
    have hexp : (grantTo ((database.premiumBuyers.lookup userId).getD
        (newBuyer userId grantedBy now)) durationType durationValue grantedBy now).expiryDate
        = some newExpiry := by
      simpa [expiryOf, hlookup] using hexpiry
    have hdue : isDue (grantTo ((database.premiumBuyers.lookup userId).getD
        (newBuyer userId grantedBy now)) durationType durationValue grantedBy now) later
        = true :=
      (isDue_iff _ later).mpr ⟨hgrant.1, ⟨newExpiry, hexp, hnonzero, hlater⟩, hstamp.1⟩
    refine ⟨⟨flagged (grantTo ((database.premiumBuyers.lookup userId).getD
        (newBuyer userId grantedBy now)) durationType durationValue grantedBy now) later,
      ?_, rfl, rfl, hexp⟩, ?_⟩
    · simp only [checkAndExpirePremiums, sweepBuyers_lookup, hlookup, Option.map_some', hdue,
        if_true]
    · simp only [checkAndExpirePremiums]
      rw [sweepBuyers_count later _
        (addPremiumTime_keys_nodup database userId durationType durationValue grantedBy now hkeys)
        userId, hlookup]
      simp [hdue]
  · intro hpositive hkind
    have hne : durationType ≠ "lifetime" := by
      rcases hkind with h | h | h | h <;> subst h <;> decide
    refine ⟨_, expiryOf_addPremiumTime database userId durationType durationValue grantedBy now hne,
      ?_⟩
    have hunit : 0 < unitMillis durationType := by
      rcases hkind with h | h | h | h <;> subst h <;> simp [unitMillis]
    have hbase : (0 : Int) ≤ accrualBase (expiryOf database userId) now := by
      unfold accrualBase
      cases expiryOf database userId with
      | none => simp
      | some e => exact le_trans (Int.ofNat_nonneg now) (le_max_left _ _)
    have hprod : 0 < durationValue * unitMillis durationType := mul_pos hpositive hunit
    omega

/-- C13 amended, at a concrete input: the flagged record of `U`, granted 10 seconds at
`3000` and swept at `20000`. -/
theorem grant_resets_expired_witness :
    (checkAndExpirePremiums
        (addPremiumTime
          (checkAndExpirePremiums (addPremiumTime defaultDb "U" "seconds" 1 "admin" 1000) 3000).1
          "U" "seconds" 10 "admin" 3000) 20000).2.count "U" = 1 :=
  ((grant_resets_expired
      (checkAndExpirePremiums (addPremiumTime defaultDb "U" "seconds" 1 "admin" 1000) 3000).1
      "U" "seconds" 10 "admin" 3000 (by decide)).2.1 13000 20000 (by decide) (by decide)
      (by decide) (by decide)).2

/-- C14: in every database reached from the empty database by any sequence of
`addPremiumTime` calls (any kind, any value), premium removals and expiry sweeps, every
premium record with `lifetime = true` has `expiryDate = null`, and its user is reported
active by `isPremiumActive` at every time. -/
theorem lifetime_records_have_no_expiry (ops : List PremiumOp) :
    (∀ entry ∈ (runPremiumOps defaultDb ops).premiumBuyers,
        entry.2.lifetime = true → entry.2.expiryDate = none)
      ∧ (∀ (userId : String) (buyer : PremiumBuyer),
          (runPremiumOps defaultDb ops).premiumBuyers.lookup userId = some buyer →
          buyer.lifetime = true →
          buyer.expiryDate = none
            ∧ ∀ now : Nat, isPremiumActive (runPremiumOps defaultDb ops) userId now = true)
      ∧ (∀ entry ∈ (runPremiumOps defaultDb ops).premiumBuyers,
          (runPremiumOps defaultDb ops).premiumBuyers.lookup entry.1 = some entry.2) := by
  have hinv := premium_invariant_run ops defaultDb (by simp [defaultDb, Table.keys])
    (by simp [defaultDb])
  refine ⟨hinv.2, ?_, ?_⟩
  · intro userId buyer hlookup hlifetime
    have hmem := (Table.lookup_eq_some_iff _ hinv.1 userId buyer).mp hlookup
    refine ⟨hinv.2 (userId, buyer) hmem hlifetime, ?_⟩
    intro now
    simp [isPremiumActive, hlookup, hlifetime]
  · intro entry hentry
    exact (Table.lookup_eq_some_iff _ hinv.1 entry.1 entry.2).mpr hentry

/-- C14, at a concrete input: a 30-day grant, a lifetime grant, a sweep, and a grant to
another user. -/
theorem lifetime_records_have_no_expiry_witness :
    ((runPremiumOps defaultDb
        [.grant "U" "days" 30 "admin" 1000, .grant "U" "lifetime" 0 "admin" 2000, .sweep 3000,
          .grant "V" "seconds" 5 "admin" 4000]).premiumBuyers.lookup "U").map
        (fun buyer => (buyer.lifetime, buyer.expiryDate)) = some (true, none)
      ∧ isPremiumActive
          (runPremiumOps defaultDb
            [.grant "U" "days" 30 "admin" 1000, .grant "U" "lifetime" 0 "admin" 2000,
              .sweep 3000, .grant "V" "seconds" 5 "admin" 4000]) "U" 99999999999 = true := by
  have h := (lifetime_records_have_no_expiry
    [.grant "U" "days" 30 "admin" 1000, .grant "U" "lifetime" 0 "admin" 2000, .sweep 3000,
      .grant "V" "seconds" 5 "admin" 4000]).2.1 "U"
    { userId := "U", addedDate := 1000, lifetime := true, expired := false,
      grantedBy := "admin", lastUpdate := some 2000, expiryDate := none } (by decide) rfl
  refine ⟨by decide, h.2 99999999999⟩

/-! ## Partner requests: lemmas -/

theorem requestOf_setRequest_same (database : Database) (guildId requestId : String)
    (request : PartnerRequest) :
    requestOf (setRequest database guildId requestId request) guildId requestId
      = some request := by
  simp [requestOf, setRequest, Table.lookup_assign_same]

theorem requestOf_setRequest_other (database : Database) (guildId requestId : String)
    (request : PartnerRequest) (guild id : String) (h : guild ≠ guildId ∨ id ≠ requestId) :
    requestOf (setRequest database guildId requestId request) guild id
      = requestOf database guild id := by
  unfold requestOf setRequest
  by_cases hg : guild = guildId
  · subst hg
    have hid : id ≠ requestId := by
      rcases h with h | h
      · exact absurd rfl h
      · exact h
    simp only [Table.lookup_assign_same, Option.some_bind]
    rw [Table.lookup_assign_other _ _ _ _ hid]
    cases database.partnerRequests.lookup guild <;> simp [Table.lookup]
  · simp only
    rw [Table.lookup_assign_other _ _ _ _ hg]

theorem review_processed (store : Store) (env : ReviewEnv)
    (action requestId guildId reviewerId : String) (now : Nat) (request : PartnerRequest)
    (hrequest : requestOf store.database guildId requestId = some request)
    (hstatus : request.status ≠ "pending") :
    handlePartnerReviewInteraction store env action requestId guildId reviewerId now
      = ⟨.alreadyProcessed, store, []⟩ := by
  simp [handlePartnerReviewInteraction, hrequest, hstatus]

theorem review_reject (store : Store) (env : ReviewEnv)
    (requestId guildId reviewerId : String) (now : Nat) (request : PartnerRequest)
    (permissions : Permissions)
    (hrequest : requestOf store.database guildId requestId = some request)
    (hpending : request.status = "pending") (hguild : env.guild = .found)
    (hbot : env.botMember = some permissions) :
    handlePartnerReviewInteraction store env "reject" requestId guildId reviewerId now
      = ⟨.rejected,
          saveDatabase
            { store with
              database := setRequest store.database guildId requestId
                { request with
                  status := "rejected", reviewedAt := some now, reviewedBy := some reviewerId } },
          if env.notifyOk then [.directMessage request.userId] else []⟩ := by
  simp [handlePartnerReviewInteraction, hrequest, hpending, hguild, hbot]

theorem review_accept (store : Store) (env : ReviewEnv)
    (requestId guildId reviewerId : String) (now : Nat) (request : PartnerRequest)
    (hrequest : requestOf store.database guildId requestId = some request)
    (hpending : request.status = "pending") (hguild : env.guild = .found)
    (hbot : env.botMember = some ⟨true, true⟩) :
    handlePartnerReviewInteraction store env "accept" requestId guildId reviewerId now
      = match provision env request with
        | .failed effects => ⟨.processingError, store, effects⟩
        | .done roleId channelId effects =>
          ⟨if env.updateOk then .accepted else .processingError,
            saveDatabase
              { store with
                database := setRequest store.database guildId requestId
                  { request with
                    status := "accepted", reviewedAt := some now,
                    reviewedBy := some reviewerId, channelId := some channelId,
                    roleId := some roleId } },
            if env.notifyOk then effects ++ [.directMessage request.userId] else effects⟩ := by
  simp only [handlePartnerReviewInteraction, hrequest, hpending, hguild, hbot]
  simp

theorem review_accept_failed (store : Store) (env : ReviewEnv)
    (requestId guildId reviewerId : String) (now : Nat) (request : PartnerRequest)
    (effects : List PlatformEffect)
    (hrequest : requestOf store.database guildId requestId = some request)
    (hfailed : provision env request = .failed effects) :
    (handlePartnerReviewInteraction store env "accept" requestId guildId reviewerId now).store
        = store
      ∧ (handlePartnerReviewInteraction store env "accept" requestId guildId reviewerId
          now).reply ≠ .accepted := by
  unfold handlePartnerReviewInteraction
  simp only [hrequest, hfailed]
  split_ifs <;> first
    | exact ⟨rfl, by simp⟩
    | (split <;> first
        | exact ⟨rfl, by simp⟩
        | (split <;> first
            | exact ⟨rfl, by simp⟩
            | (split_ifs <;> exact ⟨rfl, by simp⟩)))

/-! ## Partner requests: the claims -/

/-- C15: a partner request is reviewed at most once.  For every request whose status is not
`pending`, a review attempt (accept, reject or anything else), whatever the platform
answers, is refused with the already-processed reply and has no side effect: the in-memory
database and the file are unchanged and nothing is done on the platform.  In particular,
after a rejection of a pending request whose `channelId` and `roleId` are unset, every
further review is refused and the two fields remain unset. -/
theorem processed_request_review_refused (store : Store) (env : ReviewEnv)
    (action requestId guildId reviewerId : String) (now : Nat) (request : PartnerRequest)
    (hrequest : requestOf store.database guildId requestId = some request)
    (hstatus : request.status ≠ "pending") :
    handlePartnerReviewInteraction store env action requestId guildId reviewerId now
        = ⟨.alreadyProcessed, store, []⟩
      ∧ ∀ (first : Store) (env0 : ReviewEnv) (reviewer0 : String) (now0 : Nat)
          (pending : PartnerRequest),
          requestOf first.database guildId requestId = some pending →
          pending.status = "pending" → pending.channelId = none → pending.roleId = none →
          (handlePartnerReviewInteraction first env0 "reject" requestId guildId reviewer0
            now0).reply = .rejected →
          handlePartnerReviewInteraction
              (handlePartnerReviewInteraction first env0 "reject" requestId guildId reviewer0
                now0).store env action requestId guildId reviewerId now
            = ⟨.alreadyProcessed,
                (handlePartnerReviewInteraction first env0 "reject" requestId guildId reviewer0
                  now0).store, []⟩
          ∧ ∃ rejected,
              requestOf
                  (handlePartnerReviewInteraction first env0 "reject" requestId guildId
                    reviewer0 now0).store.database guildId requestId = some rejected
                ∧ rejected.status = "rejected" ∧ rejected.channelId = none
                ∧ rejected.roleId = none := by
  refine ⟨review_processed store env action requestId guildId reviewerId now request hrequest
    hstatus, ?_⟩
  intro first env0 reviewer0 now0 pending hpending hstatus0 hchannel hrole hreply
  have hguild : env0.guild = .found := by
    cases hg : env0.guild <;>
      simp [handlePartnerReviewInteraction, hpending, hstatus0, hg] at hreply
    rfl
  obtain ⟨permissions, hbot⟩ : ∃ permissions, env0.botMember = some permissions := by
    cases hb : env0.botMember with
    | none => simp [handlePartnerReviewInteraction, hpending, hstatus0, hguild, hb] at hreply
    | some permissions => exact ⟨permissions, rfl⟩
  have hfirst := review_reject first env0 requestId guildId reviewer0 now0 pending permissions
    hpending hstatus0 hguild hbot
  have hstored :
      requestOf
          (handlePartnerReviewInteraction first env0 "reject" requestId guildId reviewer0
            now0).store.database guildId requestId
        = some { pending with
            status := "rejected", reviewedAt := some now0, reviewedBy := some reviewer0 } := by
    rw [hfirst]
    exact requestOf_setRequest_same _ _ _ _
  have hne : ("rejected" : String) ≠ "pending" := by decide
  exact ⟨review_processed _ env action requestId guildId reviewerId now _ hstored hne,
    _, hstored, rfl, hchannel, hrole⟩

/-- C15, at a concrete input: the request of `partnerStore` is rejected, then an accept is
attempted. -/
theorem processed_request_review_refused_witness :
    handlePartnerReviewInteraction
        (handlePartnerReviewInteraction partnerStore okEnv "reject" "PR-1000-2222" "G" "R1"
          2000).store okEnv "accept" "PR-1000-2222" "G" "R1" 3000
      = ⟨.alreadyProcessed,
          (handlePartnerReviewInteraction partnerStore okEnv "reject" "PR-1000-2222" "G" "R1"
            2000).store, []⟩ :=
  (processed_request_review_refused
    (handlePartnerReviewInteraction partnerStore okEnv "reject" "PR-1000-2222" "G" "R1"
      2000).store okEnv "accept" "PR-1000-2222" "G" "R1" 3000
    { userId := "11112222", username := "alice", serverName := "My Server",
      reason := "because", discordLink := "https://discord.gg/x", status := "rejected",
      createdAt := 1000, guildId := "G", reviewedAt := some 2000, reviewedBy := some "R1" }
    (by decide) (by decide)).1

/-- C16: accept is atomic with respect to the request's status.  If a provisioning step
before persistence fails (role creation, adding the role to the member, category creation,
channel creation or the welcome message), the in-memory database and the file are
unchanged, so the request is still `pending` with `reviewedAt`, `reviewedBy`, `channelId`
and `roleId` as they were (unset for a submitted request); and an accept tried again, on an
interaction where provisioning goes through, sets the request to `accepted`. -/
theorem failed_accept_leaves_request_pending (store : Store) (env : ReviewEnv)
    (requestId guildId reviewerId : String) (now : Nat) (request : PartnerRequest)
    (effects : List PlatformEffect)
    (hrequest : requestOf store.database guildId requestId = some request)
    (hpending : request.status = "pending")
    (hfailed : provision env request = .failed effects) :
    (handlePartnerReviewInteraction store env "accept" requestId guildId reviewerId now).store
        = store
      ∧ (handlePartnerReviewInteraction store env "accept" requestId guildId reviewerId
          now).reply ≠ .accepted
      ∧ (∃ stored,
          requestOf
              (handlePartnerReviewInteraction store env "accept" requestId guildId reviewerId
                now).store.database guildId requestId = some stored
            ∧ stored.status = "pending" ∧ stored.reviewedAt = request.reviewedAt
            ∧ stored.reviewedBy = request.reviewedBy ∧ stored.channelId = request.channelId
            ∧ stored.roleId = request.roleId)
      ∧ ∀ (retry : ReviewEnv) (reviewer2 : String) (now2 : Nat) (roleId channelId : String)
          (effects2 : List PlatformEffect),
          retry.guild = .found → retry.botMember = some ⟨true, true⟩ →
          provision retry request = .done roleId channelId effects2 →
          ∃ accepted,
            requestOf
                (handlePartnerReviewInteraction
                  (handlePartnerReviewInteraction store env "accept" requestId guildId
                    reviewerId now).store retry "accept" requestId guildId reviewer2
                  now2).store.database guildId requestId = some accepted
              ∧ accepted.status = "accepted" ∧ accepted.reviewedAt = some now2
              ∧ accepted.reviewedBy = some reviewer2 ∧ accepted.channelId = some channelId
              ∧ accepted.roleId = some roleId := by
  have hfail := review_accept_failed store env requestId guildId reviewerId now request effects
    hrequest hfailed
  refine ⟨hfail.1, hfail.2, ⟨request, by rw [hfail.1]; exact hrequest, hpending, rfl, rfl, rfl,
    rfl⟩, ?_⟩
  intro retry reviewer2 now2 roleId channelId effects2 hguild hbot hdone
  rw [hfail.1, review_accept store retry requestId guildId reviewer2 now2 request hrequest
    hpending hguild hbot, hdone]
  exact ⟨_, requestOf_setRequest_same _ _ _ _, rfl, rfl, rfl, rfl, rfl⟩

/-- C16, at a concrete input: accepting the request of `partnerStore` when the channel
cannot be created. -/
theorem failed_accept_leaves_request_pending_witness :
    (handlePartnerReviewInteraction partnerStore { okEnv with createdChannel := none } "accept"
        "PR-1000-2222" "G" "R1" 2000).store = partnerStore :=
  (failed_accept_leaves_request_pending partnerStore { okEnv with createdChannel := none }
    "PR-1000-2222" "G" "R1" 2000
    { userId := "11112222", username := "alice", serverName := "My Server",
      reason := "because", discordLink := "https://discord.gg/x", status := "pending",
      createdAt := 1000, guildId := "G" }
    [.roleCreated "role1", .roleAdded "11112222" "role1", .categoryCreated "cat1"]
    (by decide) (by decide) (by decide)).1

/-- C17, as stated, fails: the permissions tested are the bot's, not the reviewer's.  A
reviewer holding neither permission accepts the request of `partnerStore` when the bot
holds both, and a reviewer holding both is refused when the bot lacks role management. -/
theorem accept_ignores_reviewer_permissions :
    okEnv.reviewer = some ⟨false, false⟩
      ∧ (handlePartnerReviewInteraction partnerStore okEnv "accept" "PR-1000-2222" "G" "R1"
          2000).reply = .accepted
      ∧ (requestOf
          (handlePartnerReviewInteraction partnerStore okEnv "accept" "PR-1000-2222" "G" "R1"
            2000).store.database "G" "PR-1000-2222").map (fun r => r.status) = some "accepted"
      ∧ handlePartnerReviewInteraction partnerStore
          { okEnv with reviewer := some ⟨true, true⟩, botMember := some ⟨false, true⟩ } "accept"
          "PR-1000-2222" "G" "R1" 2000
        = ⟨.missingManageRoles, partnerStore, []⟩ := by
  decide

/-- C17, amended: for every pending request, on a guild the bot can fetch and is a member
of, an accept review fails with a missing-permission reply and performs no mutation (the
store is unchanged, nothing is done on the platform) when the bot lacks role management or
channel management there; the accept proceeds to provisioning exactly when the bot holds
both; and the reviewer's own permissions do not matter. -/
theorem accept_requires_bot_permissions (store : Store) (env : ReviewEnv)
    (requestId guildId reviewerId : String) (now : Nat) (request : PartnerRequest)
    (permissions : Permissions)
    (hrequest : requestOf store.database guildId requestId = some request)
    (hpending : request.status = "pending") (hguild : env.guild = .found)
    (hbot : env.botMember = some permissions) :
    (permissions.manageRoles = false →
        handlePartnerReviewInteraction store env "accept" requestId guildId reviewerId now
          = ⟨.missingManageRoles, store, []⟩)
      ∧ (permissions.manageRoles = true → permissions.manageChannels = false →
          handlePartnerReviewInteraction store env "accept" requestId guildId reviewerId now
            = ⟨.missingManageChannels, store, []⟩)
      ∧ (permissions.manageRoles = true → permissions.manageChannels = true →
          (∀ effects, provision env request = .failed effects →
            handlePartnerReviewInteraction store env "accept" requestId guildId reviewerId now
              = ⟨.processingError, store, effects⟩)
          ∧ (∀ roleId channelId effects, provision env request = .done roleId channelId effects →
              (requestOf
                (handlePartnerReviewInteraction store env "accept" requestId guildId reviewerId
                  now).store.database guildId requestId).map (fun r => r.status)
                = some "accepted"))
      ∧ (∀ reviewer : Option Permissions,
          handlePartnerReviewInteraction store { env with reviewer := reviewer } "accept"
              requestId guildId reviewerId now
            = handlePartnerReviewInteraction store env "accept" requestId guildId reviewerId
                now) := by
  refine ⟨?_, ?_, ?_, ?_⟩
  · intro hroles
    simp [handlePartnerReviewInteraction, hrequest, hpending, hguild, hbot, hroles]
  · intro hroles hchannels
    simp [handlePartnerReviewInteraction, hrequest, hpending, hguild, hbot, hroles, hchannels]
  · intro hroles hchannels
    have hboth : env.botMember = some ⟨true, true⟩ := by
      rw [hbot]
      cases permissions
      simp_all
    have haccept := review_accept store env requestId guildId reviewerId now request hrequest
      hpending hguild hboth
    refine ⟨?_, ?_⟩
    · intro effects hfailed
      rw [haccept, hfailed]
    · intro roleId channelId effects hdone
      rw [haccept, hdone]
      simp [requestOf_setRequest_same, saveDatabase]
  · intro reviewer
    simp [handlePartnerReviewInteraction, provision]

/-- C17 amended, at a concrete input: the request of `partnerStore`, with a bot that lacks
channel management. -/
theorem accept_requires_bot_permissions_witness :
    handlePartnerReviewInteraction partnerStore { okEnv with botMember := some ⟨true, false⟩ }
        "accept" "PR-1000-2222" "G" "R1" 2000
      = ⟨.missingManageChannels, partnerStore, []⟩ :=
  (accept_requires_bot_permissions partnerStore { okEnv with botMember := some ⟨true, false⟩ }
    "PR-1000-2222" "G" "R1" 2000
    { userId := "11112222", username := "alice", serverName := "My Server",
      reason := "because", discordLink := "https://discord.gg/x", status := "pending",
      createdAt := 1000, guildId := "G" }
    ⟨true, false⟩ (by decide) (by decide) (by decide) (by decide)).2.1 rfl rfl

/-- C18, as stated, fails: a reject of the pending request of `partnerStore` is refused,
with nothing changed, when the guild cannot be fetched, and also when the bot is not a
member of it. -/
theorem reject_needs_guild_and_bot :
    (requestOf partnerStore.database "G" "PR-1000-2222").map (fun r => r.status)
        = some "pending"
      ∧ handlePartnerReviewInteraction partnerStore { okEnv with guild := .threw } "reject"
          "PR-1000-2222" "G" "R1" 2000
        = ⟨.guildFetchFailed, partnerStore, []⟩
      ∧ handlePartnerReviewInteraction partnerStore { okEnv with botMember := none } "reject"
          "PR-1000-2222" "G" "R1" 2000
        = ⟨.botNotInServer, partnerStore, []⟩ := by
  decide

/-- C18, amended: for every pending partner request on a guild the bot can fetch and is a
member of (with any permissions), a reject review sets `status = rejected`,
`reviewedAt = now` and `reviewedBy` to the reviewer and saves it, whether or not the
requester can be notified, and does nothing else: `channelId` and `roleId` stay as they
were (unset), other requests are untouched and no role, category or channel is created.
When the guild cannot be fetched or the bot is not a member, the reject is refused and
nothing changes. -/
theorem reject_sets_rejected (store : Store) (env : ReviewEnv)
    (requestId guildId reviewerId : String) (now : Nat) (request : PartnerRequest)
    (hrequest : requestOf store.database guildId requestId = some request)
    (hpending : request.status = "pending") :
    (env.guild = .found → env.botMember.isSome = true →
        (handlePartnerReviewInteraction store env "reject" requestId guildId reviewerId
            now).reply = .rejected
          ∧ requestOf
              (handlePartnerReviewInteraction store env "reject" requestId guildId reviewerId
                now).store.database guildId requestId
            = some { request with
                status := "rejected", reviewedAt := some now, reviewedBy := some reviewerId }
          ∧ (handlePartnerReviewInteraction store env "reject" requestId guildId reviewerId
              now).store.file
            = (handlePartnerReviewInteraction store env "reject" requestId guildId reviewerId
                now).store.database
          ∧ (∀ guild id : String, guild ≠ guildId ∨ id ≠ requestId →
              requestOf
                  (handlePartnerReviewInteraction store env "reject" requestId guildId
                    reviewerId now).store.database guild id
                = requestOf store.database guild id)
          ∧ (handlePartnerReviewInteraction store env "reject" requestId guildId reviewerId
              now).effects
            = if env.notifyOk then [.directMessage request.userId] else [])
      ∧ (env.guild ≠ .found ∨ env.botMember = none →
          (handlePartnerReviewInteraction store env "reject" requestId guildId reviewerId
              now).store = store
            ∧ (handlePartnerReviewInteraction store env "reject" requestId guildId reviewerId
                now).effects = []
            ∧ (handlePartnerReviewInteraction store env "reject" requestId guildId reviewerId
                now).reply ≠ .rejected) := by
  refine ⟨?_, ?_⟩
  · intro hguild hbot
    obtain ⟨permissions, hpermissions⟩ := Option.isSome_iff_exists.mp hbot
    rw [review_reject store env requestId guildId reviewerId now request permissions hrequest
      hpending hguild hpermissions]
    refine ⟨rfl, requestOf_setRequest_same _ _ _ _, rfl, ?_, rfl⟩
    intro guild id hother
    exact requestOf_setRequest_other _ _ _ _ _ _ hother
  · intro hrefused
    rcases hrefused with hguild | hbot
    · cases hg : env.guild with
      | found => exact absurd hg hguild
      | threw => simp [handlePartnerReviewInteraction, hrequest, hpending, hg]
      | missing => simp [handlePartnerReviewInteraction, hrequest, hpending, hg]
    · cases hg : env.guild <;>
        simp [handlePartnerReviewInteraction, hrequest, hpending, hg, hbot]

/-- C18 amended, at a concrete input: the request of `partnerStore` is rejected while the
requester cannot be notified. -/
theorem reject_sets_rejected_witness :
    (requestOf
        (handlePartnerReviewInteraction partnerStore { okEnv with notifyOk := false } "reject"
          "PR-1000-2222" "G" "R1" 2000).store.database "G" "PR-1000-2222").map
        (fun r => (r.status, r.reviewedAt, r.reviewedBy, r.channelId, r.roleId))
      = some ("rejected", some 2000, some "R1", none, none) := by
  rw [((reject_sets_rejected partnerStore { okEnv with notifyOk := false } "PR-1000-2222" "G"
    "R1" 2000
    { userId := "11112222", username := "alice", serverName := "My Server",
      reason := "because", discordLink := "https://discord.gg/x", status := "pending",
      createdAt := 1000, guildId := "G" }
    (by decide) (by decide)).1 rfl rfl).2.1]
  rfl

/-- C19, as stated, fails: `partnerStore` holds the request of user `11112222` under
`PR-1000-2222`; user `33332222` submits in the same guild at the same `now = 1000`, gets
the same id, and the stored request is replaced: the guild still has one request, now the
second user's. -/
theorem submit_replaces_request_with_same_id :
    (requestOf partnerStore.database "G" "PR-1000-2222").map (fun r => r.userId)
        = some "11112222"
      ∧ (modalrequest partnerStore "G" "33332222" "bob" "Other" "why" "https://discord.gg/y"
          true true 1000).reply = .submitted "PR-1000-2222"
      ∧ (requestOf
          (modalrequest partnerStore "G" "33332222" "bob" "Other" "why" "https://discord.gg/y"
            true true 1000).store.database "G" "PR-1000-2222").map (fun r => r.userId)
        = some "33332222"
      ∧ ((modalrequest partnerStore "G" "33332222" "bob" "Other" "why" "https://discord.gg/y"
            true true 1000).store.database.partnerRequests.lookup "G").map List.length
        = some 1 := by
  decide

/-- C19, amended: partner submit creates a record exactly when the tenant is configured.
If the guild has no `receiverId`, submit fails and nothing changes; otherwise it stores,
and saves, one request under the id `PR-<now>-<last 4 characters of the user id>` with
status `pending` and the submitted form fields, leaving every request stored under another
guild or id unchanged, whether or not the two messages can be delivered. -/
theorem submit_creates_pending_request (store : Store)
    (guildId userId username serverName reason discordLink : String)
    (promptOk confirmOk : Bool) (now : Nat) :
    (truthyStr ((store.database.partnerConfig.lookup guildId).bind (fun c => c.receiverId))
          = false →
        modalrequest store guildId userId username serverName reason discordLink promptOk
            confirmOk now = ⟨.notConfigured, store, []⟩)
      ∧ (truthyStr ((store.database.partnerConfig.lookup guildId).bind (fun c => c.receiverId))
          = true →
        (modalrequest store guildId userId username serverName reason discordLink promptOk
            confirmOk now).reply
            = .submitted ("PR-" ++ toString now ++ "-" ++ userId.takeRight 4)
          ∧ requestOf
              (modalrequest store guildId userId username serverName reason discordLink promptOk
                confirmOk now).store.database guildId
              ("PR-" ++ toString now ++ "-" ++ userId.takeRight 4)
            = some
                { userId := userId, username := username, serverName := serverName,
                  reason := reason, discordLink := discordLink, status := "pending",
                  createdAt := now, guildId := guildId }
          ∧ (modalrequest store guildId userId username serverName reason discordLink promptOk
              confirmOk now).store.file
            = (modalrequest store guildId userId username serverName reason discordLink promptOk
                confirmOk now).store.database
          ∧ (∀ guild id : String,
              guild ≠ guildId ∨ id ≠ "PR-" ++ toString now ++ "-" ++ userId.takeRight 4 →
              requestOf
                  (modalrequest store guildId userId username serverName reason discordLink
                    promptOk confirmOk now).store.database guild id
                = requestOf store.database guild id)
          ∧ (∀ prompt confirm : Bool,
              (modalrequest store guildId userId username serverName reason discordLink prompt
                  confirm now).store
                = (modalrequest store guildId userId username serverName reason discordLink
                    promptOk confirmOk now).store)) := by
  refine ⟨?_, ?_⟩
  · intro hnone
    simp [modalrequest, hnone]
  · intro hset
    refine ⟨?_, ?_, ?_, ?_, ?_⟩
    · simp [modalrequest, hset, requestIdOf]
    · simp only [modalrequest, hset, requestIdOf, saveDatabase]
      exact requestOf_setRequest_same _ _ _ _
    · simp [modalrequest, hset, saveDatabase]
    · intro guild id hother
      simp only [modalrequest, hset, requestIdOf, saveDatabase]
      exact requestOf_setRequest_other _ _ _ _ _ _ hother
    · intro prompt confirm
      simp [modalrequest, hset]

/-- C19 amended, at a concrete input: user `33332222` submits in guild `G` of `partnerStore`
at `now = 5000`, and the earlier request stays. -/
theorem submit_creates_pending_request_witness :
    (modalrequest partnerStore "G" "33332222" "bob" "Other" "why" "https://discord.gg/y" false
        false 5000).reply = .submitted "PR-5000-2222"
      ∧ (requestOf
          (modalrequest partnerStore "G" "33332222" "bob" "Other" "why" "https://discord.gg/y"
            false false 5000).store.database "G" "PR-1000-2222").map (fun r => r.userId)
        = some "11112222" := by
  have h := (submit_creates_pending_request partnerStore "G" "33332222" "bob" "Other" "why"
    "https://discord.gg/y" false false 5000).2 (by decide)
  refine ⟨by rw [h.1]; decide, ?_⟩
  rw [h.2.2.2.1 "G" "PR-1000-2222" (Or.inr (by decide))]
  decide

/-! ## Script access: the claims -/

/-- C20, as stated, fails: user `U` is premium-active, does not hold the required role and
has no key; the get-script action answers that the user has no script. -/
theorem premium_without_key_gets_no_script :
    isPremiumActive scriptDb "U" 2000 = true
      ∧ getscript scriptDb "main" "U" "G" "KEY-1" [] 2000 = (.noScript, scriptDb) := by
  decide

/-- C20, amended: for every caller of the get-script action on an existing panel, a script
is returned exactly when the caller holds the panel's required role, or is premium-active
and has a stored key with a script.  The access-denied reply is given exactly when the
caller neither holds the role nor is premium-active, and the no-script reply exactly when a
premium-active caller without the role has no stored script. -/
theorem getscript_access (database : Database) (panelType userId guildId key : String)
    (memberRoles : List String) (now : Nat) (panelData : Panel)
    (hpanel : database.panels.lookup panelType = some panelData) :
    ((∃ script isPremium,
          (getscript database panelType userId guildId key memberRoles now).1
            = .script script isPremium) ↔
        hasRequiredRole panelData memberRoles = true
          ∨ (isPremiumActive database userId now = true
              ∧ ∃ userKey, database.userKeys.lookup userId = some userKey
                  ∧ userKey.script ≠ ""))
      ∧ ((getscript database panelType userId guildId key memberRoles now).1 = .accessDenied ↔
          isPremiumActive database userId now = false
            ∧ hasRequiredRole panelData memberRoles = false)
      ∧ ((getscript database panelType userId guildId key memberRoles now).1 = .noScript ↔
          isPremiumActive database userId now = true
            ∧ hasRequiredRole panelData memberRoles = false
            ∧ ¬ ∃ userKey, database.userKeys.lookup userId = some userKey
                  ∧ userKey.script ≠ "") := by
  unfold getscript
  simp only [hpanel]
  cases hprem : isPremiumActive database userId now <;>
    cases hrole : hasRequiredRole panelData memberRoles <;>
    cases hkey : database.userKeys.lookup userId with
    | none => simp [Option.filter]
    | some userKey =>
      by_cases hscript : userKey.script = "" <;> simp [Option.filter, hscript]

/-- C20 amended, at a concrete input: user `V` of `scriptDb`, not premium, holding role
`R`. -/
theorem getscript_access_witness :
    ∃ script isPremium,
      (getscript scriptDb "main" "V" "G" "KEY-1" ["R"] 2000).1 = .script script isPremium :=
  (getscript_access scriptDb "main" "V" "G" "KEY-1" ["R"] 2000
    { requiredRole := some "R", script := some "print(1)" } (by decide)).1.mpr
    (Or.inl (by decide))

/-- C21, as stated, fails: user `U` of `scriptDb` is premium-active, holds the required role
`R` and has no key; the get-script action issues a `Role Access` key although access is not
by role alone. -/
theorem premium_caller_with_role_gets_key :
    isPremiumActive scriptDb "U" 2000 = true
      ∧ scriptDb.userKeys.lookup "U" = none
      ∧ (getscript scriptDb "main" "U" "G" "KEY-1" ["R"] 2000).1 = .script "print(1)" true
      ∧ ((getscript scriptDb "main" "U" "G" "KEY-1" ["R"] 2000).2.userKeys.lookup "U").map
          (fun k => (k.key, k.rank)) = some ("KEY-1", "Role Access") := by
  decide

/-- C21, amended: in the get-script action on an existing panel a `UserKey` is issued
exactly when the caller holds the panel's required role, premium-active or not, and has no
stored key with a script.  The issued key has rank `Role Access`, duration
`Permanent (Role)`, the current guild and the panel's script (or the default script), and
stands in place of a stored key without a script.  In every other case (a stored key with
a script, or no role) the database is unchanged; the keys of other users never change. -/
theorem getscript_issues_key (database : Database) (panelType userId guildId key : String)
    (memberRoles : List String) (now : Nat) (panelData : Panel)
    (hpanel : database.panels.lookup panelType = some panelData) :
    ((hasRequiredRole panelData memberRoles = true
          ∧ ¬ ∃ userKey, database.userKeys.lookup userId = some userKey ∧ userKey.script ≠ "") →
        (getscript database panelType userId guildId key memberRoles now).2
            = { database with
                userKeys := database.userKeys.assign userId
                  { key := key, rank := "Role Access", duration := some "Permanent (Role)",
                    redeemedAt := now, guildId := guildId, script := scriptOf panelData,
                    panelType := panelType } }
          ∧ (getscript database panelType userId guildId key memberRoles now).2.userKeys.lookup
              userId
            = some
                { key := key, rank := "Role Access", duration := some "Permanent (Role)",
                  redeemedAt := now, guildId := guildId, script := scriptOf panelData,
                  panelType := panelType })
      ∧ (¬ (hasRequiredRole panelData memberRoles = true
            ∧ ¬ ∃ userKey, database.userKeys.lookup userId = some userKey
                ∧ userKey.script ≠ "") →
          (getscript database panelType userId guildId key memberRoles now).2 = database)
      ∧ (∀ other : String, other ≠ userId →
          (getscript database panelType userId guildId key memberRoles now).2.userKeys.lookup
              other = database.userKeys.lookup other) := by
  unfold getscript
  simp only [hpanel]
  cases hprem : isPremiumActive database userId now <;>
    cases hrole : hasRequiredRole panelData memberRoles <;>
    cases hkey : database.userKeys.lookup userId with
    | none =>
      simp [Option.filter, Table.lookup_assign_same]
      try (intro other hother; exact Table.lookup_assign_other _ _ _ _ hother)
    | some userKey =>
      by_cases hscript : userKey.script = "" <;>
        simp [Option.filter, hscript, Table.lookup_assign_same]
      try (intro other hother; exact Table.lookup_assign_other _ _ _ _ hother)

/-- C21 amended, at a concrete input: user `V` of `scriptDb`, not premium, holding role `R`,
without a key. -/
theorem getscript_issues_key_witness :
    (getscript scriptDb "main" "V" "G" "KEY-1" ["R"] 2000).2.userKeys.lookup "V"
      = some
          { key := "KEY-1", rank := "Role Access", duration := some "Permanent (Role)",
            redeemedAt := 2000, guildId := "G", script := "print(1)", panelType := "main" } := by
  rw [((getscript_issues_key scriptDb "main" "V" "G" "KEY-1" ["R"] 2000
    { requiredRole := some "R", script := some "print(1)" } (by decide)).1
    ⟨by decide, by decide⟩).2]
  decide

/-- C22, as stated, fails: user `U` of `scriptDb` is premium-active, does not hold the
required role and has no key at all; the get-role action refuses and attempts no role
assignment. -/
theorem getrole_without_key_refused :
    isPremiumActive scriptDb "U" 2000 = true
      ∧ scriptDb.userKeys.lookup "U" = none
      ∧ getrole scriptDb "main" "U" "G" [] true 2000 = (.noKey, []) := by
  decide

/-- C22, amended: for every get-role request on a panel with a required role by a member
who does not yet hold it, the decision is: refused if the caller is not premium-active;
refused if the caller has no key at all; refused if the caller's key has rank `buyer` and
its bound `guildId` differs from the requesting guild; and granted (the role assignment is
attempted) in every other case, that is with a non-buyer key or a buyer key bound to this
guild. -/
theorem getrole_decision (database : Database) (panelType userId guildId : String)
    (memberRoles : List String) (roleAddOk : Bool) (now : Nat) (panelData : Panel)
    (role : String)
    (hpanel : database.panels.lookup panelType = some panelData)
    (hrole : panelData.requiredRole = some role) (hset : role ≠ "")
    (hnot : memberRoles.contains role = false) :
    (isPremiumActive database userId now = false →
        getrole database panelType userId guildId memberRoles roleAddOk now
          = (.premiumRequired, []))
      ∧ (isPremiumActive database userId now = true →
          database.userKeys.lookup userId = none →
          getrole database panelType userId guildId memberRoles roleAddOk now = (.noKey, []))
      ∧ (isPremiumActive database userId now = true →
          ∀ userKey, database.userKeys.lookup userId = some userKey →
            userKey.rank = "buyer" → userKey.guildId ≠ guildId →
            getrole database panelType userId guildId memberRoles roleAddOk now
              = (.keyInOtherGuild, []))
      ∧ (isPremiumActive database userId now = true →
          ∀ userKey, database.userKeys.lookup userId = some userKey →
            userKey.rank ≠ "buyer" ∨ userKey.guildId = guildId →
            getrole database panelType userId guildId memberRoles roleAddOk now
              = if roleAddOk then (.roleGranted, [.roleAdded userId role])
                else (.grantFailed, [])) := by
  have htruthy : truthyStr (some role) = true := by simp [truthyStr, hset]
  have hmem : ¬ role ∈ memberRoles := by simpa using hnot
  refine ⟨?_, ?_, ?_, ?_⟩
  · intro hprem
    simp [getrole, hpanel, hrole, htruthy, hprem]
  · intro hprem hkey
    simp [getrole, hpanel, hrole, htruthy, hprem, hmem, hkey]
  · intro hprem userKey hkey hrank hguild
    simp [getrole, hpanel, hrole, htruthy, hprem, hmem, hkey, hrank, hguild]
  · intro hprem userKey hkey hother
    rcases hother with hrank | hguild
    · simp [getrole, hpanel, hrole, htruthy, hprem, hmem, hkey, hrank]
    · simp [getrole, hpanel, hrole, htruthy, hprem, hmem, hkey, hguild]

/-- C22 amended, at a concrete input: user `V` of `scriptDb`, who is not premium-active,
requests the role. -/
theorem getrole_decision_witness :
    getrole scriptDb "main" "V" "G" [] true 2000 = (.premiumRequired, []) :=
  (getrole_decision scriptDb "main" "V" "G" [] true 2000
    { requiredRole := some "R", script := some "print(1)" } "R" (by decide) rfl (by decide)
    (by decide)).1 (by decide)

theorem isPremiumActive_active_iff (database : Database) (userId : String) (now : Nat)
    (buyer : PremiumBuyer) (hrecord : database.premiumBuyers.lookup userId = some buyer)
    (hlife : buyer.lifetime = false) :
    isPremiumActive database userId now = false ↔
      ¬ (truthyNum buyer.expiryDate = true ∧ (now : Int) < buyer.expiryDate.getD 0) := by
  unfold isPremiumActive
  simp only [hrecord, hlife]
  by_cases ht : truthyNum buyer.expiryDate = true
  · by_cases hlt : (now : Int) < buyer.expiryDate.getD 0
    · simp [ht, hlt, not_le.mpr hlt]
    · simp [ht, hlt, not_lt.mp hlt]
  · simp [ht]

theorem remainingLabel_ne_expired (days hours : Int) :
    remainingLabel days hours ≠ "Expired / Berakhir" := by
  intro h
  have hlast : ∀ s : String, (s ++ " jam").data.reverse.head? = some 'm' := by
    intro s
    simp [String.data_append]
  have hexpired : ("Expired / Berakhir" : String).data.reverse.head? = some 'r' := by decide
  unfold remainingLabel at h
  split_ifs at h
  · have := hlast (toString days ++ " days " ++ toString hours ++ " hours / " ++ toString days
      ++ " hari " ++ toString hours)
    rw [h, hexpired] at this
    exact absurd this (by decide)
  · have := hlast (toString hours ++ " hours / " ++ toString hours)
    rw [h, hexpired] at this
    exact absurd this (by decide)

/-! ## Loading and creating: the claims -/

/-- C24, as stated, fails: with no file the returned database has no `developmentKeys`
table, and from a snapshot without any table only `premiumBuyers`, `partnerRequests` and
`partnerConfig` are filled in, so `panels` is still missing. -/
theorem loadDatabase_leaves_tables_missing :
    (loadDatabase none).1.developmentKeys = none
      ∧ (loadDatabase (some {})).1.panels = none
      ∧ (loadDatabase (some {})).1.redeemCodes = none
      ∧ (loadDatabase (some {})).1.userKeys = none
      ∧ (loadDatabase (some {})).1.hwids = none
      ∧ (loadDatabase (some {})).1.developmentKeys = none := by
  decide

/-- C24, amended: with no persisted snapshot `loadDatabase` returns, and writes, the seven
tables `panels`, `redeemCodes`, `userKeys`, `hwids`, `premiumBuyers`, `partnerRequests` and
`partnerConfig`, all empty, without `developmentKeys`.  From a snapshot it returns, and
writes, every table present unchanged, `premiumBuyers`, `partnerRequests` and
`partnerConfig` defaulted to empty when missing, and `panels`, `redeemCodes`, `userKeys`,
`hwids` and `developmentKeys` as they are, missing when missing. -/
theorem loadDatabase_spec (snapshot : Snapshot) :
    loadDatabase none
        = ({ panels := some [], redeemCodes := some [], userKeys := some [], hwids := some [],
             premiumBuyers := some [], partnerRequests := some [], partnerConfig := some [],
             developmentKeys := none },
           { panels := some [], redeemCodes := some [], userKeys := some [], hwids := some [],
             premiumBuyers := some [], partnerRequests := some [], partnerConfig := some [],
             developmentKeys := none })
      ∧ (loadDatabase (some snapshot)).1
          = { panels := snapshot.panels, redeemCodes := snapshot.redeemCodes,
              userKeys := snapshot.userKeys, hwids := snapshot.hwids,
              premiumBuyers := some (snapshot.premiumBuyers.getD []),
              partnerRequests := some (snapshot.partnerRequests.getD []),
              partnerConfig := some (snapshot.partnerConfig.getD []),
              developmentKeys := snapshot.developmentKeys }
      ∧ (loadDatabase (some snapshot)).2 = (loadDatabase (some snapshot)).1 := by
  refine ⟨rfl, ?_, rfl⟩
  obtain ⟨panels, redeemCodes, userKeys, hwids, premiumBuyers, partnerRequests, partnerConfig,
    developmentKeys⟩ := snapshot
  cases premiumBuyers <;> cases partnerRequests <;> cases partnerConfig <;> rfl

/-- C25 fails on the create form.  In `exampleDb` after user `U` consumed the buyer code
`Valuamor-ABC-123` in guild `G`, the auto-generate command drawing that code leaves the
record alone, whereas the create form drawing it (rank `staff`, duration `30 days`) replaces
the record: `rank`, `duration`, `used`, `usedBy` and `usedInGuild` all change. -/
theorem modalcreate_replaces_colliding_code :
    ((modalredeem exampleDb "main" "Valuamor-ABC-123" "U" "G" "KEY-1" 1000).2.redeemCodes.lookup
          "Valuamor-ABC-123").map
        (fun c => (c.rank, c.duration, c.used, c.usedBy, c.usedInGuild))
        = some ("buyer", none, true, some "U", some "G")
      ∧ handleRedeemCodePanel
          (modalredeem exampleDb "main" "Valuamor-ABC-123" "U" "G" "KEY-1" 1000).2
          "Valuamor-ABC-123" "owner" 2000
        = (modalredeem exampleDb "main" "Valuamor-ABC-123" "U" "G" "KEY-1" 1000).2
      ∧ ((modalcreate (modalredeem exampleDb "main" "Valuamor-ABC-123" "U" "G" "KEY-1" 1000).2
            "staff" "30 days" "Valuamor-ABC-123" "owner" 2000).redeemCodes.lookup
          "Valuamor-ABC-123").map
          (fun c => (c.rank, c.duration, c.used, c.usedBy, c.usedInGuild))
        = some ("staff", some "30 days", false, none, none) := by
  refine ⟨by decide, by decide, by decide⟩

/-! ## The partner channel name: lemmas -/

theorem toLower_of_ascii (c : Char) (h : c.toNat ≤ 127) :
    (c.isAlphanum = true → c.toLower.isLower = true ∨ c.toLower.isDigit = true)
      ∧ (isJsSpace c = true → c.toLower = c) := by
  have hc := Char.ofNat_toNat c
  generalize c.toNat = n at h hc
  subst hc
  interval_cases n <;> decide

theorem toLower_of_not_ascii (c : Char) (h : 127 < c.toNat) :
    c.isAlphanum = false ∧ c.toLower = c := by
  refine ⟨?_, ?_⟩
  · have hnot : ¬ c.toNat ≤ 122 := by omega
    have hle : ¬ c.val ≤ 122 := fun hle => hnot hle
    have hdigit : ¬ c.val ≤ 57 := fun hle => hnot (le_trans (show c.toNat ≤ 57 from hle) (by omega))
    have hupper : ¬ c.val ≤ 90 := fun hle => hnot (le_trans (show c.toNat ≤ 90 from hle) (by omega))
    simp [Char.isAlphanum, Char.isAlpha, Char.isUpper, Char.isLower, Char.isDigit, hle, hdigit,
      hupper]
  · have hnot : ¬ (c.toNat ≥ 65 ∧ c.toNat ≤ 90) := by omega
    simp [Char.toLower, hnot]

theorem toLower_kept (c : Char) (hkept : (c.isAlphanum || isJsSpace c || c = '-') = true) :
    isJsSpace c.toLower = true
      ∨ c.toLower.isLower = true ∨ c.toLower.isDigit = true ∨ c.toLower = '-' := by
  by_cases hascii : c.toNat ≤ 127
  · have h := toLower_of_ascii c hascii
    simp only [Bool.or_eq_true, decide_eq_true_eq] at hkept
    rcases hkept with (halnum | hspace) | hhyphen
    · rcases h.1 halnum with hl | hd
      · exact Or.inr (Or.inl hl)
      · exact Or.inr (Or.inr (Or.inl hd))
    · rw [h.2 hspace]
      exact Or.inl hspace
    · subst hhyphen
      exact Or.inr (Or.inr (Or.inr (by decide)))
  · have h := toLower_of_not_ascii c (by omega)
    simp only [Bool.or_eq_true, decide_eq_true_eq, h.1] at hkept
    rw [h.2]
    rcases hkept with (habsurd | hspace) | hhyphen
    · exact absurd habsurd (by simp)
    · exact Or.inl hspace
    · subst hhyphen
      exact Or.inr (Or.inr (Or.inr rfl))

theorem hyphenateFrom_length (inRun : Bool) (cs : List Char) :
    (hyphenateFrom inRun cs).length ≤ cs.length := by
  induction cs generalizing inRun with
  | nil => simp [hyphenateFrom]
  | cons c rest ih =>
    unfold hyphenateFrom
    split_ifs
    · exact le_trans (ih true) (Nat.le_succ _)
    · simpa using ih true
    · simpa using ih false

theorem hyphenateFrom_mem (inRun : Bool) (cs : List Char) (c : Char)
    (h : c ∈ hyphenateFrom inRun cs) : c = '-' ∨ (c ∈ cs ∧ isJsSpace c = false) := by
  induction cs generalizing inRun with
  | nil => simp [hyphenateFrom] at h
  | cons d rest ih =>
    unfold hyphenateFrom at h
    split_ifs at h with hspace hrun
    · rcases ih true h with h' | h'
      · exact Or.inl h'
      · exact Or.inr ⟨List.mem_cons_of_mem _ h'.1, h'.2⟩
    · rcases List.mem_cons.mp h with h' | h'
      · exact Or.inl h'
      · rcases ih true h' with h'' | h''
        · exact Or.inl h''
        · exact Or.inr ⟨List.mem_cons_of_mem _ h''.1, h''.2⟩
    · rcases List.mem_cons.mp h with h' | h'
      · subst h'
        exact Or.inr ⟨List.mem_cons_self _ _, by simpa using hspace⟩
      · rcases ih false h' with h'' | h''
        · exact Or.inl h''
        · exact Or.inr ⟨List.mem_cons_of_mem _ h''.1, h''.2⟩

theorem cleanServerName_length (serverName : String) :
    (cleanServerName serverName).length ≤ 50 := by
  simp [cleanServerName, List.length_take]

theorem cleanServerName_mem (serverName : String) (c : Char)
    (h : c ∈ cleanServerName serverName) :
    (c.isAlphanum || isJsSpace c || c = '-') = true := by
  unfold cleanServerName at h
  have h1 := List.mem_of_mem_take h
  rw [List.mem_reverse] at h1
  have h2 := List.Sublist.subset (List.dropWhile_sublist _) h1
  rw [List.mem_reverse] at h2
  have h3 := List.Sublist.subset (List.dropWhile_sublist _) h2
  exact (List.mem_filter.mp h3).2

theorem channelName_eq (serverName : String) :
    channelName serverName = "☄️-" ++ String.mk (slugOf serverName) := by
  have hfront : ∀ cs : List Char,
      hyphenateSpaces (("☄️-".toList ++ cs).map Char.toLower)
        = "☄️-".toList ++ hyphenateSpaces (cs.map Char.toLower) := by
    intro cs
    have hlower : "☄️-".toList.map Char.toLower = "☄️-".toList := by decide
    have hlist : "☄️-".toList = ['☄', Char.ofNat 0xFE0F, '-'] := by decide
    rw [List.map_append, hlower, hlist]
    have h1 : isJsSpace '☄' = false := by decide
    have h2 : isJsSpace (Char.ofNat 0xFE0F) = false := by decide
    have h3 : isJsSpace '-' = false := by decide
    simp [hyphenateSpaces, hyphenateFrom, h1, h2, h3]
  unfold channelName slugOf
  rw [hfront]
  rfl

/-! ## The partner channel name: the claim -/

/-- C26, as stated, fails: for the server name `My Server ` (ending in a space) the
described slug is `my-server-`, whereas the channel is named `☄️-my-server`: the code trims
the cleaned name before truncating it, and puts a comet prefix in front. -/
theorem channelName_differs_from_described_slug :
    slugAsDescribed "My Server " = "my-server-"
      ∧ channelName "My Server " = "☄️-my-server"
      ∧ channelName "My Server " ≠ slugAsDescribed "My Server "
      ∧ channelName "My Server " ≠ "☄️-" ++ slugAsDescribed "My Server " := by
  refine ⟨by decide, by decide, by decide, by decide⟩

/-- C26, amended: for every `serverName`, the text channel created on acceptance is named
by the prefix `☄️-` followed by the slug of `serverName` obtained by removing every
character that is not an ASCII letter, digit, white space or hyphen, trimming white space
at both ends, truncating to 50 characters, lowercasing and replacing each run of white
space by one hyphen; the slug has at most 50 characters, all of them lowercase ASCII
letters, digits or hyphens, and contains no white space. -/
theorem channelName_slug (serverName : String) :
    channelName serverName = "☄️-" ++ String.mk (slugOf serverName)
      ∧ slugOf serverName
          = hyphenateSpaces
              ((((((serverName.toList.filter
                        (fun c => c.isAlphanum || isJsSpace c || c = '-')).dropWhile
                      isJsSpace).reverse.dropWhile isJsSpace).reverse).take 50).map
                Char.toLower)
      ∧ (slugOf serverName).length ≤ 50
      ∧ (∀ c ∈ slugOf serverName, c.isLower = true ∨ c.isDigit = true ∨ c = '-')
      ∧ (∀ c ∈ slugOf serverName, isJsSpace c = false) := by
  refine ⟨channelName_eq serverName, rfl, ?_, ?_, ?_⟩
  · unfold slugOf hyphenateSpaces
    refine le_trans (hyphenateFrom_length false _) ?_
    rw [List.length_map]
    exact cleanServerName_length serverName
  · intro c hc
    rcases hyphenateFrom_mem false _ c hc with h | ⟨hmem, hspace⟩
    · exact Or.inr (Or.inr h)
    · obtain ⟨c0, hc0, hlower⟩ := List.mem_map.mp hmem
      subst hlower
      rcases toLower_kept c0 (cleanServerName_mem serverName c0 hc0) with h | h | h | h
      · rw [hspace] at h
        exact absurd h (by decide)
      · exact Or.inl h
      · exact Or.inr (Or.inl h)
      · exact Or.inr (Or.inr h)
  · intro c hc
    rcases hyphenateFrom_mem false _ c hc with h | ⟨_, hspace⟩
    · subst h
      decide
    · exact hspace

/-- C26 amended, at a concrete input: a server name with removed characters, runs of white
space and surrounding blanks. -/
theorem channelName_slug_witness :
    channelName "  Émile   Café & Bar  " = "☄️-mile-caf-bar"
      ∧ (slugOf "  Émile   Café & Bar  ").length ≤ 50 :=
  ⟨by rw [(channelName_slug "  Émile   Café & Bar  ").1]; decide,
    (channelName_slug "  Émile   Café & Bar  ").2.2.1⟩

/-! ## Histories with a clock: lemmas -/

theorem expired_invariant_step (database : Database) (op : PremiumOp) (clock next : Nat)
    (hnext : clock ≤ next) (htime : ∀ t, op.time = some t → t = next)
    (hinv : ∀ entry ∈ database.premiumBuyers, entry.2.expired = true →
      entry.2.lifetime = false
        ∧ ∃ expiryDate, entry.2.expiryDate = some expiryDate ∧ expiryDate ≤ (clock : Int)) :
    ∀ entry ∈ (op.apply database).premiumBuyers, entry.2.expired = true →
      entry.2.lifetime = false
        ∧ ∃ expiryDate, entry.2.expiryDate = some expiryDate ∧ expiryDate ≤ (next : Int) := by
  have hweaken : ∀ entry ∈ database.premiumBuyers, entry.2.expired = true →
      entry.2.lifetime = false
        ∧ ∃ expiryDate, entry.2.expiryDate = some expiryDate ∧ expiryDate ≤ (next : Int) := by
    intro entry hentry hexpired
    obtain ⟨hlife, e, he, hle⟩ := hinv entry hentry hexpired
    exact ⟨hlife, e, he, le_trans hle (by exact_mod_cast hnext)⟩
  cases op with
  | grant userId durationType durationValue grantedBy now =>
    intro entry hentry hexpired
    rcases Table.mem_assign _ _ _ _ hentry with h | h
    · exact hweaken entry h hexpired
    · rw [h] at hexpired
      rw [(grantTo_stamp _ _ _ _ _).1] at hexpired
      exact absurd hexpired (by decide)
  | remove targetUserId =>
    simp only [PremiumOp.apply, removePremium]
    cases database.premiumBuyers.lookup targetUserId with
    | none => exact hweaken
    | some buyer =>
      intro entry hentry
      exact hweaken entry (List.Sublist.subset (Table.remove_sublist _ _) hentry)
  | sweep now =>
    have hnow : now = next := htime now rfl
    subst hnow
    simp only [PremiumOp.apply, checkAndExpirePremiums]
    intro entry hentry hexpired
    obtain ⟨buyer, hmem, heq⟩ := sweepBuyers_mem now _ entry hentry
    by_cases hdue : isDue buyer now = true
    · obtain ⟨hlife, ⟨e, he, _, hle⟩, _⟩ := (isDue_iff buyer now).mp hdue
      rw [heq]
      simp only [hdue, if_true, flagged]
      exact ⟨hlife, e, he, hle⟩
    · rw [heq] at hexpired ⊢
      simp only [hdue] at hexpired ⊢
      exact hweaken (entry.1, buyer) hmem hexpired

theorem expired_invariant_run (ops : List PremiumOp) (database : Database) (clock : Nat)
    (hmono : nonDecreasingFrom clock ops = true)
    (hinv : ∀ entry ∈ database.premiumBuyers, entry.2.expired = true →
      entry.2.lifetime = false
        ∧ ∃ expiryDate, entry.2.expiryDate = some expiryDate ∧ expiryDate ≤ (clock : Int)) :
    ∀ entry ∈ (runPremiumOps database ops).premiumBuyers, entry.2.expired = true →
      entry.2.lifetime = false
        ∧ ∃ expiryDate, entry.2.expiryDate = some expiryDate
            ∧ expiryDate ≤ (clockAfter clock ops : Int) := by
  induction ops generalizing database clock with
  | nil => exact hinv
  | cons op rest ih =>
    simp only [nonDecreasingFrom] at hmono
    simp only [clockAfter]
    cases htime : op.time with
    | none =>
      rw [htime] at hmono
      exact ih (op.apply database) clock hmono
        (expired_invariant_step database op clock clock (le_refl _)
          (fun t ht => by rw [htime] at ht; exact absurd ht (by simp)) hinv)
    | some t =>
      rw [htime] at hmono
      simp only [Bool.and_eq_true, decide_eq_true_eq] at hmono
      exact ih (op.apply database) t hmono.2
        (expired_invariant_step database op clock t hmono.1
          (fun t' ht' => by rw [htime] at ht'; exact (Option.some.inj ht').symm) hinv)

/-! ## Histories with a clock: the claim -/

/-- C27: in every database reached from the empty database by grants, premium removals and
expiry sweeps applied at non-decreasing times, every premium record with `expired = true`
is non-lifetime and has an `expiryDate` at or before the current time (the last clock value
read), so its user is not reported active by `isPremiumActive` at the current time or
later. -/
theorem expired_records_are_inactive (ops : List PremiumOp)
    (hmono : nonDecreasingFrom 0 ops = true) :
    (∀ entry ∈ (runPremiumOps defaultDb ops).premiumBuyers, entry.2.expired = true →
        entry.2.lifetime = false
          ∧ ∃ expiryDate, entry.2.expiryDate = some expiryDate
              ∧ expiryDate ≤ (clockAfter 0 ops : Int))
      ∧ (∀ (userId : String) (buyer : PremiumBuyer),
          (runPremiumOps defaultDb ops).premiumBuyers.lookup userId = some buyer →
          buyer.expired = true →
          buyer.lifetime = false
            ∧ (∃ expiryDate, buyer.expiryDate = some expiryDate
                ∧ expiryDate ≤ (clockAfter 0 ops : Int))
            ∧ ∀ later : Nat, clockAfter 0 ops ≤ later →
                isPremiumActive (runPremiumOps defaultDb ops) userId later = false) := by
  have hinv := expired_invariant_run ops defaultDb 0 hmono (by simp [defaultDb])
  have hkeys := (premium_invariant_run ops defaultDb (by simp [defaultDb, Table.keys])
    (by simp [defaultDb])).1
  refine ⟨hinv, ?_⟩
  intro userId buyer hlookup hexpired
  have hmem := (Table.lookup_eq_some_iff _ hkeys userId buyer).mp hlookup
  obtain ⟨hlife, e, he, hle⟩ := hinv (userId, buyer) hmem hexpired
  refine ⟨hlife, ⟨e, he, hle⟩, ?_⟩
  intro later hlater
  rw [isPremiumActive_active_iff _ userId later buyer hlookup hlife]
  rintro ⟨_, hlt⟩
  rw [he] at hlt
  simp only [Option.getD_some] at hlt
  have : (clockAfter 0 ops : Int) ≤ (later : Int) := by exact_mod_cast hlater
  omega

/-- C27, at a concrete input: a 1-second grant at `1000`, a sweep at `3000`, a grant to
another user at `4000`. -/
theorem expired_records_are_inactive_witness :
    ((runPremiumOps defaultDb
        [.grant "U" "seconds" 1 "admin" 1000, .sweep 3000,
          .grant "V" "days" 1 "admin" 4000]).premiumBuyers.lookup "U").map
        (fun buyer => buyer.expired) = some true
      ∧ isPremiumActive
          (runPremiumOps defaultDb
            [.grant "U" "seconds" 1 "admin" 1000, .sweep 3000,
              .grant "V" "days" 1 "admin" 4000]) "U" 4000 = false := by
  have h := (expired_records_are_inactive
    [.grant "U" "seconds" 1 "admin" 1000, .sweep 3000, .grant "V" "days" 1 "admin" 4000]
    (by decide)).2 "U"
    (flagged (grantTo (newBuyer "U" "admin" 1000) "seconds" 1 "admin" 1000) 3000)
    (by decide) rfl
  exact ⟨by decide, h.2.2 4000 (by decide)⟩

/-! ## Reply chunks: lemmas and the claim -/

theorem matchChunks_eq_nil {α : Type} (size fuel : Nat) (units : List α)
    (hfuel : units.length ≤ fuel) : matchChunks size fuel units = [] ↔ units = [] := by
  cases fuel with
  | zero =>
    have : units = [] := List.length_eq_zero.mp (Nat.le_zero.mp hfuel)
    simp [matchChunks, this]
  | succ fuel =>
    cases units with
    | nil => simp [matchChunks]
    | cons u rest => simp [matchChunks]

theorem matchChunks_spec {α : Type} (size : Nat) (hsize : 0 < size) (fuel : Nat)
    (units : List α) (hfuel : units.length ≤ fuel) :
    (matchChunks size fuel units).flatten = units
      ∧ (∀ chunk ∈ matchChunks size fuel units, chunk.length ≤ size ∧ chunk ≠ [])
      ∧ (∀ chunk ∈ (matchChunks size fuel units).dropLast, chunk.length = size) := by
  induction fuel generalizing units with
  | zero =>
    have : units = [] := List.length_eq_zero.mp (Nat.le_zero.mp hfuel)
    simp [matchChunks, this]
  | succ fuel ih =>
    cases units with
    | nil => simp [matchChunks]
    | cons u rest =>
      have hdrop : ((u :: rest).drop size).length ≤ fuel := by
        rw [List.length_drop]
        simp only [List.length_cons] at hfuel ⊢
        omega
      obtain ⟨hjoin, hall, hinit⟩ := ih ((u :: rest).drop size) hdrop
      have hunfold : matchChunks size (fuel + 1) (u :: rest)
          = (u :: rest).take size :: matchChunks size fuel ((u :: rest).drop size) := by
        simp [matchChunks]
      rw [hunfold]
      refine ⟨?_, ?_, ?_⟩
      · rw [List.flatten_cons, hjoin, List.take_append_drop]
      · intro chunk hchunk
        rcases List.mem_cons.mp hchunk with h | h
        · subst h
          refine ⟨by rw [List.length_take]; exact Nat.min_le_left _ _, ?_⟩
          intro hnil
          have hlen := congrArg List.length hnil
          rw [List.length_take] at hlen
          simp only [List.length_cons, List.length_nil] at hlen
          omega
        · exact hall chunk h
      · intro chunk hchunk
        by_cases hrest : matchChunks size fuel ((u :: rest).drop size) = []
        · rw [hrest] at hchunk
          simp at hchunk
        · rw [List.dropLast_cons_of_ne_nil hrest] at hchunk
          rcases List.mem_cons.mp hchunk with h | h
          · subst h
            have hne : (u :: rest).drop size ≠ [] :=
              fun hnil => hrest ((matchChunks_eq_nil size fuel _ hdrop).mpr hnil)
            have hlen : size < (u :: rest).length := by
              by_contra hle
              exact hne (List.drop_eq_nil_of_le (not_lt.mp hle))
            rw [List.length_take]
            exact Nat.min_eq_left (le_of_lt hlen)
          · exact hinit chunk h

/-- C30: for every reply, given as the list of its UTF-16 code units, the chunks produced
for sending concatenate, in order, to exactly the reply; every chunk has at most 1900 units
and every chunk except the last has exactly 1900; and for a non-empty reply every chunk is
non-empty.  (The empty reply gives the single empty chunk of the fallback `[reply]`.) -/
theorem replyChunks_spec {α : Type} (reply : List α) :
    (replyChunks reply).flatten = reply
      ∧ (∀ chunk ∈ replyChunks reply, chunk.length ≤ 1900)
      ∧ (∀ chunk ∈ (replyChunks reply).dropLast, chunk.length = 1900)
      ∧ (reply ≠ [] → ∀ chunk ∈ replyChunks reply, chunk ≠ [])
      ∧ (reply = [] → replyChunks reply = [[]]) := by
  obtain ⟨hjoin, hall, hinit⟩ := matchChunks_spec 1900 (by norm_num) reply.length reply
    (le_refl _)
  have hnil := matchChunks_eq_nil 1900 reply.length reply (le_refl _)
  by_cases hreply : reply = []
  · subst hreply
    simp [replyChunks, matchChunks]
  · have hchunks : replyChunks reply = matchChunks 1900 reply.length reply := by
      unfold replyChunks
      cases hm : matchChunks 1900 reply.length reply with
      | nil => exact absurd (hnil.mp hm) hreply
      | cons c cs => rfl
    rw [hchunks]
    exact ⟨hjoin, fun chunk h => (hall chunk h).1, hinit, fun _ chunk h => (hall chunk h).2,
      fun h => absurd h hreply⟩

/-- C30, at a concrete input: a reply of three code units. -/
theorem replyChunks_spec_witness :
    (replyChunks [104, 105, 33]).flatten = [104, 105, 33] :=
  (replyChunks_spec [104, 105, 33]).1

/-! ## Button ids: lemmas -/

theorem splitChars_ne_nil (sep : Char) (cs : List Char) : splitChars sep cs ≠ [] := by
  cases cs with
  | nil => simp [splitChars]
  | cons c rest =>
    unfold splitChars
    split_ifs
    · simp
    · cases splitChars sep rest <;> simp

theorem splitChars_no_sep (sep : Char) (cs : List Char) (h : sep ∉ cs) :
    splitChars sep cs = [cs] := by
  induction cs with
  | nil => rfl
  | cons c rest ih =>
    have hc : c ≠ sep := fun hc => h (by rw [hc]; exact List.mem_cons_self _ _)
    have hrest : sep ∉ rest := fun hmem => h (List.mem_cons_of_mem _ hmem)
    simp [splitChars, hc, ih hrest]

theorem splitChars_append_sep (sep : Char) (cs rest : List Char) (h : sep ∉ cs) :
    splitChars sep (cs ++ sep :: rest) = cs :: splitChars sep rest := by
  induction cs with
  | nil => simp [splitChars]
  | cons c tail ih =>
    have hc : c ≠ sep := fun hc => h (by rw [hc]; exact List.mem_cons_self _ _)
    have htail : sep ∉ tail := fun hmem => h (List.mem_cons_of_mem _ hmem)
    simp [splitChars, hc, ih htail]

theorem splitUnderscore_five (a b c d e : String) (ha : '_' ∉ a.toList) (hb : '_' ∉ b.toList)
    (hc : '_' ∉ c.toList) (hd : '_' ∉ d.toList) (he : '_' ∉ e.toList) :
    splitUnderscore (a ++ "_" ++ b ++ "_" ++ c ++ "_" ++ d ++ "_" ++ e) = [a, b, c, d, e] := by
  have hlist : (a ++ "_" ++ b ++ "_" ++ c ++ "_" ++ d ++ "_" ++ e).toList
      = a.toList ++ '_' :: (b.toList ++ '_' :: (c.toList ++ '_' :: (d.toList
          ++ '_' :: e.toList))) := by
    simp [String.toList, String.data_append]
  unfold splitUnderscore
  rw [hlist, splitChars_append_sep _ _ _ ha, splitChars_append_sep _ _ _ hb,
    splitChars_append_sep _ _ _ hc, splitChars_append_sep _ _ _ hd, splitChars_no_sep _ _ he]
  rfl

theorem no_underscore_of_isDigits (s : String) (h : isDigits s = true) : '_' ∉ s.toList := by
  intro hmem
  simp only [isDigits, Bool.and_eq_true, List.all_eq_true] at h
  have := h.2 '_' hmem
  exact absurd this (by decide)

/-! ## Development keys: the claim -/

/-- C29 fails for a role name with an underscore.  The form input `VIP_Gold` and `123` with
the choice `yes` gives the button id `createkey_confirm_yes_VIP_Gold_123`, and the record
stored on confirmation has `role = VIP` and `playerId = Gold`: the id is cut at every
underscore. -/
theorem createkey_cuts_role_at_underscore :
    confirmButtonId "yes" "VIP_Gold" "123" = "createkey_confirm_yes_VIP_Gold_123"
      ∧ (createkeyConfirm defaultDb (confirmButtonId "yes" "VIP_Gold" "123") "DEV-1" "owner"
          1000).developmentKeys
        = some
            [("DEV-1",
              { role := "VIP", playerId := "Gold", unlimited := true, used := false,
                usedBy := none, createdAt := 1000, createdBy := "owner" })] := by
  refine ⟨by decide, by decide⟩

/-- Where the round trip of the create-key form holds: for a role name and a player id
without an underscore, and either choice, the record stored on confirmation has the entered
role and player id, `unlimited` exactly for `yes`, `used = false` and `usedBy = null`. -/
theorem createkey_roundtrip_without_underscore (database : Database)
    (choice roleName playerId key userId : String) (now : Nat)
    (hchoice : choice = "yes" ∨ choice = "no")
    (hrole : '_' ∉ roleName.toList) (hplayer : '_' ∉ playerId.toList) :
    ((createkeyConfirm database (confirmButtonId choice roleName playerId) key userId
        now).developmentKeys.getD []).lookup key
      = some
          { role := roleName, playerId := playerId, unlimited := decide (choice = "yes"),
            used := false, usedBy := none, createdAt := now, createdBy := userId } := by
  have hsplit : splitUnderscore (confirmButtonId choice roleName playerId)
      = ["createkey", "confirm", choice, roleName, playerId] := by
    have hid : confirmButtonId choice roleName playerId
        = "createkey" ++ "_" ++ "confirm" ++ "_" ++ choice ++ "_" ++ roleName ++ "_"
            ++ playerId := by
      unfold confirmButtonId
      have : ("createkey_confirm_" : String) = "createkey" ++ "_" ++ "confirm" ++ "_" := by
        decide
      rw [this]
    rw [hid]
    apply splitUnderscore_five
    · decide
    · decide
    · rcases hchoice with h | h <;> subst h <;> decide
    · exact hrole
    · exact hplayer
  simp [createkeyConfirm, hsplit, Table.lookup_assign_same]

/-! ## The set-buyer handlers: lemmas -/

theorem splitUnderscore_durationButtonId (targetUserId valueText kind : String)
    (htarget : isDigits targetUserId = true) (hvalue : '_' ∉ valueText.toList)
    (hkind : '_' ∉ kind.toList) :
    splitUnderscore (durationButtonId targetUserId (valueText, kind))
      = ["setbuyer", "duration", targetUserId, valueText, kind] := by
  have hid : durationButtonId targetUserId (valueText, kind)
      = "setbuyer" ++ "_" ++ "duration" ++ "_" ++ targetUserId ++ "_" ++ valueText ++ "_"
          ++ kind := by
    unfold durationButtonId
    have : ("setbuyer_duration_" : String) = "setbuyer" ++ "_" ++ "duration" ++ "_" := by
      decide
    rw [this]
  rw [hid]
  exact splitUnderscore_five _ _ _ _ _ (by decide) (by decide)
    (no_underscore_of_isDigits _ htarget) hvalue hkind

theorem splitUnderscore_customtimeButtonId (targetUserId : String)
    (htarget : isDigits targetUserId = true) :
    splitUnderscore (customtimeButtonId targetUserId)
      = ["setbuyer", "customtime", targetUserId] := by
  have hlist : (customtimeButtonId targetUserId).toList
      = "setbuyer".toList ++ '_' :: ("customtime".toList ++ '_' :: targetUserId.toList) := by
    have : ("setbuyer_customtime_" : String) = "setbuyer" ++ "_" ++ "customtime" ++ "_" := by
      decide
    unfold customtimeButtonId
    rw [this]
    simp [String.toList, String.data_append]
  unfold splitUnderscore
  rw [hlist, splitChars_append_sep _ _ _ (by decide), splitChars_append_sep _ _ _ (by decide),
    splitChars_no_sep _ _ (no_underscore_of_isDigits _ htarget)]
  rfl

theorem durationAction_button (database : Database) (targetUserId username : String)
    (now : Nat) (valueText kind : String) (value : Int)
    (htarget : isDigits targetUserId = true) (hvalue : '_' ∉ valueText.toList)
    (hkind : '_' ∉ kind.toList) (hparse : parseInt valueText = some value)
    (hok : kind = "lifetime" ∨ 0 < value) :
    durationAction database (durationButtonId targetUserId (valueText, kind)) username now
      = (.premiumAdded, addPremiumTime database targetUserId kind value username now) := by
  unfold durationAction
  rw [splitUnderscore_durationButtonId targetUserId valueText kind htarget hvalue hkind]
  rcases hok with hlife | hpos
  · simp [hparse, hlife]
  · have hnot : ¬ value ≤ 0 := by omega
    simp [hparse, hnot]

theorem durationAction_button_invalid (database : Database) (targetUserId username : String)
    (now : Nat) (valueText kind : String)
    (htarget : isDigits targetUserId = true) (hvalue : '_' ∉ valueText.toList)
    (hkind : '_' ∉ kind.toList) (hnot : kind ≠ "lifetime")
    (hbad : parseInt valueText = none ∨ ∃ value, parseInt valueText = some value ∧ value ≤ 0) :
    durationAction database (durationButtonId targetUserId (valueText, kind)) username now
      = (.invalidDuration, database) := by
  unfold durationAction
  rw [splitUnderscore_durationButtonId targetUserId valueText kind htarget hvalue hkind]
  rcases hbad with hnone | ⟨value, hsome, hle⟩
  · simp [hnone, hnot]
  · simp [hsome, hnot, hle]

theorem active_after_grant (database : Database) (userId durationType : String)
    (durationValue : Int) (grantedBy : String) (now later : Nat)
    (hkind : durationType ≠ "lifetime")
    (hlater : (later : Int)
      < accrualBase (expiryOf database userId) now + durationValue * unitMillis durationType) :
    isPremiumActive (addPremiumTime database userId durationType durationValue grantedBy now)
        userId later = true := by
  have hlookup := lookup_addPremiumTime database userId durationType durationValue grantedBy now
  have hgrant := grantTo_not_lifetime
    ((database.premiumBuyers.lookup userId).getD (newBuyer userId grantedBy now))
    durationType durationValue grantedBy now hkind
  rw [expiryDate_getD_newBuyer] at hgrant
  by_contra hinactive
  have hfalse : isPremiumActive
      (addPremiumTime database userId durationType durationValue grantedBy now) userId later
      = false := by simpa using hinactive
  rw [isPremiumActive_active_iff _ userId later _ hlookup hgrant.1] at hfalse
  apply hfalse
  rw [hgrant.2.1]
  have hpos : accrualBase (expiryOf database userId) now
      + durationValue * unitMillis durationType ≠ 0 := by
    have : (0 : Int) ≤ (later : Int) := Int.ofNat_nonneg later
    omega
  exact ⟨by simp [truthyNum, hpos], by simpa using hlater⟩

theorem active_after_lifetime (database : Database) (userId : String) (durationValue : Int)
    (grantedBy : String) (now later : Nat) :
    isPremiumActive (addPremiumTime database userId "lifetime" durationValue grantedBy now)
        userId later = true := by
  have hlookup := lookup_addPremiumTime database userId "lifetime" durationValue grantedBy now
  unfold isPremiumActive
  rw [hlookup]
  simp [(grantTo_lifetime _ durationValue grantedBy now).1]

theorem now_le_accrualBase (existing : Option Int) (now : Nat) :
    (now : Int) ≤ accrualBase existing now := by
  unfold accrualBase
  cases existing with
  | none => simp
  | some e => exact le_max_left _ _

theorem positive_grant_effect (database : Database) (userId durationType : String)
    (durationValue : Int) (grantedBy : String) (now : Nat)
    (hkind : durationType = "seconds" ∨ durationType = "days" ∨ durationType = "months"
      ∨ durationType = "years")
    (hpositive : 0 < durationValue) :
    isPremiumActive (addPremiumTime database userId durationType durationValue grantedBy now)
        userId now = true
      ∧ ∀ existing : Int, expiryOf database userId = some existing → (now : Int) < existing →
          isPremiumActive
              (addPremiumTime database userId durationType durationValue grantedBy now) userId
              existing.toNat = true
            ∧ ∃ newExpiry,
                expiryOf (addPremiumTime database userId durationType durationValue grantedBy now)
                    userId = some newExpiry
                  ∧ existing < newExpiry := by
  have hne : durationType ≠ "lifetime" := by
    rcases hkind with h | h | h | h <;> subst h <;> decide
  have hunit : 0 < unitMillis durationType := by
    rcases hkind with h | h | h | h <;> subst h <;> simp [unitMillis]
  have hprod : 0 < durationValue * unitMillis durationType := mul_pos hpositive hunit
  refine ⟨?_, ?_⟩
  · apply active_after_grant _ _ _ _ _ _ _ hne
    have := now_le_accrualBase (expiryOf database userId) now
    omega
  · intro existing hexisting hfuture
    have hbase : accrualBase (expiryOf database userId) now = existing := by
      rw [hexisting]
      simp only [accrualBase]
      exact max_eq_right (le_of_lt hfuture)
    refine ⟨?_, _, expiryOf_addPremiumTime database userId durationType durationValue grantedBy
      now hne, ?_⟩
    · apply active_after_grant _ _ _ _ _ _ _ hne
      rw [hbase]
      have hnonneg : 0 ≤ existing := le_trans (Int.ofNat_nonneg now) (le_of_lt hfuture)
      rw [Int.toNat_of_nonneg hnonneg]
      omega
    · rw [hbase]
      omega

/-! ## JavaScript numbers: lemmas -/

theorem bitLengthFrom_le_iff (fuel n k : Nat) (hfuel : n ≤ fuel) :
    bitLengthFrom fuel n ≤ k ↔ n < 2 ^ k := by
  induction fuel generalizing n k with
  | zero =>
    have hn : n = 0 := by omega
    subst hn
    simp [bitLengthFrom]
  | succ fuel ih =>
    unfold bitLengthFrom
    by_cases hn : n = 0
    · subst hn
      simp
    · simp only [hn, if_false]
      cases k with
      | zero =>
        simp
        omega
      | succ k =>
        rw [Nat.add_le_add_iff_right, ih (n / 2) k (by omega), pow_succ]
        omega

theorem bitLength_le_iff (n k : Nat) : bitLength n ≤ k ↔ n < 2 ^ k :=
  bitLengthFrom_le_iff n n k (le_refl n)

theorem nearestDouble_of_le (a : Nat) (ha : a ≤ 2 ^ 53) : nearestDouble a = some a := by
  rcases Nat.lt_or_ge a (2 ^ 53) with hlt | hge
  · have hbits : bitLength a ≤ 53 := (bitLength_le_iff a 53).mpr hlt
    simp [nearestDouble, hbits]
  · have heq : a = 9007199254740992 := by
      norm_num at ha hge
      omega
    subst heq
    decide

theorem toDouble_of_safe (n : Int) (hlo : -(2 ^ 53) ≤ n) (hhi : n ≤ 2 ^ 53) :
    toDouble n = .finite n := by
  have habs : n.natAbs ≤ 2 ^ 53 := by
    norm_num at hlo hhi ⊢
    omega
  unfold toDouble
  rw [nearestDouble_of_le _ habs]
  by_cases hneg : n < 0
  · simp only [hneg, if_true]
    congr 1
    omega
  · simp only [hneg, if_false]
    congr 1
    omega

theorem toDouble_of_safeInteger (n : Int) (h : isSafeInteger n) : toDouble n = .finite n :=
  toDouble_of_safe n (by have := h.1; norm_num; omega) (by have := h.2; norm_num; omega)

theorem jsAdditionalTime_exact (durationType : String) (durationValue : Int)
    (hkind : durationType = "seconds" ∨ durationType = "days" ∨ durationType = "months"
      ∨ durationType = "years")
    (hexact : isSafeInteger (durationValue * unitMillis durationType)) :
    jsAdditionalTime durationType (.finite durationValue)
      = .finite (durationValue * unitMillis durationType) := by
  obtain ⟨hlo, hhi⟩ := hexact
  rcases hkind with h | h | h | h <;> subst h
  · simp only [unitMillis, if_true] at hlo hhi ⊢
    simp only [jsAdditionalTime, if_true, JsNumber.mul]
    exact toDouble_of_safeInteger _ ⟨hlo, hhi⟩
  · have hunit : unitMillis "days" = 86400000 := by decide
    rw [hunit] at hlo hhi ⊢
    have hkinds : ("days" : String) ≠ "seconds" := by decide
    simp only [jsAdditionalTime, hkinds, if_true, if_false, JsNumber.mul]
    rw [toDouble_of_safeInteger (durationValue * 24) ⟨by omega, by omega⟩]
    simp only [JsNumber.mul]
    rw [toDouble_of_safeInteger (durationValue * 24 * 60) ⟨by omega, by omega⟩]
    simp only [JsNumber.mul]
    rw [toDouble_of_safeInteger (durationValue * 24 * 60 * 60) ⟨by omega, by omega⟩]
    simp only [JsNumber.mul]
    rw [toDouble_of_safeInteger (durationValue * 24 * 60 * 60 * 1000) ⟨by omega, by omega⟩]
    congr 1
    omega
  · have hunit : unitMillis "months" = 2592000000 := by decide
    rw [hunit] at hlo hhi ⊢
    have hk1 : ("months" : String) ≠ "seconds" := by decide
    have hk2 : ("months" : String) ≠ "days" := by decide
    simp only [jsAdditionalTime, hk1, hk2, if_true, if_false, JsNumber.mul]
    rw [toDouble_of_safeInteger (durationValue * 30) ⟨by omega, by omega⟩]
    simp only [JsNumber.mul]
    rw [toDouble_of_safeInteger (durationValue * 30 * 24) ⟨by omega, by omega⟩]
    simp only [JsNumber.mul]
    rw [toDouble_of_safeInteger (durationValue * 30 * 24 * 60) ⟨by omega, by omega⟩]
    simp only [JsNumber.mul]
    rw [toDouble_of_safeInteger (durationValue * 30 * 24 * 60 * 60) ⟨by omega, by omega⟩]
    simp only [JsNumber.mul]
    rw [toDouble_of_safeInteger (durationValue * 30 * 24 * 60 * 60 * 1000) ⟨by omega, by omega⟩]
    congr 1
    omega
  · have hunit : unitMillis "years" = 31536000000 := by decide
    rw [hunit] at hlo hhi ⊢
    have hk1 : ("years" : String) ≠ "seconds" := by decide
    have hk2 : ("years" : String) ≠ "days" := by decide
    have hk3 : ("years" : String) ≠ "months" := by decide
    simp only [jsAdditionalTime, hk1, hk2, hk3, if_true, if_false, JsNumber.mul]
    rw [toDouble_of_safeInteger (durationValue * 365) ⟨by omega, by omega⟩]
    simp only [JsNumber.mul]
    rw [toDouble_of_safeInteger (durationValue * 365 * 24) ⟨by omega, by omega⟩]
    simp only [JsNumber.mul]
    rw [toDouble_of_safeInteger (durationValue * 365 * 24 * 60) ⟨by omega, by omega⟩]
    simp only [JsNumber.mul]
    rw [toDouble_of_safeInteger (durationValue * 365 * 24 * 60 * 60) ⟨by omega, by omega⟩]
    simp only [JsNumber.mul]
    rw [toDouble_of_safeInteger (durationValue * 365 * 24 * 60 * 60 * 1000) ⟨by omega, by omega⟩]
    congr 1
    omega

theorem jsCurrentExpiry_finite (existing : Option Int) (now : Nat) :
    jsCurrentExpiry (existing.map JsNumber.finite) now = .finite (accrualBase existing now) := by
  rw [← currentExpiry_eq_base]
  cases existing with
  | none => simp [jsCurrentExpiry, currentExpiry, truthyNum]
  | some e =>
    simp only [jsCurrentExpiry, currentExpiry, Option.map_some', JsNumber.truthy, JsNumber.lt,
      truthyNum, Option.getD_some]
    by_cases h : (decide (e ≠ 0) && decide ((now : Int) < e)) = true
    · have h2 : (decide (e ≠ 0) && decide (e > (now : Int))) = true := by simpa using h
      rw [if_pos h, if_pos h2]
    · have h2 : ¬ (decide (e ≠ 0) && decide (e > (now : Int))) = true := by simpa using h
      rw [if_neg h, if_neg h2]

theorem jsExpiryDate_exact (existing : Option Int) (durationType : String) (durationValue : Int)
    (now : Nat)
    (hkind : durationType = "seconds" ∨ durationType = "days" ∨ durationType = "months"
      ∨ durationType = "years")
    (hproduct : isSafeInteger (durationValue * unitMillis durationType))
    (hsum : isSafeInteger (accrualBase existing now + durationValue * unitMillis durationType)) :
    jsExpiryDate (existing.map JsNumber.finite) durationType (.finite durationValue) now
      = .finite (accrualBase existing now + durationValue * unitMillis durationType) := by
  unfold jsExpiryDate
  rw [jsCurrentExpiry_finite, jsAdditionalTime_exact durationType durationValue hkind hproduct]
  simp only [JsNumber.add]
  exact toDouble_of_safeInteger _ hsum

theorem roundHalfEven_floor (num den P q : Nat) (hden : 0 < den) (hP : 0 < P)
    (hq : q = num / den) (hlarge : 2 * P ≤ den → 9007199254740992 ≤ den * q ∨ (q = 0 ∧ P = 9007199254740992))
    (hnum : num < 9007199254740992) :
    roundHalfEven (num * P) den / P = q := by
  have hfloor : num * P / den / P = q := by
    rw [Nat.div_div_eq_div_mul, Nat.mul_div_mul_right _ _ hP, hq]
  unfold roundHalfEven
  split_ifs with hup
  · have h2 : den * (num * P / den) + num * P % den = num * P := Nat.div_add_mod _ _
    have h3 : den * (num / den) + num % den = num := Nat.div_add_mod _ _
    have hs_lt : num % den < den := Nat.mod_lt _ hden
    have hr_lt : num * P % den < den := Nat.mod_lt _ hden
    rw [← hq] at h3
    generalize num * P / den = m at *
    generalize num * P % den = r at *
    generalize num % den = s at *
    have hm_lt : m < (q + 1) * P := by
      have hlt : m / P < q + 1 := by omega
      exact (Nat.div_lt_iff_lt_mul hP).mp hlt
    have hm_ge : q * P ≤ m := by
      have hle : q ≤ m / P := by omega
      exact (Nat.le_div_iff_mul_le hP).mp hle
    by_contra hne
    have heq : m + 1 = (q + 1) * P := by
      by_contra hlt
      apply hne
      apply Nat.div_eq_of_lt_le
      · omega
      · show m + 1 < (q + 1) * P
        omega
    have h2r : den ≤ 2 * r := by
      rcases hup with h | h
      · omega
      · omega
    have key : (s : ℤ) * P + den = P * den + r := by
      have h2i : (den : ℤ) * m + r = num * P := by exact_mod_cast h2
      have h3i : (den : ℤ) * q + s = num := by exact_mod_cast h3
      have h4i : (m : ℤ) + 1 = (q + 1) * P := by exact_mod_cast heq
      linear_combination (-1 : ℤ) * h2i + P * h3i + den * h4i
    have hsP : (s : ℤ) * P ≤ (den - 1) * P := by
      apply mul_le_mul_of_nonneg_right
      · have : (s : ℤ) < den := by exact_mod_cast hs_lt
        omega
      · positivity
    have hrP : (r : ℤ) + P ≤ den := by nlinarith
    have h2P : 2 * P ≤ den := by
      have : (den : ℤ) ≤ 2 * r := by exact_mod_cast h2r
      have : (2 : ℤ) * P ≤ den := by omega
      exact_mod_cast this
    rcases hlarge h2P with hbig | ⟨hq0, hPval⟩
    · omega
    · subst hq0
      subst hPval
      push_cast at key
      have : (s : ℤ) < 9007199254740992 := by
        have : s < 9007199254740992 := by omega
        exact_mod_cast this
      have : (den : ℤ) ≥ 2 * 9007199254740992 := by exact_mod_cast h2P
      have : (0 : ℤ) ≤ r := by positivity
      omega
  · exact hfloor

theorem floorOfQuotient_exact (num den : Nat) (hden : 0 < den) (hnum : num < 2 ^ 53) :
    floorOfQuotient num den = num / den := by
  have hq : num / den < 2 ^ 53 := lt_of_le_of_lt (Nat.div_le_self _ _) hnum
  have hbits : bitLength (num / den) ≤ 53 := (bitLength_le_iff _ _).mpr hq
  unfold floorOfQuotient
  simp only [hbits, if_true]
  apply roundHalfEven_floor num den _ _ hden (by positivity) rfl _ (by norm_num at hnum; exact hnum)
  intro h2P
  by_cases hb0 : bitLength (num / den) = 0
  · right
    have hq0 : num / den < 2 ^ 0 := (bitLength_le_iff _ _).mp (by omega)
    refine ⟨by simpa using hq0, ?_⟩
    rw [hb0]
    norm_num
  · left
    have hQ : 2 ^ (bitLength (num / den) - 1) ≤ num / den := by
      by_contra hlt
      have := (bitLength_le_iff (num / den) (bitLength (num / den) - 1)).mpr (by omega)
      omega
    have hpow : 2 * 2 ^ (53 - bitLength (num / den)) * 2 ^ (bitLength (num / den) - 1)
        = 9007199254740992 := by
      rw [mul_assoc, ← pow_add, ← pow_succ']
      have : 53 - bitLength (num / den) + (bitLength (num / den) - 1) + 1 = 53 := by omega
      rw [this]
      norm_num
    calc 9007199254740992
        = 2 * 2 ^ (53 - bitLength (num / den)) * 2 ^ (bitLength (num / den) - 1) := hpow.symm
      _ ≤ den * (num / den) := Nat.mul_le_mul h2P hQ

theorem jsRemainingTime_exact (lifetime : Bool) (expiryDate : Option Int) (now : Nat)
    (hsafe : ∀ e, expiryDate = some e → isSafeInteger e) :
    jsRemainingTime lifetime (expiryDate.map JsNumber.finite) now
      = if lifetime then .lifetime
        else if !truthyNum expiryDate || decide ((now : Int) ≥ expiryDate.getD 0) then .expired
        else if (expiryDate.getD 0 - (now : Int)) / 86400000 > 0 then
          .daysAndHours (.finite ((expiryDate.getD 0 - (now : Int)) / 86400000))
            (.finite ((expiryDate.getD 0 - (now : Int)) % 86400000 / 3600000))
        else .hoursOnly (.finite ((expiryDate.getD 0 - (now : Int)) % 86400000 / 3600000)) := by
  unfold jsRemainingTime
  cases lifetime with
  | true => simp
  | false =>
    cases expiryDate with
    | none => simp [truthyNum]
    | some e =>
      obtain ⟨hlo, hhi⟩ := hsafe e rfl
      simp only [Option.map_some', Option.getD_some, JsNumber.truthy, JsNumber.le, truthyNum,
        Bool.false_eq_true, if_false]
      by_cases hexpired : (!decide (e ≠ 0) || decide (e ≤ (now : Int))) = true
      · have h2 : (!decide (e ≠ 0) || decide ((now : Int) ≥ e)) = true := by simpa using hexpired
        rw [if_pos hexpired, if_pos h2]
      · have h2 : ¬ (!decide (e ≠ 0) || decide ((now : Int) ≥ e)) = true := by simpa using hexpired
        rw [if_neg hexpired, if_neg h2]
        have hfuture : (now : Int) < e := by
          by_contra hle
          apply hexpired
          simp [not_lt.mp hle]
        have hdiff : toDouble (e - (now : Int)) = .finite (e - (now : Int)) :=
          toDouble_of_safeInteger _ ⟨by omega, by omega⟩
        obtain ⟨d, hd⟩ : ∃ d : Nat, e - (now : Int) = (d : Int) :=
          ⟨(e - (now : Int)).toNat, (Int.toNat_of_nonneg (by omega)).symm⟩
        rw [hd] at hdiff
        have hdlt : d < 2 ^ 53 := by
          norm_num
          omega
        have hmodlt : d % 86400000 < 2 ^ 53 := by
          norm_num
          omega
        simp only [JsNumber.sub, hdiff, hd, JsNumber.floorDiv, JsNumber.mod, JsNumber.lt]
        have hnonneg : (0 : Int) ≤ (d : Int) := Int.ofNat_nonneg d
        have hmodnonneg : (0 : Int) ≤ (d : Int) % ((1000 * 60 * 60 * 24 : Nat) : Int) :=
          Int.emod_nonneg _ (by norm_num)
        rw [if_pos hnonneg, if_pos hnonneg]
        simp only [if_pos hmodnonneg, Int.toNat_ofNat]
        have hmodcast : ((d : Int) % ((1000 * 60 * 60 * 24 : Nat) : Int)).toNat = d % 86400000 := by
          norm_num
          omega
        have hdays : floorOfQuotient d (1000 * 60 * 60 * 24) = d / 86400000 :=
          floorOfQuotient_exact d _ (by norm_num) hdlt
        have hhours : floorOfQuotient (d % 86400000) (1000 * 60 * 60)
            = d % 86400000 / 3600000 :=
          floorOfQuotient_exact (d % 86400000) _ (by norm_num) hmodlt
        simp only [hmodcast, hdays, hhours]
        by_cases hdays : 0 < d / 86400000
        · have hdays2 : (0 : Int) < (d : Int) / 86400000 := by omega
          simp [hdays, hdays2]
        · have hdays2 : ¬ (0 : Int) < (d : Int) / 86400000 := by omega
          simp [hdays, hdays2]

theorem roundHalfEven_ge (n d : Nat) : n / d ≤ roundHalfEven n d := by
  unfold roundHalfEven
  split_ifs <;> omega

theorem nearestDouble_pos (n a : Nat) (hnearest : nearestDouble n = some a) (hn : 0 < n) :
    0 < a := by
  unfold nearestDouble at hnearest
  by_cases hbits : bitLength n ≤ 53
  · simp only [hbits, if_true] at hnearest
    have : n = a := Option.some.inj hnearest
    omega
  · simp only [hbits, if_false] at hnearest
    split_ifs at hnearest
    have hrounded : roundHalfEven n (2 ^ (bitLength n - 53)) * 2 ^ (bitLength n - 53) = a :=
      Option.some.inj hnearest
    have hlow : 2 ^ (bitLength n - 53) ≤ n := by
      by_contra hlt
      have := (bitLength_le_iff n (bitLength n - 53)).mpr (by omega)
      omega
    have hquot : 1 ≤ n / 2 ^ (bitLength n - 53) :=
      (Nat.one_le_div_iff (by positivity)).mpr hlow
    have hround := roundHalfEven_ge n (2 ^ (bitLength n - 53))
    have hpow : 0 < 2 ^ (bitLength n - 53) := by positivity
    rw [← hrounded]
    exact Nat.mul_pos (by omega) hpow

theorem toDouble_refused (value : Int) :
    ((toDouble value).isNaN || (toDouble value).le (.finite 0)) = decide (value ≤ 0) := by
  unfold toDouble
  cases hnearest : nearestDouble value.natAbs with
  | none =>
    have hne : value ≠ 0 := by
      intro h0
      subst h0
      simp [nearestDouble, bitLength, bitLengthFrom] at hnearest
    simp only [JsNumber.isNaN, JsNumber.le, Bool.false_or]
    by_cases hneg : value < 0
    · have hle : value ≤ 0 := by omega
      simp [hneg, hle]
    · have hle : ¬ value ≤ 0 := by omega
      simp [hneg, hle]
  | some a =>
    simp only [JsNumber.isNaN, JsNumber.le, Bool.false_or]
    by_cases hneg : value < 0
    · have hle : value ≤ 0 := by omega
      have ha : -(a : Int) ≤ 0 := by omega
      simp [hneg, hle, ha]
    · simp only [hneg, if_false]
      by_cases hzero : value = 0
      · subst hzero
        have : a = 0 := by
          simp [nearestDouble, bitLength, bitLengthFrom] at hnearest
          omega
        subst this
        simp
      · have hpos := nearestDouble_pos value.natAbs a hnearest (by omega)
        have hle : ¬ value ≤ 0 := by omega
        have ha : ¬ (a : Int) ≤ 0 := by omega
        simp [hle, ha]

theorem jsParseInt_exact (s : String) (value : Int) (hparse : parseInt s = some value)
    (hsafe : isSafeInteger value) : jsParseInt s = .finite value := by
  unfold jsParseInt
  rw [hparse]
  exact toDouble_of_safeInteger value hsafe

theorem jsParseInt_refused (s : String) :
    ((jsParseInt s).isNaN || (jsParseInt s).le (.finite 0))
      = ((parseInt s).isNone || decide ((parseInt s).getD 0 ≤ 0)) := by
  unfold jsParseInt
  cases hparse : parseInt s with
  | none => simp [JsNumber.isNaN]
  | some value => simp [toDouble_refused value]

/-! ## Premium time in JavaScript numbers: the claims -/

/-- C1, as stated, fails for a large `durationValue`: a grant of `10 ^ 17` seconds at
`now = 1000` to a user without a record.  The code computes `10 ^ 17 * 1000`, which is
`10 ^ 20`, and then `1000 + 10 ^ 20`, which as a JavaScript number is `10 ^ 20` again; the
expiry date stored is not `base + durationValue * unit = 10 ^ 20 + 1000`. -/
theorem addPremiumTime_rounds_large_grant :
    jsExpiryDate none "seconds" (.finite 100000000000000000) 1000
        = .finite 100000000000000000000
      ∧ accrualBase none 1000 + 100000000000000000 * unitMillis "seconds"
        = 100000000000000001000
      ∧ jsExpiryDate none "seconds" (.finite 100000000000000000) 1000
        ≠ .finite (accrualBase none 1000 + 100000000000000000 * unitMillis "seconds") := by
  decide

/-- C1, amended: whatever the prior state of the user's premium record (absent or present,
with any flags), for each duration kind among seconds, days, months and years, every clock
value `now` and every integer `durationValue` for which `durationValue * unit` and
`base + durationValue * unit` are safe integers (of magnitude at most `2 ^ 53 - 1`),
`addPremiumTime` leaves the record with `lifetime = false` and
`expiryDate = base + durationValue * unit`, which is the number the code computes; `base` is
`max(now, existing expiryDate)` (`now` when none is set) and `unit` is 1000, 86,400,000,
30 * 86,400,000 or 365 * 86,400,000 ms.  In particular a 30-day grant at `T0` on a fresh
record followed by a 10-day grant at `T0 + 5 days` gives `expiryDate = T0 + 40 days`, for
`T0 + 40 days` a safe integer. -/
theorem addPremiumTime_expiry_rule (database : Database) (userId durationType : String)
    (durationValue : Int) (grantedBy : String) (now : Nat)
    (hkind : durationType = "seconds" ∨ durationType = "days" ∨ durationType = "months"
      ∨ durationType = "years")
    (hproduct : isSafeInteger (durationValue * unitMillis durationType))
    (hsum : isSafeInteger
      (accrualBase (expiryOf database userId) now + durationValue * unitMillis durationType)) :
    jsExpiryDate ((expiryOf database userId).map JsNumber.finite) durationType
          (.finite durationValue) now
        = .finite
            (accrualBase (expiryOf database userId) now + durationValue * unitMillis durationType)
      ∧ (∃ buyer,
        (addPremiumTime database userId durationType durationValue grantedBy now).premiumBuyers.lookup
            userId = some buyer
        ∧ buyer.lifetime = false
        ∧ buyer.expiryDate
            = some (accrualBase (expiryOf database userId) now
                + durationValue * unitMillis durationType))
      ∧ (unitMillis "seconds" = 1000 ∧ unitMillis "days" = 86400000
          ∧ unitMillis "months" = 30 * 86400000 ∧ unitMillis "years" = 365 * 86400000)
      ∧ (∀ (T0 : Nat) (g1 g2 : String), database.premiumBuyers.lookup userId = none →
          isSafeInteger ((T0 : Int) + 40 * 86400000) →
          jsExpiryDate none "days" (.finite 30) T0 = .finite ((T0 : Int) + 30 * 86400000)
            ∧ jsExpiryDate (some (.finite ((T0 : Int) + 30 * 86400000))) "days" (.finite 10)
                (T0 + 5 * 86400000)
              = .finite ((T0 : Int) + 40 * 86400000)
            ∧ expiryOf
                (addPremiumTime (addPremiumTime database userId "days" 30 g1 T0) userId "days" 10
                  g2 (T0 + 5 * 86400000)) userId
              = some ((T0 : Int) + 40 * 86400000)) := by
  have hne : durationType ≠ "lifetime" := by
    rcases hkind with h | h | h | h <;> subst h <;> decide
  refine ⟨jsExpiryDate_exact _ durationType durationValue now hkind hproduct hsum, ?_, ?_, ?_⟩
  · refine ⟨_, lookup_addPremiumTime database userId durationType durationValue grantedBy now, ?_, ?_⟩
    · exact (grantTo_not_lifetime _ durationType durationValue grantedBy now hne).1
    · rw [(grantTo_not_lifetime _ durationType durationValue grantedBy now hne).2.1,
        expiryDate_getD_newBuyer]
  · refine ⟨?_, ?_, ?_, ?_⟩ <;> simp [unitMillis]
  · intro T0 g1 g2 habsent hT0
    have hdays : ("days" : String) ≠ "lifetime" := by decide
    have hunit : unitMillis "days" = 86400000 := by decide
    obtain ⟨hlo, hhi⟩ := hT0
    have hT0nonneg : (0 : Int) ≤ (T0 : Int) := Int.ofNat_nonneg T0
    refine ⟨?_, ?_, ?_⟩
    · have h := jsExpiryDate_exact none "days" 30 T0 (Or.inr (Or.inl rfl))
        (by rw [hunit]; exact ⟨by norm_num, by norm_num⟩)
        (by
          rw [hunit]
          simp only [accrualBase]
          exact ⟨by omega, by omega⟩)
      rw [hunit] at h
      simp only [accrualBase, Option.map_none'] at h
      rw [h]
    · have hmax : max (((T0 + 5 * 86400000 : Nat) : Int)) ((T0 : Int) + 30 * 86400000)
          = (T0 : Int) + 30 * 86400000 := by
        push_cast
        exact max_eq_right (by omega)
      have hadd : (T0 : Int) + 30 * 86400000 + 10 * 86400000 = (T0 : Int) + 40 * 86400000 := by
        omega
      have h := jsExpiryDate_exact (some ((T0 : Int) + 30 * 86400000)) "days" 10
        (T0 + 5 * 86400000) (Or.inr (Or.inl rfl))
        (by rw [hunit]; exact ⟨by norm_num, by norm_num⟩)
        (by
          rw [hunit]
          simp only [accrualBase]
          rw [hmax, hadd]
          exact ⟨by omega, by omega⟩)
      rw [hunit] at h
      simp only [accrualBase, Option.map_some'] at h
      rw [hmax, hadd] at h
      exact h
    · have hfresh : expiryOf database userId = none := by simp [expiryOf, habsent]
      rw [expiryOf_addPremiumTime _ _ _ _ _ _ hdays, expiryOf_addPremiumTime _ _ _ _ _ _ hdays,
        hfresh]
      simp only [accrualBase, unitMillis]
      simp
      omega

/-- C1 amended, at a concrete input: a 30-day grant at `now = 1000` on the empty database,
followed by a 10-day grant five days later. -/
theorem addPremiumTime_expiry_rule_witness :
    jsExpiryDate none "days" (.finite 30) 1000 = .finite (1000 + 30 * 86400000)
      ∧ expiryOf (addPremiumTime defaultDb "U" "days" 30 "admin" 1000) "U"
        = some (1000 + 30 * 86400000)
      ∧ expiryOf
          (addPremiumTime (addPremiumTime defaultDb "U" "days" 30 "admin" 1000) "U" "days" 10
            "admin" (1000 + 5 * 86400000)) "U"
        = some (1000 + 40 * 86400000) := by
  have h := addPremiumTime_expiry_rule defaultDb "U" "days" 30 "admin" 1000 (by decide)
    (by decide) (by decide)
  refine ⟨by decide, by decide, ?_⟩
  have h2 := (h.2.2.2 1000 "admin" "admin" (by decide) (by decide)).2.2
  simpa using h2

/-- C23, as stated, fails for a large expiry date.  A custom input of
`117964800000000000` seconds at `now = 1000` to a user without a record stores the expiry
date `117964800000000000000`; read at `now = 1000`, the difference `expiryDate - now` is as
a JavaScript number the expiry date itself, and the label shows `8` hours, where
`floor(((expiryDate - now) mod 86,400,000) / 3,600,000)` is `7`.  And for a record whose
expiry date is `Infinity` the hours shown are `NaN`, which is not a number from `0` to
`23`. -/
theorem getRemainingTime_rounds_large_expiry :
    jsCustomtimeGrant none "117964800000000000" 1000
        = .expires (.finite 117964800000000000000)
      ∧ jsRemainingTime false (some (.finite 117964800000000000000)) 1000
        = .daysAndHours (.finite 1365333333333) (.finite 8)
      ∧ ((117964800000000000000 - 1000 : Int) % 86400000) / 3600000 = 7
      ∧ jsRemainingTime false (some (.infinity false)) 1000
        = .daysAndHours (.infinity false) .nan := by
  refine ⟨by decide, by decide, by decide, by decide⟩

/-- C23, amended: for every user with a premium record whose expiry date, if set, is a safe
integer (of magnitude at most `2 ^ 53 - 1`) and every clock value `now`, `getRemainingTime`
returns `Lifetime` if the record is lifetime; `Expired / Berakhir` exactly when the record
is non-lifetime and `isPremiumActive` is false at `now`; and otherwise the label built from
`days = floor((expiryDate - now) / 86,400,000)` and
`hours = floor(((expiryDate - now) mod 86,400,000) / 3,600,000)`, where
`0 <= hours < 24`, with days and hours when `days > 0` and hours alone when `days = 0`;
these `days` and `hours` are the numbers the code computes. -/
theorem getRemainingTime_spec (database : Database) (userId : String) (now : Nat)
    (buyer : PremiumBuyer) (hrecord : database.premiumBuyers.lookup userId = some buyer)
    (hsafe : ∀ e, buyer.expiryDate = some e → isSafeInteger e) :
    (buyer.lifetime = true →
        getRemainingTime database userId now = some "Lifetime"
          ∧ jsRemainingTime buyer.lifetime (buyer.expiryDate.map JsNumber.finite) now
              = .lifetime)
      ∧ (buyer.lifetime = false →
          (getRemainingTime database userId now = some "Expired / Berakhir" ↔
            isPremiumActive database userId now = false)
            ∧ (jsRemainingTime buyer.lifetime (buyer.expiryDate.map JsNumber.finite) now
                  = .expired ↔
                isPremiumActive database userId now = false))
      ∧ (buyer.lifetime = false → isPremiumActive database userId now = true →
          ∃ expiryDate days hours : Int,
            buyer.expiryDate = some expiryDate
              ∧ days = (expiryDate - (now : Int)) / 86400000
              ∧ hours = ((expiryDate - (now : Int)) % 86400000) / 3600000
              ∧ 0 ≤ days ∧ 0 ≤ hours ∧ hours < 24
              ∧ jsRemainingTime buyer.lifetime (buyer.expiryDate.map JsNumber.finite) now
                  = (if days > 0 then .daysAndHours (.finite days) (.finite hours)
                    else .hoursOnly (.finite hours))
              ∧ getRemainingTime database userId now
                  = some
                      (if days > 0 then
                        toString days ++ " days " ++ toString hours ++ " hours / "
                          ++ toString days ++ " hari " ++ toString hours ++ " jam"
                      else toString hours ++ " hours / " ++ toString hours ++ " jam")) := by
  have hjs := jsRemainingTime_exact buyer.lifetime buyer.expiryDate now hsafe
  refine ⟨?_, ?_, ?_⟩
  · intro hlife
    refine ⟨by simp [getRemainingTime, hrecord, hlife], ?_⟩
    rw [hjs]
    simp [hlife]
  · intro hlife
    rw [isPremiumActive_active_iff database userId now buyer hrecord hlife]
    by_cases hactive : truthyNum buyer.expiryDate = true
        ∧ (now : Int) < buyer.expiryDate.getD 0
    · have h1 : (!truthyNum buyer.expiryDate
          || decide ((now : Int) ≥ buyer.expiryDate.getD 0)) = false := by
        simp [hactive.1, hactive.2]
      refine ⟨?_, ?_⟩
      · unfold getRemainingTime
        simp only [hrecord, hlife]
        simp [h1, remainingLabel_ne_expired, hactive.1, hactive.2]
      · rw [hjs]
        simp only [hlife, h1, Bool.false_eq_true, if_false]
        constructor
        · intro h
          split_ifs at h
        · intro h
          exact absurd hactive h
    · have h1 : (!truthyNum buyer.expiryDate
          || decide ((now : Int) ≥ buyer.expiryDate.getD 0)) = true := by
        by_cases ht : truthyNum buyer.expiryDate = true
        · have : ¬ (now : Int) < buyer.expiryDate.getD 0 := fun h => hactive ⟨ht, h⟩
          simp [ht, not_lt.mp this]
        · simp [ht]
      refine ⟨?_, ?_⟩
      · unfold getRemainingTime
        simp only [hrecord, hlife, h1]
        simp
        intro ht
        exact not_lt.mp (fun h => hactive ⟨ht, h⟩)
      · rw [hjs]
        simp only [hlife, h1, Bool.false_eq_true, if_false, if_true]
        simp only [true_iff]
        exact hactive
  · intro hlife hactive
    obtain ⟨htruthy, hnow⟩ :
        truthyNum buyer.expiryDate = true ∧ (now : Int) < buyer.expiryDate.getD 0 := by
      by_contra hcon
      rw [(isPremiumActive_active_iff database userId now buyer hrecord hlife).mpr hcon]
        at hactive
      exact absurd hactive (by decide)
    cases he : buyer.expiryDate with
    | none => simp [truthyNum, he] at htruthy
    | some e =>
      simp only [he, Option.getD_some] at hnow
      have h1 : (!truthyNum buyer.expiryDate
          || decide ((now : Int) ≥ buyer.expiryDate.getD 0)) = false := by
        rw [he] at htruthy
        simp [htruthy, he, hnow]
      refine ⟨e, _, _, rfl, rfl, rfl, ?_, ?_, ?_, ?_, ?_⟩
      · exact Int.ediv_nonneg (by omega) (by norm_num)
      · exact Int.ediv_nonneg (Int.emod_nonneg _ (by norm_num)) (by norm_num)
      · have hmod : (e - (now : Int)) % 86400000 < 86400000 :=
          Int.emod_lt_of_pos _ (by norm_num)
        omega
      · rw [he] at hjs h1
        rw [hjs]
        simp only [hlife, h1, Bool.false_eq_true, if_false]
        simp only [Option.getD_some]
      · unfold getRemainingTime
        simp only [hrecord, hlife, h1]
        simp [remainingLabel, he]

/-- C23 amended, at a concrete input: an expiry `1000 + 30 days`, read one hour after the
grant. -/
theorem getRemainingTime_spec_witness :
    getRemainingTime (addPremiumTime defaultDb "U" "days" 30 "admin" 1000) "U" 3601000
        = some "29 days 23 hours / 29 hari 23 jam"
      ∧ jsRemainingTime false (some (.finite (1000 + 30 * 86400000))) 3601000
        = .daysAndHours (.finite 29) (.finite 23) := by
  obtain ⟨e, days, hours, he, hdays, hhours, _, _, _, _, hlabel⟩ :=
    (getRemainingTime_spec (addPremiumTime defaultDb "U" "days" 30 "admin" 1000) "U" 3601000
      (grantTo (newBuyer "U" "admin" 1000) "days" 30 "admin" 1000) (by decide)
      (by
        intro e he
        have h : (grantTo (newBuyer "U" "admin" 1000) "days" 30 "admin" 1000).expiryDate
            = some (1000 + 30 * 86400000) := by decide
        rw [h] at he
        rw [← Option.some.inj he]
        decide)).2.2 (by decide) (by decide)
  have he' : e = 1000 + 30 * 86400000 := by
    have h : (grantTo (newBuyer "U" "admin" 1000) "days" 30 "admin" 1000).expiryDate
        = some (1000 + 30 * 86400000) := by decide
    rw [h] at he
    exact (Option.some.inj he).symm
  subst he'
  refine ⟨?_, by decide⟩
  rw [hlabel, hdays, hhours]
  decide

/-! ## The set-buyer handlers: the claim -/

theorem jsDurationGrant_button (existing : Option JsNumber)
    (targetUserId valueText kind : String) (now : Nat)
    (htarget : isDigits targetUserId = true) (hvalue : '_' ∉ valueText.toList)
    (hkind : '_' ∉ kind.toList) :
    jsDurationGrant existing (durationButtonId targetUserId (valueText, kind)) now
      = if (decide (kind ≠ "lifetime")
            && ((jsParseInt valueText).isNaN || (jsParseInt valueText).le (.finite 0))) = true
        then .refused
        else if kind = "lifetime" then .lifetime
        else .expires (jsExpiryDate existing kind (jsParseInt valueText) now) := by
  unfold jsDurationGrant
  rw [splitUnderscore_durationButtonId targetUserId valueText kind htarget hvalue hkind]
  simp

theorem jsDurationGrant_timed (existing : Option Int) (targetUserId valueText kind : String)
    (value : Int) (now : Nat)
    (htarget : isDigits targetUserId = true) (hvalue : '_' ∉ valueText.toList)
    (hkindText : '_' ∉ kind.toList) (hparse : jsParseInt valueText = .finite value)
    (hpositive : 0 < value)
    (hkind : kind = "seconds" ∨ kind = "days" ∨ kind = "months" ∨ kind = "years")
    (hproduct : isSafeInteger (value * unitMillis kind))
    (hsum : isSafeInteger (accrualBase existing now + value * unitMillis kind)) :
    jsDurationGrant (existing.map JsNumber.finite) (durationButtonId targetUserId (valueText, kind))
        now
      = .expires (.finite (accrualBase existing now + value * unitMillis kind)) := by
  have hne : kind ≠ "lifetime" := by
    rcases hkind with h | h | h | h <;> subst h <;> decide
  have hnot : ¬ value ≤ 0 := by omega
  rw [jsDurationGrant_button _ targetUserId valueText kind now htarget hvalue hkindText, hparse,
    jsExpiryDate_exact existing kind value now hkind hproduct hsum]
  simp [JsNumber.isNaN, JsNumber.le, hne, hnot]

theorem jsCustomtimeGrant_exact (existing : Option Int) (content : String) (seconds : Int)
    (now : Nat) (hparse : parseInt (jsTrim content) = some seconds) (hpositive : 0 < seconds)
    (hsum : isSafeInteger (accrualBase existing now + seconds * 1000)) :
    jsCustomtimeGrant (existing.map JsNumber.finite) content now
      = .expires (.finite (accrualBase existing now + seconds * 1000)) := by
  have hbase := now_le_accrualBase existing now
  have hnow : (0 : Int) ≤ (now : Int) := Int.ofNat_nonneg now
  obtain ⟨hlo, hhi⟩ := hsum
  have hunit : unitMillis "seconds" = 1000 := by decide
  have hjs : jsParseInt (jsTrim content) = .finite seconds :=
    jsParseInt_exact _ seconds hparse ⟨by omega, by omega⟩
  have hnot : ¬ seconds ≤ 0 := by omega
  have hexpiry := jsExpiryDate_exact existing "seconds" seconds now (Or.inl rfl)
    (by rw [hunit]; exact ⟨by omega, by omega⟩) (by rw [hunit]; exact ⟨hlo, hhi⟩)
  rw [hunit] at hexpiry
  unfold jsCustomtimeGrant
  simp only [hjs, hexpiry]
  simp [JsNumber.isNaN, JsNumber.le, hnot]

theorem jsCustomtimeGrant_refused (existing : Option JsNumber) (content : String) (now : Nat)
    (hbad : parseInt (jsTrim content) = none
      ∨ ∃ seconds, parseInt (jsTrim content) = some seconds ∧ seconds ≤ 0) :
    jsCustomtimeGrant existing content now = .refused := by
  unfold jsCustomtimeGrant
  simp only [jsParseInt_refused]
  rcases hbad with hnone | ⟨seconds, hsome, hle⟩
  · simp [hnone]
  · simp [hsome, hle]

theorem jsDurationGrant_refused (existing : Option JsNumber)
    (targetUserId valueText kind : String) (now : Nat)
    (htarget : isDigits targetUserId = true) (hvalue : '_' ∉ valueText.toList)
    (hkind : '_' ∉ kind.toList) (hnot : kind ≠ "lifetime")
    (hbad : parseInt valueText = none ∨ ∃ value, parseInt valueText = some value ∧ value ≤ 0) :
    jsDurationGrant existing (durationButtonId targetUserId (valueText, kind)) now = .refused := by
  rw [jsDurationGrant_button _ targetUserId valueText kind now htarget hvalue hkind,
    jsParseInt_refused]
  rcases hbad with hnone | ⟨value, hsome, hle⟩
  · simp [hnone, hnot]
  · simp [hsome, hnot, hle]

/-- C28, as stated, fails for large numbers of seconds.  The custom input
`100000000000000000` passes validation and stores the expiry date `10 ^ 20` for a user
without a record at `now = 1000`.  The custom input `1` then passes validation too, and the
expiry date it stores is `10 ^ 20` again: the existing future expiry date is not strictly
increased.  And the custom input `9007199254740993` calls `addPremiumTime` with
`9007199254740992` seconds. -/
theorem customtime_grant_keeps_large_expiry :
    jsCustomtimeGrant none "100000000000000000" 1000
        = .expires (.finite 100000000000000000000)
      ∧ jsParseInt (jsTrim "1") = .finite 1
      ∧ jsCustomtimeGrant (some (.finite 100000000000000000000)) "1" 1000
        = .expires (.finite 100000000000000000000)
      ∧ jsParseInt (jsTrim "9007199254740993") = .finite 9007199254740992 := by
  refine ⟨by decide, by decide, by decide, by decide⟩

/-- C28, amended: every grant issued through the set-buyer handlers whose new expiry date
`base + value * unit` is a safe integer (of magnitude at most `2 ^ 53 - 1`) leaves the
target premium-active.  For a target id that passed the digits test, each of the seven
duration buttons calls `addPremiumTime` with the kind `lifetime` or with a strictly positive
value, and every custom seconds input that passes validation calls it with a strictly
positive number of seconds; so, the new expiry date being a safe integer,
`isPremiumActive(target)` is true at the grant time and an existing future `expiryDate` is
strictly increased (a lifetime grant clears it, the target then being active at every
time).  A value that is not a number or not positive, with a kind other than `lifetime`, is
refused without changing the database. -/
theorem set_buyer_grants_leave_target_active (database : Database)
    (targetUserId username : String) (now : Nat) (htarget : isDigits targetUserId = true) :
    (∀ button ∈ presetButtons,
        ∃ value : Int,
          parseInt button.1 = some value ∧ jsParseInt button.1 = .finite value
            ∧ (button.2 = "lifetime" ∨ 0 < value)
            ∧ durationAction database (durationButtonId targetUserId button) username now
                = (.premiumAdded,
                    addPremiumTime database targetUserId button.2 value username now)
            ∧ (button.2 = "lifetime" →
                jsDurationGrant ((expiryOf database targetUserId).map JsNumber.finite)
                    (durationButtonId targetUserId button) now = .lifetime
                  ∧ ∀ later : Nat,
                      isPremiumActive
                          (durationAction database (durationButtonId targetUserId button)
                            username now).2 targetUserId later = true)
            ∧ (button.2 ≠ "lifetime" →
                isSafeInteger
                  (accrualBase (expiryOf database targetUserId) now
                    + value * unitMillis button.2) →
                jsDurationGrant ((expiryOf database targetUserId).map JsNumber.finite)
                    (durationButtonId targetUserId button) now
                  = .expires
                      (.finite
                        (accrualBase (expiryOf database targetUserId) now
                          + value * unitMillis button.2))
                  ∧ expiryOf
                        (durationAction database (durationButtonId targetUserId button)
                          username now).2 targetUserId
                      = some
                          (accrualBase (expiryOf database targetUserId) now
                            + value * unitMillis button.2)
                  ∧ isPremiumActive
                        (durationAction database (durationButtonId targetUserId button)
                          username now).2 targetUserId now = true
                  ∧ ∀ existing : Int, expiryOf database targetUserId = some existing →
                      (now : Int) < existing →
                      existing
                          < accrualBase (expiryOf database targetUserId) now
                            + value * unitMillis button.2
                        ∧ isPremiumActive
                            (durationAction database (durationButtonId targetUserId button)
                              username now).2 targetUserId existing.toNat = true))
      ∧ (∀ (content : String) (seconds : Int),
          parseInt (jsTrim content) = some seconds → 0 < seconds →
          isSafeInteger (accrualBase (expiryOf database targetUserId) now + seconds * 1000) →
          jsCustomtimeGrant ((expiryOf database targetUserId).map JsNumber.finite) content now
              = .expires
                  (.finite (accrualBase (expiryOf database targetUserId) now + seconds * 1000))
            ∧ customtimeCollect database (customtimeButtonId targetUserId) content username now
              = (.premiumAdded,
                  addPremiumTime database targetUserId "seconds" seconds username now)
            ∧ expiryOf
                  (customtimeCollect database (customtimeButtonId targetUserId) content username
                    now).2 targetUserId
                = some (accrualBase (expiryOf database targetUserId) now + seconds * 1000)
            ∧ isPremiumActive
                (customtimeCollect database (customtimeButtonId targetUserId) content username
                  now).2 targetUserId now = true
            ∧ ∀ existing : Int, expiryOf database targetUserId = some existing →
                (now : Int) < existing →
                existing < accrualBase (expiryOf database targetUserId) now + seconds * 1000)
      ∧ (∀ content : String,
          (parseInt (jsTrim content) = none
              ∨ ∃ seconds, parseInt (jsTrim content) = some seconds ∧ seconds ≤ 0) →
          jsCustomtimeGrant ((expiryOf database targetUserId).map JsNumber.finite) content now
              = .refused
            ∧ customtimeCollect database (customtimeButtonId targetUserId) content username now
              = (.invalidSeconds, database))
      ∧ (∀ valueText kind : String, '_' ∉ valueText.toList → '_' ∉ kind.toList →
          kind ≠ "lifetime" →
          (parseInt valueText = none
              ∨ ∃ value, parseInt valueText = some value ∧ value ≤ 0) →
          jsDurationGrant ((expiryOf database targetUserId).map JsNumber.finite)
              (durationButtonId targetUserId (valueText, kind)) now = .refused
            ∧ durationAction database (durationButtonId targetUserId (valueText, kind)) username
                now
              = (.invalidDuration, database))
      ∧ (∀ customId : String,
          (durationAction database customId username now).1 = .invalidDuration →
          (durationAction database customId username now).2 = database) := by
  refine ⟨?_, ?_, ?_, ?_, ?_⟩
  · intro button hbutton
    have htimed : ∀ (valueText kind : String) (value : Int),
        button = (valueText, kind) → '_' ∉ valueText.toList → '_' ∉ kind.toList →
        parseInt valueText = some value → jsParseInt valueText = .finite value → 0 < value →
        (kind = "seconds" ∨ kind = "days" ∨ kind = "months" ∨ kind = "years") →
        isSafeInteger (value * unitMillis kind) →
        ∃ value : Int,
          parseInt button.1 = some value ∧ jsParseInt button.1 = .finite value
            ∧ (button.2 = "lifetime" ∨ 0 < value)
            ∧ durationAction database (durationButtonId targetUserId button) username now
                = (.premiumAdded,
                    addPremiumTime database targetUserId button.2 value username now)
            ∧ (button.2 = "lifetime" →
                jsDurationGrant ((expiryOf database targetUserId).map JsNumber.finite)
                    (durationButtonId targetUserId button) now = .lifetime
                  ∧ ∀ later : Nat,
                      isPremiumActive
                          (durationAction database (durationButtonId targetUserId button)
                            username now).2 targetUserId later = true)
            ∧ (button.2 ≠ "lifetime" →
                isSafeInteger
                  (accrualBase (expiryOf database targetUserId) now
                    + value * unitMillis button.2) →
                jsDurationGrant ((expiryOf database targetUserId).map JsNumber.finite)
                    (durationButtonId targetUserId button) now
                  = .expires
                      (.finite
                        (accrualBase (expiryOf database targetUserId) now
                          + value * unitMillis button.2))
                  ∧ expiryOf
                        (durationAction database (durationButtonId targetUserId button)
                          username now).2 targetUserId
                      = some
                          (accrualBase (expiryOf database targetUserId) now
                            + value * unitMillis button.2)
                  ∧ isPremiumActive
                        (durationAction database (durationButtonId targetUserId button)
                          username now).2 targetUserId now = true
                  ∧ ∀ existing : Int, expiryOf database targetUserId = some existing →
                      (now : Int) < existing →
                      existing
                          < accrualBase (expiryOf database targetUserId) now
                            + value * unitMillis button.2
                        ∧ isPremiumActive
                            (durationAction database (durationButtonId targetUserId button)
                              username now).2 targetUserId existing.toNat = true) := by
      intro valueText kind value hb hv hk hparse hjs hpos hkind hproduct
      subst hb
      have haction := durationAction_button database targetUserId username now valueText kind
        value htarget hv hk hparse (Or.inr hpos)
      have heffect := positive_grant_effect database targetUserId kind value username now hkind
        hpos
      have hne : kind ≠ "lifetime" := by
        rcases hkind with h | h | h | h <;> subst h <;> decide
      refine ⟨value, hparse, hjs, Or.inr hpos, haction, fun hlife => absurd hlife hne, ?_⟩
      intro _ hsum
      refine ⟨jsDurationGrant_timed _ targetUserId valueText kind value now htarget hv hk hjs
        hpos hkind hproduct hsum, ?_, ?_, ?_⟩
      · rw [haction]
        exact expiryOf_addPremiumTime database targetUserId kind value username now hne
      · rw [haction]
        exact heffect.1
      · intro existing hexisting hfuture
        obtain ⟨hactive, newExpiry, hnew, hgreater⟩ := heffect.2 existing hexisting hfuture
        rw [expiryOf_addPremiumTime database targetUserId kind value username now hne] at hnew
        rw [haction]
        refine ⟨?_, hactive⟩
        rw [Option.some.inj hnew]
        exact hgreater
    simp only [presetButtons, List.mem_cons, List.mem_singleton, List.not_mem_nil, or_false]
      at hbutton
    rcases hbutton with h | h | h | h | h | h | h
    · exact htimed "7" "days" 7 h (by decide) (by decide) (by decide) (by decide) (by decide)
        (Or.inr (Or.inl rfl)) (by decide)
    · exact htimed "30" "days" 30 h (by decide) (by decide) (by decide) (by decide) (by decide)
        (Or.inr (Or.inl rfl)) (by decide)
    · exact htimed "1" "months" 1 h (by decide) (by decide) (by decide) (by decide) (by decide)
        (Or.inr (Or.inr (Or.inl rfl))) (by decide)
    · exact htimed "3" "months" 3 h (by decide) (by decide) (by decide) (by decide) (by decide)
        (Or.inr (Or.inr (Or.inl rfl))) (by decide)
    · exact htimed "6" "months" 6 h (by decide) (by decide) (by decide) (by decide) (by decide)
        (Or.inr (Or.inr (Or.inl rfl))) (by decide)
    · exact htimed "1" "years" 1 h (by decide) (by decide) (by decide) (by decide) (by decide)
        (Or.inr (Or.inr (Or.inr rfl))) (by decide)
    · subst h
      have hparse : parseInt "0" = some 0 := by decide
      have haction := durationAction_button database targetUserId username now "0" "lifetime" 0
        htarget (by decide) (by decide) hparse (Or.inl rfl)
      refine ⟨0, hparse, by decide, Or.inl rfl, haction, ?_, fun hne => absurd rfl hne⟩
      intro _
      refine ⟨?_, ?_⟩
      · rw [jsDurationGrant_button _ targetUserId "0" "lifetime" now htarget (by decide)
          (by decide)]
        simp
      · intro later
        rw [haction]
        exact active_after_lifetime database targetUserId 0 username now later
  · intro content seconds hparse hpos hsum
    have hnot : ¬ seconds ≤ 0 := by omega
    have haction :
        customtimeCollect database (customtimeButtonId targetUserId) content username now
          = (.premiumAdded,
              addPremiumTime database targetUserId "seconds" seconds username now) := by
      unfold customtimeCollect
      rw [splitUnderscore_customtimeButtonId targetUserId htarget]
      simp [hparse, hnot]
    have heffect := positive_grant_effect database targetUserId "seconds" seconds username now
      (Or.inl rfl) hpos
    have hseconds : ("seconds" : String) ≠ "lifetime" := by decide
    have hunit : unitMillis "seconds" = 1000 := by decide
    have hexpiry := expiryOf_addPremiumTime database targetUserId "seconds" seconds username now
      hseconds
    rw [hunit] at hexpiry
    refine ⟨jsCustomtimeGrant_exact _ content seconds now hparse hpos hsum, haction, ?_, ?_, ?_⟩
    · rw [haction]
      exact hexpiry
    · rw [haction]
      exact heffect.1
    · intro existing hexisting hfuture
      obtain ⟨_, newExpiry, hnew, hgreater⟩ := heffect.2 existing hexisting hfuture
      rw [hexpiry] at hnew
      rw [Option.some.inj hnew]
      exact hgreater
  · intro content hbad
    refine ⟨jsCustomtimeGrant_refused _ content now hbad, ?_⟩
    unfold customtimeCollect
    rcases hbad with hnone | ⟨seconds, hsome, hle⟩
    · simp [hnone]
    · simp [hsome, hle]
  · intro valueText kind hv hk hne hbad
    exact ⟨jsDurationGrant_refused _ targetUserId valueText kind now htarget hv hk hne hbad,
      durationAction_button_invalid database targetUserId username now valueText kind
        htarget hv hk hne hbad⟩
  · intro customId hreply
    unfold durationAction at hreply ⊢
    simp only at hreply ⊢
    split_ifs at hreply ⊢
    rfl

/-- C28 amended, at a concrete input: the 30-day button for target `123` on the empty
database at `now = 1000`. -/
theorem set_buyer_grants_leave_target_active_witness :
    jsDurationGrant none (durationButtonId "123" ("30", "days")) 1000
        = .expires (.finite (1000 + 30 * 86400000))
      ∧ isPremiumActive
          (durationAction defaultDb (durationButtonId "123" ("30", "days")) "admin" 1000).2
          "123" 1000 = true := by
  obtain ⟨value, hparse, _, _, _, _, htimed⟩ :=
    (set_buyer_grants_leave_target_active defaultDb "123" "admin" 1000 (by decide)).1
      ("30", "days") (by decide)
  have hvalue : value = 30 := by
    have h : parseInt "30" = some 30 := by decide
    rw [h] at hparse
    exact (Option.some.inj hparse).symm
  subst hvalue
  obtain ⟨hjs, _, hactive, _⟩ := htimed (by decide) (by decide)
  exact ⟨hjs, hactive⟩

set_option maxRecDepth 100000 in
set_option exponentiation.threshold 2000 in
/-- A custom input of 309 digits passes validation: the number of seconds is `Infinity`,
and so is the expiry date stored. -/
theorem customtime_grant_overflows :
    jsParseInt (jsTrim (String.mk (List.replicate 309 '9'))) = .infinity false
      ∧ jsCustomtimeGrant none (String.mk (List.replicate 309 '9')) 1000
        = .expires (.infinity false) := by
  refine ⟨by decide, by decide⟩

end Valmor
